import Mathlib

/-!
# HM5065 sensor driver: shallow embedding and verified properties

Source: `drivers/media/i2c/hm5065.c`.

Machine integers are embedded as `Nat` / `Int` with explicit reduction modulo
`2^w` at every place where the C type could wrap.  Operations that have no
defined result in C (division by zero) make the embedded function return
`none`.
-/

namespace HM5065

/-! ## Machine-integer helpers -/

/-- Reduction of an integer to the value range of an unsigned `w`-bit type. -/
def wrap_u (w : Nat) (x : Int) : Nat := (x % (2 ^ w : Int)).toNat

/-- Reduction of an integer to the value range of a signed `w`-bit type
(two's complement, the conversion gcc performs). -/
def wrap_s (w : Nat) (x : Int) : Int :=
  (x + 2 ^ (w - 1)) % (2 ^ w : Int) - 2 ^ (w - 1)

/-- Unsigned division of C: no result when the divisor is zero. -/
def udiv (a b : Nat) : Option Nat := if b = 0 then none else some (a / b)

/-! ## Float codec (`hm5065_mili_from_fp16`, `__fls64`, `hm5065_mili_to_fp16`) -/

/-- Embedding of `hm5065_mili_from_fp16(u16 fp_val)`; `long` is 64 bits wide. -/
def hm5065_mili_from_fp16 (fp_val : Nat) : Int :=
  let mantisa : Nat := fp_val &&& 0x1ff
  let exp : Int := (((fp_val >>> 9) &&& 0x3f : Nat) : Int) - 31
  let val : Int := 1000 * ((mantisa ||| 0x200 : Nat) : Int)
  let val : Int :=
    if exp > 0 then wrap_s 64 (val * 2 ^ exp.toNat)
    else if exp < 0 then val / 2 ^ (-exp).toNat
    else val
  let val : Int := val / 2 ^ 9
  if fp_val &&& 0x8000 ≠ 0 then wrap_s 64 (-val) else val

/-- Loop of `__fls64`: `for (i = 63; i >= -1; i--) { if (v & (1 << 63)) break; v <<= 1; }`,
returning the final `i`.  The first argument bounds the number of iterations. -/
def fls64_loop : Nat → Int → Nat → Int
  | 0, i, _ => i
  | fuel + 1, i, v =>
    if i ≥ -1 then
      if v &&& (1 <<< 63) ≠ 0 then i
      else fls64_loop fuel (i - 1) ((v <<< 1) % 2 ^ 64)
    else i

/-- Embedding of `__fls64(u64 v)`; 66 iterations always reach the loop exit. -/
def __fls64 (v : Nat) : Int := fls64_loop 66 63 v

/-- Embedding of `hm5065_mili_to_fp16(s32 val)`, result is a `u16`. -/
def hm5065_mili_to_fp16 (val : Int) : Nat :=
  if val = 0 then 0
  else
    let s : Nat := if val < 0 then 0x8000 else 0
    let val : Int := if val < 0 then wrap_s 32 (-val) else val
    let v : Nat := (wrap_u 64 val * 1024) % 2 ^ 64
    let v : Nat := (v / 1000 + (if v % 1000 ≥ 500 then 1 else 0)) % 2 ^ 64
    let fls : Int := __fls64 v
    let e : Nat := wrap_u 16 (31 + fls - 10)
    let m : Nat :=
      if fls > 9 then (v >>> (fls - 9).toNat) % 2 ^ 16
      else ((v <<< (9 - fls).toNat) % 2 ^ 64) % 2 ^ 16
    wrap_u 16 ((s ||| (m &&& 0x1ff) ||| (e <<< 9) : Nat) : Int)

/-- The value of the variable `v` of `hm5065_mili_to_fp16` after the rounding division
`v = v / 1000 + (((v % 1000) >= 500) ? 1 : 0)`, for an argument that is not zero. -/
def hm5065_mili_to_fp16_v (val : Int) : Nat :=
  let val : Int := if val < 0 then wrap_s 32 (-val) else val
  let v : Nat := (wrap_u 64 val * 1024) % 2 ^ 64
  (v / 1000 + (if v % 1000 ≥ 500 then 1 else 0)) % 2 ^ 64

/-! ## Constants

Constants defined in `hm5065.c` keep their value; constants of kernel headers that
are not part of the driver source are listed separately. -/

def HM5065_PCLK_FREQ_ABS_MAX : Nat := 89000000
def HM5065_FRAME_RATE_MAX : Int := 120

def HM5065_REG_DEVICE_ID : Nat := 0x0000
def HM5065_REG_DEVICE_ID_VALUE : Nat := 0x039e
def HM5065_REG_EXCLOCKLUT : Nat := 0x0009
def HM5065_REG_USER_COMMAND : Nat := 0x0010
def HM5065_REG_USER_COMMAND_STOP : Nat := 0x00
def HM5065_REG_USER_COMMAND_RUN : Nat := 0x01
def HM5065_REG_P0_SENSOR_MODE : Nat := 0x0040
def HM5065_REG_SENSOR_MODE_FULLSIZE : Nat := 0x00
def HM5065_REG_P0_IMAGE_SIZE : Nat := 0x0041
def HM5065_REG_IMAGE_SIZE_5MP : Nat := 0x00
def HM5065_REG_IMAGE_SIZE_UXGA : Nat := 0x01
def HM5065_REG_IMAGE_SIZE_SXGA : Nat := 0x02
def HM5065_REG_IMAGE_SIZE_SVGA : Nat := 0x03
def HM5065_REG_IMAGE_SIZE_VGA : Nat := 0x04
def HM5065_REG_IMAGE_SIZE_CIF : Nat := 0x05
def HM5065_REG_IMAGE_SIZE_QVGA : Nat := 0x06
def HM5065_REG_IMAGE_SIZE_QCIF : Nat := 0x07
def HM5065_REG_IMAGE_SIZE_QQVGA : Nat := 0x08
def HM5065_REG_IMAGE_SIZE_QQCIF : Nat := 0x09
def HM5065_REG_IMAGE_SIZE_MANUAL : Nat := 0x0a
def HM5065_REG_P0_MANUAL_HSIZE : Nat := 0x0042
def HM5065_REG_P0_MANUAL_VSIZE : Nat := 0x0044
def HM5065_REG_P0_DATA_FORMAT : Nat := 0x0046
def HM5065_REG_DATA_FORMAT_YCBCR_JFIF : Nat := 0x00
def HM5065_REG_DATA_FORMAT_RGB_565 : Nat := 0x03
def HM5065_REG_DATA_FORMAT_RGB_555 : Nat := 0x06
def HM5065_REG_YCRCB_ORDER : Nat := 0x0085
def HM5065_REG_YCRCB_ORDER_CB_Y_CR_Y : Nat := 0x00
def HM5065_REG_YCRCB_ORDER_CR_Y_CB_Y : Nat := 0x01
def HM5065_REG_YCRCB_ORDER_Y_CB_Y_CR : Nat := 0x02
def HM5065_REG_YCRCB_ORDER_Y_CR_Y_CB : Nat := 0x03
def HM5065_REG_DESIRED_FRAME_RATE_NUM : Nat := 0x00c8

/-- Modelled from the spec: `ENOMEM` of the kernel's `errno-base.h`, which is not
part of the driver source. -/
def ENOMEM : Int := 12
/-- Modelled from the spec: `EINVAL` of the kernel's `errno-base.h`, which is not
part of the driver source (the spec's `ConfigurationError`). -/
def EINVAL : Int := 22
/-- Modelled from the spec: `EBUSY` of the kernel's `errno-base.h`, which is not
part of the driver source (the spec's `Busy`). -/
def EBUSY : Int := 16
/-- Modelled from the spec: `V4L2_FIELD_NONE` of the kernel's `videodev2.h`, which is
not part of the driver source. -/
def V4L2_FIELD_NONE : Nat := 1
/-- Modelled from the spec: `V4L2_COLORSPACE_SRGB` of the kernel's `videodev2.h`,
which is not part of the driver source. -/
def V4L2_COLORSPACE_SRGB : Nat := 8
/-- Modelled from the spec: `V4L2_SUBDEV_FORMAT_TRY` of the kernel's `v4l2-subdev.h`,
which is not part of the driver source (the spec's "try" format). -/
def V4L2_SUBDEV_FORMAT_TRY : Nat := 0
/-- Modelled from the spec: `V4L2_SUBDEV_FORMAT_ACTIVE` of the kernel's
`v4l2-subdev.h`, which is not part of the driver source (the spec's current format). -/
def V4L2_SUBDEV_FORMAT_ACTIVE : Nat := 1
/-- Modelled from the spec: media bus codes of the kernel's `media-bus-format.h`,
which is not part of the driver source (the spec's four YCbCr orderings). -/
def MEDIA_BUS_FMT_UYVY8_2X8 : Nat := 0x2006
/-- Modelled from the spec: see `MEDIA_BUS_FMT_UYVY8_2X8`. -/
def MEDIA_BUS_FMT_VYUY8_2X8 : Nat := 0x2007
/-- Modelled from the spec: see `MEDIA_BUS_FMT_UYVY8_2X8`. -/
def MEDIA_BUS_FMT_YUYV8_2X8 : Nat := 0x2008
/-- Modelled from the spec: see `MEDIA_BUS_FMT_UYVY8_2X8`. -/
def MEDIA_BUS_FMT_YVYU8_2X8 : Nat := 0x2009
/-- Modelled from the spec: media bus code of the kernel's `media-bus-format.h`,
which is not part of the driver source (one of the spec's two RGB encodings). -/
def MEDIA_BUS_FMT_RGB555_2X8_PADHI_BE : Nat := 0x1003
/-- Modelled from the spec: see `MEDIA_BUS_FMT_RGB555_2X8_PADHI_BE`. -/
def MEDIA_BUS_FMT_RGB565_2X8_BE : Nat := 0x1007

/-! ## Mode tables -/

/-- The `struct hm5065_clk_lut`. -/
structure hm5065_clk_lut where
  clk_freq : Nat
  lut_id : Nat
deriving DecidableEq, Repr

def hm5065_clk_luts : List hm5065_clk_lut :=
  [ { clk_freq := 12000000, lut_id := 0x10 },
    { clk_freq := 13000000, lut_id := 0x11 },
    { clk_freq := 13500000, lut_id := 0x12 },
    { clk_freq := 14400000, lut_id := 0x13 },
    { clk_freq := 18000000, lut_id := 0x14 },
    { clk_freq := 19200000, lut_id := 0x15 },
    { clk_freq := 24000000, lut_id := 0x16 },
    { clk_freq := 26000000, lut_id := 0x17 },
    { clk_freq := 27000000, lut_id := 0x18 } ]

/-- Embedding of `hm5065_find_clk_lut`: first entry whose frequency equals `freq`,
`none` for the `NULL` result. -/
def hm5065_find_clk_lut (freq : Nat) : Option hm5065_clk_lut :=
  hm5065_clk_luts.find? (fun l => l.clk_freq == freq)

/-- The `struct hm5065_frame_size`. -/
structure hm5065_frame_size where
  width : Nat
  height : Nat
  reg_opt : Nat
deriving DecidableEq, Repr, Inhabited

def hm5065_frame_sizes : List hm5065_frame_size :=
  [ { width := 2592, height := 1944, reg_opt := HM5065_REG_IMAGE_SIZE_5MP },
    { width := 1920, height := 1080, reg_opt := 0 },
    { width := 1600, height := 1200, reg_opt := HM5065_REG_IMAGE_SIZE_UXGA },
    { width := 1280, height := 1024, reg_opt := HM5065_REG_IMAGE_SIZE_SXGA },
    { width := 1280, height := 720, reg_opt := 0 },
    { width := 800, height := 600, reg_opt := HM5065_REG_IMAGE_SIZE_SVGA },
    { width := 640, height := 480, reg_opt := HM5065_REG_IMAGE_SIZE_VGA },
    { width := 352, height := 288, reg_opt := HM5065_REG_IMAGE_SIZE_CIF },
    { width := 320, height := 240, reg_opt := HM5065_REG_IMAGE_SIZE_QVGA },
    { width := 176, height := 144, reg_opt := HM5065_REG_IMAGE_SIZE_QCIF },
    { width := 160, height := 120, reg_opt := HM5065_REG_IMAGE_SIZE_QQVGA },
    { width := 88, height := 72, reg_opt := HM5065_REG_IMAGE_SIZE_QQCIF } ]

def HM5065_NUM_FRAME_SIZES : Nat := hm5065_frame_sizes.length

/-- The `struct hm5065_pixfmt`. -/
structure hm5065_pixfmt where
  code : Nat
  colorspace : Nat
  data_fmt : Nat
  ycbcr_order : Nat
  needs_ycbcr_setup : Bool
deriving DecidableEq, Repr, Inhabited

def hm5065_formats : List hm5065_pixfmt :=
  [ ⟨MEDIA_BUS_FMT_UYVY8_2X8, V4L2_COLORSPACE_SRGB,
      HM5065_REG_DATA_FORMAT_YCBCR_JFIF, HM5065_REG_YCRCB_ORDER_CB_Y_CR_Y, true⟩,
    ⟨MEDIA_BUS_FMT_VYUY8_2X8, V4L2_COLORSPACE_SRGB,
      HM5065_REG_DATA_FORMAT_YCBCR_JFIF, HM5065_REG_YCRCB_ORDER_CR_Y_CB_Y, true⟩,
    ⟨MEDIA_BUS_FMT_YUYV8_2X8, V4L2_COLORSPACE_SRGB,
      HM5065_REG_DATA_FORMAT_YCBCR_JFIF, HM5065_REG_YCRCB_ORDER_Y_CB_Y_CR, true⟩,
    ⟨MEDIA_BUS_FMT_YVYU8_2X8, V4L2_COLORSPACE_SRGB,
      HM5065_REG_DATA_FORMAT_YCBCR_JFIF, HM5065_REG_YCRCB_ORDER_Y_CR_Y_CB, true⟩,
    ⟨MEDIA_BUS_FMT_RGB555_2X8_PADHI_BE, V4L2_COLORSPACE_SRGB,
      HM5065_REG_DATA_FORMAT_RGB_555, 0, false⟩,
    ⟨MEDIA_BUS_FMT_RGB565_2X8_BE, V4L2_COLORSPACE_SRGB,
      HM5065_REG_DATA_FORMAT_RGB_565, 0, false⟩ ]

/-- Embedding of `hm5065_find_format`: first entry whose code equals `code`, `none`
for the `NULL` result. -/
def hm5065_find_format (code : Nat) : Option hm5065_pixfmt :=
  hm5065_formats.find? (fun f => f.code == code)

/-! ## Device state and request records -/

/-- The `struct v4l2_fract` (two `__u32`). -/
structure v4l2_fract where
  numerator : Nat
  denominator : Nat
deriving DecidableEq, Repr

/-- The `struct v4l2_mbus_framefmt`, all members but the reserved padding. -/
structure v4l2_mbus_framefmt where
  width : Nat
  height : Nat
  code : Nat
  field : Nat
  colorspace : Nat
  ycbcr_enc : Nat
  quantization : Nat
  xfer_func : Nat
deriving DecidableEq, Repr

/-- The `struct v4l2_subdev_format`. -/
structure v4l2_subdev_format where
  which : Nat
  pad : Nat
  format : v4l2_mbus_framefmt
deriving DecidableEq, Repr

/-- The `struct v4l2_subdev_frame_interval`. -/
structure v4l2_subdev_frame_interval where
  pad : Nat
  interval : v4l2_fract
deriving DecidableEq, Repr

/-- The members of `struct hm5065_dev` that the verified operations read or write:
`max_pixel_rate` and everything protected by the lock.  Handles of the bus, clock,
regulators and GPIO lines are represented by the hardware trace below. -/
structure hm5065_dev where
  max_pixel_rate : Nat
  fmt : v4l2_mbus_framefmt
  frame_interval : v4l2_fract
  pending_mode_change : Bool
  powered : Bool
  streaming : Bool
deriving DecidableEq, Repr

/-- State that `hm5065_probe` sets up before any hardware contact: zeroed device
structure, then format, frame interval, dirty flag and `max_pixel_rate`. -/
def hm5065_probe_state : hm5065_dev :=
  { max_pixel_rate := HM5065_PCLK_FREQ_ABS_MAX * 10 / 22,
    fmt := { width := 640, height := 480, code := MEDIA_BUS_FMT_UYVY8_2X8,
             field := V4L2_FIELD_NONE, colorspace := 0, ycbcr_enc := 0,
             quantization := 0, xfer_func := 0 },
    frame_interval := { numerator := 1, denominator := 30 },
    pending_mode_change := true,
    powered := false,
    streaming := false }

/-! ## Hardware collaborators

Every call into the bus, clock, regulator, GPIO and control frameworks is appended
to a trace; the results of the calls that return something are supplied by an
environment that may depend on the trace so far.  Kernel log output and the mutex
are not represented. -/

/-- One `struct i2c_msg`: direction, length and (for writes) the bytes sent. -/
structure i2c_msg where
  flags_rd : Bool
  len : Nat
  buf : List Nat
deriving DecidableEq, Repr

/-- The two optional GPIO lines of the sensor. -/
inductive gpio_line
  | chipenable_gpio
  | reset_gpio
deriving DecidableEq, Repr

/-- Calls made to the external collaborators. -/
inductive hw_action
  | regulator_bulk_enable
  | regulator_bulk_disable
  | clk_prepare_enable
  | clk_set_rate (rate : Nat)
  | clk_get_rate
  | clk_disable_unprepare
  | gpiod_set_value (line : gpio_line) (value : Nat)
  | usleep_range (min max : Nat)
  | i2c_transfer (msgs : List i2c_msg)
  | v4l2_ctrl_handler_setup
deriving DecidableEq, Repr

/-- Results of the external collaborators, as functions of the trace so far. -/
structure hw_env where
  regulator_bulk_enable : List hw_action → Int
  clk_prepare_enable : List hw_action → Int
  clk_set_rate : List hw_action → Nat → Int
  clk_get_rate : List hw_action → Nat
  i2c_transfer : List hw_action → List i2c_msg → Int × List Nat
  v4l2_ctrl_handler_setup : List hw_action → Int

/-! ## Register access helpers -/

/-- Embedding of `hm5065_write_regs`: one message holding the big-endian address
followed by the payload. -/
def hm5065_write_regs (env : hw_env) (t : List hw_action) (start_index : Nat)
    (data : List Nat) : Int × List hw_action :=
  let buf : List Nat := [(start_index >>> 8) % 256, (start_index &&& 0xff) % 256] ++ data
  let msg : i2c_msg := { flags_rd := false, len := data.length + 2, buf := buf }
  let ret : Int := (env.i2c_transfer t [msg]).1
  let t := t ++ [hw_action.i2c_transfer [msg]]
  if ret < 0 then (ret, t) else (0, t)

/-- Embedding of `hm5065_read_regs`: address write and data read in one transfer.
The second component is the content of `data` after the call. -/
def hm5065_read_regs (env : hw_env) (t : List hw_action) (start_index : Nat)
    (data_size : Nat) : Int × List Nat × List hw_action :=
  let buf : List Nat := [(start_index >>> 8) % 256, (start_index &&& 0xff) % 256]
  let msgs : List i2c_msg :=
    [ { flags_rd := false, len := 2, buf := buf },
      { flags_rd := true, len := data_size, buf := [] } ]
  let r := env.i2c_transfer t msgs
  let t := t ++ [hw_action.i2c_transfer msgs]
  if r.1 < 0 then (r.1, r.2, t) else (0, r.2, t)

/-- Embedding of `hm5065_read_reg8`: a read of one byte. -/
def hm5065_read_reg8 (env : hw_env) (t : List hw_action) (reg : Nat) :
    Int × List Nat × List hw_action :=
  hm5065_read_regs env t reg 1

/-- Embedding of `hm5065_write_reg8`. -/
def hm5065_write_reg8 (env : hw_env) (t : List hw_action) (reg val : Nat) :
    Int × List hw_action :=
  hm5065_write_regs env t reg [val % 256]

/-- Embedding of `hm5065_read_reg16`; the value is meaningful when the result is 0. -/
def hm5065_read_reg16 (env : hw_env) (t : List hw_action) (reg : Nat) :
    Int × Nat × List hw_action :=
  let r := hm5065_read_regs env t reg 2
  if r.1 ≠ 0 then (r.1, 0, r.2.2)
  else (0, (((r.2.1.getD 0 0) % 256) <<< 8) ||| ((r.2.1.getD 1 0) % 256), r.2.2)

/-- Embedding of `hm5065_write_reg16` (`val` is converted to `u16`). -/
def hm5065_write_reg16 (env : hw_env) (t : List hw_action) (reg val : Nat) :
    Int × List hw_action :=
  let val := val % 2 ^ 16
  hm5065_write_regs env t reg [(val >>> 8) % 256, val % 256]

/-- Embedding of `hm5065_read_reg32`; the value is meaningful when the result is 0. -/
def hm5065_read_reg32 (env : hw_env) (t : List hw_action) (reg : Nat) :
    Int × Nat × List hw_action :=
  let r := hm5065_read_regs env t reg 4
  if r.1 ≠ 0 then (r.1, 0, r.2.2)
  else (0, (((r.2.1.getD 0 0) % 256) <<< 24) ||| (((r.2.1.getD 1 0) % 256) <<< 16) |||
          (((r.2.1.getD 2 0) % 256) <<< 8) ||| ((r.2.1.getD 3 0) % 256), r.2.2)

/-- Embedding of `hm5065_write_reg32` (`val` is converted to `u32`). -/
def hm5065_write_reg32 (env : hw_env) (t : List hw_action) (reg val : Nat) :
    Int × List hw_action :=
  let val := val % 2 ^ 32
  hm5065_write_regs env t reg
    [(val >>> 24) % 256, (val >>> 16) % 256, (val >>> 8) % 256, val % 256]

/-! ## Video and pad operations -/

/-- The kernel's `clamp(val, lo, hi)` on `int`: `min(max(val, lo), hi)`. -/
def clamp (val lo hi : Int) : Int := min (max val lo) hi

/-- Embedding of `hm5065_s_frame_interval`.  The result is `none` when the code
divides by zero.  `frame_rate` and `max_frame_rate` are `int`, so the unsigned 32-bit
quotients are converted to signed 32-bit values. -/
def hm5065_s_frame_interval (sensor : hm5065_dev) (fi : v4l2_subdev_frame_interval) :
    Option (Int × hm5065_dev) :=
  if fi.pad ≠ 0 then some (-EINVAL, sensor)
  else if sensor.streaming then some (-EBUSY, sensor)
  else do
    let frame_rate : Int :=
      if fi.interval.numerator = 0 then HM5065_FRAME_RATE_MAX
      else wrap_s 32 ((fi.interval.denominator / fi.interval.numerator : Nat) : Int)
    let frame_rate : Int := clamp frame_rate 1 HM5065_FRAME_RATE_MAX
    let q ← udiv sensor.max_pixel_rate sensor.fmt.width
    let q ← udiv q sensor.fmt.height
    let max_frame_rate : Int := wrap_s 32 (q : Int)
    let frame_rate : Int := if frame_rate > max_frame_rate then max_frame_rate else frame_rate
    pure (0, { sensor with
                frame_interval := { numerator := 1, denominator := wrap_u 32 frame_rate },
                pending_mode_change := true })

/-- Embedding of `hm5065_setup_mode`: the mode-programming register writes, stopping
at the first failure. -/
def hm5065_setup_mode (env : hw_env) (sensor : hm5065_dev) (t : List hw_action) :
    Int × List hw_action :=
  let r := hm5065_write_reg8 env t HM5065_REG_P0_SENSOR_MODE HM5065_REG_SENSOR_MODE_FULLSIZE
  if r.1 ≠ 0 then r else
  let r := hm5065_write_reg8 env r.2 HM5065_REG_P0_IMAGE_SIZE HM5065_REG_IMAGE_SIZE_MANUAL
  if r.1 ≠ 0 then r else
  let r := hm5065_write_reg16 env r.2 HM5065_REG_P0_MANUAL_HSIZE sensor.fmt.width
  if r.1 ≠ 0 then r else
  let r := hm5065_write_reg16 env r.2 HM5065_REG_P0_MANUAL_VSIZE sensor.fmt.height
  if r.1 ≠ 0 then r else
  match hm5065_find_format sensor.fmt.code with
  | none => (-EINVAL, r.2)
  | some pix_fmt =>
    let r := hm5065_write_reg8 env r.2 HM5065_REG_P0_DATA_FORMAT pix_fmt.data_fmt
    if r.1 ≠ 0 then r else
    let r :=
      if pix_fmt.needs_ycbcr_setup then
        hm5065_write_reg8 env r.2 HM5065_REG_YCRCB_ORDER pix_fmt.ycbcr_order
      else r
    if r.1 ≠ 0 then r else
    let r := hm5065_write_reg16 env r.2 HM5065_REG_DESIRED_FRAME_RATE_NUM
      sensor.frame_interval.denominator
    if r.1 ≠ 0 then r else
    (0, r.2)

/-- Embedding of `hm5065_set_stream`. -/
def hm5065_set_stream (env : hw_env) (t : List hw_action) (enable : Int) :
    Int × List hw_action :=
  hm5065_write_reg8 env t HM5065_REG_USER_COMMAND
    (if enable ≠ 0 then HM5065_REG_USER_COMMAND_RUN else HM5065_REG_USER_COMMAND_STOP)

/-- Embedding of `hm5065_s_stream`. -/
def hm5065_s_stream (env : hw_env) (sensor : hm5065_dev) (t : List hw_action)
    (enable : Int) : Int × hm5065_dev × List hw_action :=
  if sensor.streaming = (decide (enable = 0)) then
    let r : Int × List hw_action :=
      if enable ≠ 0 ∧ sensor.pending_mode_change = true then hm5065_setup_mode env sensor t
      else (0, t)
    if r.1 ≠ 0 then (r.1, sensor, r.2) else
    let r := hm5065_set_stream env r.2 enable
    if r.1 ≠ 0 then (r.1, sensor, r.2) else
    (r.1, { sensor with streaming := decide (enable ≠ 0) }, r.2)
  else (0, sensor, t)

/-- Condition tested in the loop of `hm5065_set_fmt`; the frame area is a `u32`. -/
def frame_size_fits (max_frame_area mf_width mf_height : Nat) (fs : hm5065_frame_size) :
    Bool :=
  decide ((fs.width * fs.height) % 2 ^ 32 ≤ max_frame_area) &&
    decide (fs.width ≤ mf_width) && decide (fs.height ≤ mf_height)

/-- Loop of `hm5065_set_fmt` over the entries from index `i` on:
`for (; i < HM5065_NUM_FRAME_SIZES; i++) if (...) break;`, returning the final `i`. -/
def frame_size_scan (max_frame_area mf_width mf_height : Nat) :
    List hm5065_frame_size → Nat → Nat
  | [], i => i
  | fs :: rest, i =>
    if frame_size_fits max_frame_area mf_width mf_height fs then i
    else frame_size_scan max_frame_area mf_width mf_height rest (i + 1)

/-- Embedding of `hm5065_set_fmt`.  Arguments: device, the try format kept in the
pad configuration, and the request; results: return value, device, try format and
the request structure as left for the caller.  The result is `none` when the code
divides by zero. -/
def hm5065_set_fmt (sensor : hm5065_dev) (try_fmt : v4l2_mbus_framefmt)
    (format : v4l2_subdev_format) :
    Option (Int × hm5065_dev × v4l2_mbus_framefmt × v4l2_subdev_format) :=
  if format.pad ≠ 0 then some (-EINVAL, sensor, try_fmt, format)
  else do
    let pixfmt : hm5065_pixfmt :=
      match hm5065_find_format format.format.code with
      | some p => p
      | none => hm5065_formats.getD 0 default
    let mf : v4l2_mbus_framefmt :=
      { format.format with code := pixfmt.code, colorspace := pixfmt.colorspace,
                           field := V4L2_FIELD_NONE }
    let q ← udiv sensor.max_pixel_rate sensor.frame_interval.denominator
    let max_frame_area : Nat := (q * sensor.frame_interval.numerator) % 2 ^ 32
    let i : Nat := frame_size_scan max_frame_area mf.width mf.height hm5065_frame_sizes 0
    let i : Nat := if i = HM5065_NUM_FRAME_SIZES then i - 1 else i
    let mf : v4l2_mbus_framefmt :=
      { mf with width := (hm5065_frame_sizes.getD i default).width,
                height := (hm5065_frame_sizes.getD i default).height }
    let format : v4l2_subdev_format := { format with format := mf }
    if format.which = V4L2_SUBDEV_FORMAT_TRY then pure (0, sensor, mf, format)
    else if sensor.streaming then pure (-EBUSY, sensor, try_fmt, format)
    else pure (0, { sensor with fmt := mf, pending_mode_change := true }, try_fmt, format)

/-! ## Core operations -/

/-- Embedding of `hm5065_chip_enable`. -/
def hm5065_chip_enable (t : List hw_action) (enable : Bool) : List hw_action :=
  t ++ [hw_action.gpiod_set_value gpio_line.chipenable_gpio (if enable then 1 else 0),
        hw_action.gpiod_set_value gpio_line.reset_gpio (if enable then 0 else 1)]

/-- Embedding of `hm5065_configure`. -/
def hm5065_configure (env : hw_env) (t : List hw_action) : Int × List hw_action :=
  let r := hm5065_read_reg16 env t HM5065_REG_DEVICE_ID
  if r.1 ≠ 0 then (r.1, r.2.2) else
  if r.2.1 ≠ HM5065_REG_DEVICE_ID_VALUE then (-EINVAL, r.2.2) else
  let xclk_freq : Nat := env.clk_get_rate r.2.2
  let t := r.2.2 ++ [hw_action.clk_get_rate]
  match hm5065_find_clk_lut xclk_freq with
  | none => (-EINVAL, t)
  | some lut =>
    let w := hm5065_write_reg8 env t HM5065_REG_EXCLOCKLUT lut.lut_id
    if w.1 ≠ 0 then w else (0, w.2)

/-- Tail of `hm5065_set_power` from the label `power_off`. -/
def hm5065_set_power_power_off (t : List hw_action) (ret : Int) : Int × List hw_action :=
  (ret, hm5065_chip_enable t false ++ [hw_action.regulator_bulk_disable])

/-- Tail of `hm5065_set_power` from the label `xclk_off`. -/
def hm5065_set_power_xclk_off (t : List hw_action) (ret : Int) : Int × List hw_action :=
  hm5065_set_power_power_off (t ++ [hw_action.clk_disable_unprepare]) ret

/-- Embedding of `hm5065_set_power`; `on_` is the parameter `on`. -/
def hm5065_set_power (env : hw_env) (sensor : hm5065_dev) (t : List hw_action)
    (on_ : Bool) : Int × List hw_action :=
  if on_ then
    let ret := env.regulator_bulk_enable t
    let t := t ++ [hw_action.regulator_bulk_enable]
    if ret ≠ 0 then (ret, t) else
    let ret := env.clk_prepare_enable t
    let t := t ++ [hw_action.clk_prepare_enable]
    if ret ≠ 0 then hm5065_set_power_power_off t ret else
    let ret := env.clk_set_rate t 24000000
    let t := t ++ [hw_action.clk_set_rate 24000000]
    if ret ≠ 0 then hm5065_set_power_xclk_off t ret else
    let t := t ++ [hw_action.usleep_range 1000 2000]
    let t := hm5065_chip_enable t false
    let t := t ++ [hw_action.usleep_range 1000 2000]
    let t := hm5065_chip_enable t true
    let t := t ++ [hw_action.usleep_range 50000 70000]
    let r := hm5065_configure env t
    if r.1 ≠ 0 then hm5065_set_power_xclk_off r.2 r.1 else
    let r := hm5065_setup_mode env sensor r.2
    if r.1 ≠ 0 then hm5065_set_power_xclk_off r.2 r.1 else
    (0, r.2)
  else hm5065_set_power_xclk_off t 0

/-- Embedding of `hm5065_s_power`; `on_` is the parameter `on`. -/
def hm5065_s_power (env : hw_env) (sensor : hm5065_dev) (t : List hw_action) (on_ : Int) :
    Int × hm5065_dev × List hw_action :=
  let power_up : Bool := decide (on_ ≠ 0) && !sensor.powered
  let power_down : Bool := decide (on_ = 0) && sensor.powered
  let r : Int × hm5065_dev × List hw_action :=
    if power_up || power_down then
      let p := hm5065_set_power env sensor t power_up
      if p.1 = 0 then (p.1, { sensor with powered := decide (on_ ≠ 0) }, p.2)
      else (p.1, sensor, p.2)
    else (0, sensor, t)
  if r.1 = 0 ∧ power_up = true then
    (env.v4l2_ctrl_handler_setup r.2.2, r.2.1, r.2.2 ++ [hw_action.v4l2_ctrl_handler_setup])
  else r

/-! ## Probe -/

/-- Result of `devm_gpiod_get_optional`: `NULL` when the line is not described, a
descriptor, or an error pointer. -/
inductive gpio_desc_ptr
  | null
  | desc
  | err_ptr (code : Int)
deriving DecidableEq, Repr

/-- Results of the framework calls made by `hm5065_probe`, in call order.
`devm_kzalloc` and `endpoint` tell whether the returned pointer is not `NULL`;
`devm_clk_get` is `none` for a valid clock and `some e` for the error pointer with
`PTR_ERR` value `e`; `bus_type_parallel` tells whether the parsed endpoint has bus type
`V4L2_MBUS_PARALLEL`; `hm5065_init_controls` is the handler error that
`hm5065_init_controls` returns. -/
structure probe_env where
  devm_kzalloc : Bool
  endpoint : Bool
  v4l2_fwnode_endpoint_parse : Int
  bus_type_parallel : Bool
  devm_clk_get : Option Int
  chipenable_gpio : gpio_desc_ptr
  reset_gpio : gpio_desc_ptr
  media_entity_pads_init : Int
  devm_regulator_bulk_get : Int
  hm5065_init_controls : Int
  v4l2_async_register_subdev : Int

/-- Embedding of `hm5065_probe`: the return value and the device structure as it
stands at the return (`none` when the allocation failed).  The structure is zeroed by
`devm_kzalloc`. -/
def hm5065_probe (env : probe_env) : Int × Option hm5065_dev :=
  if env.devm_kzalloc = false then (-ENOMEM, none) else
  let sensor : hm5065_dev :=
    { max_pixel_rate := 0,
      fmt := { width := 640, height := 480, code := (hm5065_formats.getD 0 default).code,
               field := V4L2_FIELD_NONE, colorspace := 0, ycbcr_enc := 0,
               quantization := 0, xfer_func := 0 },
      frame_interval := { numerator := 1, denominator := 30 },
      pending_mode_change := true,
      powered := false,
      streaming := false }
  if env.endpoint = false then (-EINVAL, some sensor) else
  let ret : Int := env.v4l2_fwnode_endpoint_parse
  if ret ≠ 0 then (ret, some sensor) else
  if env.bus_type_parallel = false then (-EINVAL, some sensor) else
  match env.devm_clk_get with
  | some e => (e, some sensor)
  | none =>
    let sensor : hm5065_dev :=
      { sensor with max_pixel_rate := HM5065_PCLK_FREQ_ABS_MAX * 10 / 22 }
    if env.chipenable_gpio = gpio_desc_ptr.null ∧ env.reset_gpio = gpio_desc_ptr.null then
      (ret, some sensor)
    else
    let ret : Int := env.media_entity_pads_init
    if ret ≠ 0 then (ret, some sensor) else
    let ret : Int := env.devm_regulator_bulk_get
    if ret ≠ 0 then (ret, some sensor) else
    let ret : Int := env.hm5065_init_controls
    if ret ≠ 0 then (ret, some sensor) else
    let ret : Int := env.v4l2_async_register_subdev
    if ret ≠ 0 then (ret, some sensor) else
    (0, some sensor)

/-! ## Auxiliary definitions used in the statements -/

/-- Index that the loop and the `i--` adjustment of `hm5065_set_fmt` end with, for
the budget `max_frame_area` and the requested width and height. -/
def frame_size_index (max_frame_area mf_width mf_height : Nat) : Nat :=
  let i : Nat := frame_size_scan max_frame_area mf_width mf_height hm5065_frame_sizes 0
  if i = HM5065_NUM_FRAME_SIZES then i - 1 else i

/-- Frame area of a table entry, `width * height`. -/
def frame_area (fs : hm5065_frame_size) : Nat := fs.width * fs.height

/-- Budget `max_frame_area` that `hm5065_set_fmt` computes when the frame-interval
denominator is not zero (`u32` arithmetic). -/
def max_frame_area (sensor : hm5065_dev) : Nat :=
  (sensor.max_pixel_rate / sensor.frame_interval.denominator *
    sensor.frame_interval.numerator) % 2 ^ 32

/-- Table entry that `hm5065_set_fmt` resolves the requested code to: the matching
entry, or the first entry when there is none. -/
def resolved_pixfmt (code : Nat) : hm5065_pixfmt :=
  match hm5065_find_format code with
  | some p => p
  | none => hm5065_formats.getD 0 default

/-- Format that `hm5065_set_fmt` leaves in the request structure when the
frame-interval denominator is not zero: resolved code and colorspace, field none,
negotiated width and height, the other members as requested. -/
def negotiated_format (sensor : hm5065_dev) (format : v4l2_subdev_format) :
    v4l2_mbus_framefmt :=
  { format.format with
    code := (resolved_pixfmt format.format.code).code,
    colorspace := (resolved_pixfmt format.format.code).colorspace,
    field := V4L2_FIELD_NONE,
    width := (hm5065_frame_sizes.getD
      (frame_size_index (max_frame_area sensor) format.format.width format.format.height)
      default).width,
    height := (hm5065_frame_sizes.getD
      (frame_size_index (max_frame_area sensor) format.format.width format.format.height)
      default).height }

/-- Selection condition in the words of the specification: the area is within the
budget and the entry does not exceed the requested width and height. -/
def size_admissible (budget w h : Nat) (fs : hm5065_frame_size) : Prop :=
  fs.width * fs.height ≤ budget ∧ fs.width ≤ w ∧ fs.height ≤ h

instance (budget w h : Nat) (fs : hm5065_frame_size) :
    Decidable (size_admissible budget w h fs) := by
  unfold size_admissible; infer_instance

/-- One call of a state-changing subdevice operation together with its arguments. -/
inductive hm5065_call
  | set_fmt (try_fmt : v4l2_mbus_framefmt) (format : v4l2_subdev_format)
  | s_frame_interval (fi : v4l2_subdev_frame_interval)
  | s_stream (enable : Int)
  | s_power (on_ : Int)

/-- Effect of one call on the device state and the hardware trace; the return value
of the call is dropped.  The result is `none` when the call divides by zero. -/
def run_call (env : hw_env) (st : hm5065_dev × List hw_action) :
    hm5065_call → Option (hm5065_dev × List hw_action)
  | hm5065_call.set_fmt try_fmt format =>
    (hm5065_set_fmt st.1 try_fmt format).map (fun r => (r.2.1, st.2))
  | hm5065_call.s_frame_interval fi =>
    (hm5065_s_frame_interval st.1 fi).map (fun r => (r.2, st.2))
  | hm5065_call.s_stream enable => some (hm5065_s_stream env st.1 st.2 enable).2
  | hm5065_call.s_power on_ => some (hm5065_s_power env st.1 st.2 on_).2

/-- Effect of a sequence of calls, each one starting in the state and with the trace
that the previous one left. -/
def run_calls (env : hw_env) :
    hm5065_dev × List hw_action → List hm5065_call → Option (hm5065_dev × List hw_action)
  | st, [] => some st
  | st, c :: rest => (run_call env st c).bind (fun st1 => run_calls env st1 rest)

/-- Properties of the device state that every operation preserves: the
`max_pixel_rate` of probe, a width and height from the frame-size table, a code from
the format table, frame interval `1/d` with `1 ≤ d ≤ 120`, a pixel rate
`width * height * d` within `max_pixel_rate`, and the dirty flag set. -/
def state_invariant (s : hm5065_dev) : Prop :=
  s.max_pixel_rate = HM5065_PCLK_FREQ_ABS_MAX * 10 / 22 ∧
  (∃ fs ∈ hm5065_frame_sizes, fs.width = s.fmt.width ∧ fs.height = s.fmt.height) ∧
  (∃ p ∈ hm5065_formats, p.code = s.fmt.code) ∧
  s.frame_interval.numerator = 1 ∧
  1 ≤ s.frame_interval.denominator ∧ s.frame_interval.denominator ≤ 120 ∧
  s.fmt.width * s.fmt.height * s.frame_interval.denominator ≤ s.max_pixel_rate ∧
  s.pending_mode_change = true

/-! ## Bus vocabulary used in the statements -/

/-- The message of one register write: the 16-bit address, most significant byte
first, followed by the data bytes. -/
def reg_write_msg (reg : Nat) (data : List Nat) : i2c_msg :=
  { flags_rd := false, len := data.length + 2,
    buf := [(reg >>> 8) % 256, (reg &&& 0xff) % 256] ++ data }

/-- Bus action of one register write: a single write message holding the 16-bit
address, most significant byte first, followed by the data bytes. -/
def reg_write_action (reg : Nat) (data : List Nat) : hw_action :=
  hw_action.i2c_transfer [reg_write_msg reg data]

/-- The two messages of one register read of `count` bytes: the address write and
the data read. -/
def reg_read_msgs (reg count : Nat) : List i2c_msg :=
  [ { flags_rd := false, len := 2, buf := [(reg >>> 8) % 256, (reg &&& 0xff) % 256] },
    { flags_rd := true, len := count, buf := [] } ]

/-- Bus action of one register read of `count` bytes: the address write and the
data read combined in one transfer. -/
def reg_read_action (reg count : Nat) : hw_action :=
  hw_action.i2c_transfer (reg_read_msgs reg count)

/-- Bytes of a 16-bit value, most significant byte first. -/
def be16 (val : Nat) : List Nat := [(val / 256) % 256, val % 256]

/-- Result code of the first bus transfer of `ext` that fails (negative result), when
`ext` is issued after the trace `pre`; `none` when every transfer succeeds. -/
def first_failure (env : hw_env) : List hw_action → List hw_action → Option Int
  | _, [] => none
  | pre, hw_action.i2c_transfer msgs :: rest =>
    if (env.i2c_transfer pre msgs).1 < 0 then some (env.i2c_transfer pre msgs).1
    else first_failure env (pre ++ [hw_action.i2c_transfer msgs]) rest
  | pre, a :: rest => first_failure env (pre ++ [a]) rest

/-- Whether an action is a bus transfer. -/
def is_bus_action : hw_action → Bool
  | hw_action.i2c_transfer _ => true
  | _ => false

/-- A sequence of register writes that stops at the first failing one, the pattern
`ret = hm5065_write_...(...); if (ret) return ret;` repeated. -/
def run_writes (env : hw_env) : List hw_action → List (Nat × List Nat) →
    Int × List hw_action
  | t, [] => (0, t)
  | t, w :: rest =>
    let r := hm5065_write_regs env t w.1 w.2
    if r.1 ≠ 0 then r else run_writes env r.2 rest

/-- Register writes of `hm5065_setup_mode` that precede the format lookup. -/
def size_writes (sensor : hm5065_dev) : List (Nat × List Nat) :=
  [ (HM5065_REG_P0_SENSOR_MODE, [HM5065_REG_SENSOR_MODE_FULLSIZE]),
    (HM5065_REG_P0_IMAGE_SIZE, [HM5065_REG_IMAGE_SIZE_MANUAL]),
    (HM5065_REG_P0_MANUAL_HSIZE, be16 sensor.fmt.width),
    (HM5065_REG_P0_MANUAL_VSIZE, be16 sensor.fmt.height) ]

/-- Register writes of `hm5065_setup_mode` that follow the format lookup. -/
def format_writes (sensor : hm5065_dev) (pix_fmt : hm5065_pixfmt) : List (Nat × List Nat) :=
  [ (HM5065_REG_P0_DATA_FORMAT, [pix_fmt.data_fmt % 256]) ] ++
  (if pix_fmt.needs_ycbcr_setup then [(HM5065_REG_YCRCB_ORDER, [pix_fmt.ycbcr_order % 256])]
   else []) ++
  [ (HM5065_REG_DESIRED_FRAME_RATE_NUM, be16 sensor.frame_interval.denominator) ]

/-- The actions of power-up that precede the configuration of the sensor. -/
def power_up_actions : List hw_action :=
  [ hw_action.regulator_bulk_enable,
    hw_action.clk_prepare_enable,
    hw_action.clk_set_rate 24000000,
    hw_action.usleep_range 1000 2000,
    hw_action.gpiod_set_value gpio_line.chipenable_gpio 0,
    hw_action.gpiod_set_value gpio_line.reset_gpio 1,
    hw_action.usleep_range 1000 2000,
    hw_action.gpiod_set_value gpio_line.chipenable_gpio 1,
    hw_action.gpiod_set_value gpio_line.reset_gpio 0,
    hw_action.usleep_range 50000 70000 ]

/-- The actions of the power-down path: clock disable, chip-enable deassert (chip
enable low, reset high) and regulator disable. -/
def power_down_actions : List hw_action :=
  [ hw_action.clk_disable_unprepare,
    hw_action.gpiod_set_value gpio_line.chipenable_gpio 0,
    hw_action.gpiod_set_value gpio_line.reset_gpio 1,
    hw_action.regulator_bulk_disable ]

/-- A sequence of register writes followed by the continuation `k`, which runs on
the trace left by the writes when all of them succeeded. -/
def run_writes_then (env : hw_env) (t : List hw_action) (ws : List (Nat × List Nat))
    (k : List hw_action → Int × List hw_action) : Int × List hw_action :=
  if (run_writes env t ws).1 ≠ 0 then run_writes env t ws else k (run_writes env t ws).2

/-- The result `ret` of an operation that issued the actions `ext` after the trace `t`
reports bus failures: a failed transfer among `ext` makes `ret` its result code, and
`ret = 0` means that no transfer failed. -/
def reports (env : hw_env) (t ext : List hw_action) (ret : Int) : Prop :=
  (∀ r, first_failure env t ext = some r → ret = r) ∧
  (ret = 0 → first_failure env t ext = none)

/-- Value of a 16-bit register from the bytes read, most significant byte first. -/
def be16_value (data : List Nat) : Nat :=
  (((data.getD 0 0) % 256) <<< 8) ||| ((data.getD 1 0) % 256)

/-- Outcome of a power-on request that was unwound: the call returns `err`, the
device state is unchanged, and the trace ends with clock disable, chip-enable
deassert and regulator disable. -/
def power_on_unwound (env : hw_env) (sensor : hm5065_dev) (t : List hw_action) (on_ : Int)
    (err : Int) : Prop :=
  (hm5065_s_power env sensor t on_).1 = err ∧
  (hm5065_s_power env sensor t on_).2.1 = sensor ∧
  ∃ body, (hm5065_s_power env sensor t on_).2.2 = t ++ body ++ power_down_actions

/-- Value of a 32-bit register from the bytes read, most significant byte first. -/
def be32_value (data : List Nat) : Nat :=
  (((data.getD 0 0) % 256) <<< 24) ||| (((data.getD 1 0) % 256) <<< 16) |||
    (((data.getD 2 0) % 256) <<< 8) ||| ((data.getD 3 0) % 256)

/-- An operation that started with the trace `t`, returned `ret` and left the trace
`tr` attempted the transfer `msgs` exactly once and surfaced its outcome: a negative
result code of the transfer is returned as it is, any other result gives 0. -/
def surfaces_transfer (env : hw_env) (t : List hw_action) (msgs : List i2c_msg) (ret : Int)
    (tr : List hw_action) : Prop :=
  tr = t ++ [hw_action.i2c_transfer msgs] ∧
  ret = if (env.i2c_transfer t msgs).1 < 0 then (env.i2c_transfer t msgs).1 else 0

/-- The register writes of the mode programming when every one of them succeeds, for
the current format entry `p`. -/
def mode_programming_writes (sensor : hm5065_dev) (p : hm5065_pixfmt) : List hw_action :=
  [ reg_write_action 0x0040 [0x00],
    reg_write_action 0x0041 [0x0a],
    reg_write_action 0x0042 (be16 sensor.fmt.width),
    reg_write_action 0x0044 (be16 sensor.fmt.height),
    reg_write_action 0x0046 [p.data_fmt] ] ++
  (if p.needs_ycbcr_setup then [reg_write_action 0x0085 [p.ycbcr_order]] else []) ++
  [ reg_write_action 0x00c8 (be16 sensor.frame_interval.denominator) ]

/-- The actions of a power-up in which every step succeeds, up to the end of the mode
programming: the actions that precede the configuration, the identity read, the query
of the clock rate, the write of the lookup id and the mode-programming writes. -/
def power_on_actions (sensor : hm5065_dev) (lut : hm5065_clk_lut) (p : hm5065_pixfmt) :
    List hw_action :=
  power_up_actions ++
  [ reg_read_action 0x0000 2, hw_action.clk_get_rate, reg_write_action 0x0009 [lut.lut_id] ] ++
  mode_programming_writes sensor p

/-- Payload of the register write that a trace ends with: the bytes that follow the
two address bytes of its single message; empty when the trace does not end with such a
write. -/
def written_payload (t : List hw_action) : List Nat :=
  match t.getLast? with
  | some (hw_action.i2c_transfer [m]) => m.buf.drop 2
  | _ => []

/-- Bytes of a 32-bit value, most significant byte first. -/
def be32 (val : Nat) : List Nat :=
  [(val / 2 ^ 24) % 256, (val / 2 ^ 16) % 256, (val / 2 ^ 8) % 256, val % 256]

/-- Whether an action is a delay or a query of the clock rate, the actions that do not
change the state of the hardware. -/
def is_delay_or_query : hw_action → Bool
  | hw_action.usleep_range _ _ => true
  | hw_action.clk_get_rate => true
  | _ => false

/-! ## Concrete inputs used in scenarios -/

/-- A device whose pixel-rate budget allows 1920x1080 at 30 frames per second. -/
def scenario_sensor : hm5065_dev :=
  { hm5065_probe_state with max_pixel_rate := HM5065_PCLK_FREQ_ABS_MAX }

/-- Request for the active format 1920x1088 on pad 0. -/
def scenario_request : v4l2_subdev_format :=
  { which := V4L2_SUBDEV_FORMAT_ACTIVE, pad := 0,
    format := { hm5065_probe_state.fmt with width := 1920, height := 1088 } }

/-- Request for the active format 80x60 on pad 0, smaller than every supported size. -/
def small_request : v4l2_subdev_format :=
  { which := V4L2_SUBDEV_FORMAT_ACTIVE, pad := 0,
    format := { hm5065_probe_state.fmt with width := 80, height := 60 } }

/-- Request for the active format 2592x1944 on pad 0, the largest supported size. -/
def full_size_request : v4l2_subdev_format :=
  { which := V4L2_SUBDEV_FORMAT_ACTIVE, pad := 0,
    format := { hm5065_probe_state.fmt with width := 2592, height := 1944 } }

/-- A powered, streaming device in the configuration set up by probe. -/
def streaming_state : hm5065_dev :=
  { hm5065_probe_state with powered := true, streaming := true }

/-- Collaborators that always succeed: the bus answers every read with the device
identity `0x039e`, the clock runs at 24 MHz. -/
def ideal_env : hw_env :=
  { regulator_bulk_enable := fun _ => 0,
    clk_prepare_enable := fun _ => 0,
    clk_set_rate := fun _ _ => 0,
    clk_get_rate := fun _ => 24000000,
    i2c_transfer := fun _ msgs => ((msgs.length : Int), [0x03, 0x9e]),
    v4l2_ctrl_handler_setup := fun _ => 0 }

/-- Collaborators whose bus fails every transfer with `-5` (`-EIO`); everything else
succeeds. -/
def failing_bus_env : hw_env :=
  { ideal_env with i2c_transfer := fun _ _ => (-5, []) }

/-- Collaborators whose bus answers every read with the identity `0x0000`, which is
not the identity of the sensor; everything else succeeds. -/
def wrong_id_env : hw_env :=
  { ideal_env with i2c_transfer := fun _ msgs => ((msgs.length : Int), [0x00, 0x00]) }

/-- Collaborators whose clock reports 25 MHz, a rate without lookup-table entry;
everything else succeeds. -/
def wrong_clock_env : hw_env :=
  { ideal_env with clk_get_rate := fun _ => 25000000 }

/-- Frame-interval request with numerator 0 on pad 0. -/
def unconstrained_request : v4l2_subdev_frame_interval :=
  { pad := 0, interval := { numerator := 0, denominator := 1 } }

/-- Request for the active format with a code that is not in the format table. -/
def unsupported_code_request : v4l2_subdev_format :=
  { which := V4L2_SUBDEV_FORMAT_ACTIVE, pad := 0,
    format := { hm5065_probe_state.fmt with code := 0x3001 } }

/-- Frame-interval request `1/8` on pad 0. -/
def eight_fps_request : v4l2_subdev_frame_interval :=
  { pad := 0, interval := { numerator := 1, denominator := 8 } }

/-- Collaborators that succeed in everything but the restoring of the controls, which
fails with `-5` (`-EIO`). -/
def failing_ctrl_env : hw_env :=
  { ideal_env with v4l2_ctrl_handler_setup := fun _ => -5 }

/-- Framework results of a probe in which every call succeeds and both GPIO lines are
described. -/
def ideal_probe_env : probe_env :=
  { devm_kzalloc := true, endpoint := true, v4l2_fwnode_endpoint_parse := 0,
    bus_type_parallel := true, devm_clk_get := none,
    chipenable_gpio := gpio_desc_ptr.desc, reset_gpio := gpio_desc_ptr.desc,
    media_entity_pads_init := 0, devm_regulator_bulk_get := 0,
    hm5065_init_controls := 0, v4l2_async_register_subdev := 0 }

/-- Framework results of a probe in which neither the chip-enable line nor the reset
line is described; every call succeeds. -/
def no_gpio_probe_env : probe_env :=
  { ideal_probe_env with chipenable_gpio := gpio_desc_ptr.null,
                         reset_gpio := gpio_desc_ptr.null }

/-- A call sequence: negotiate 2592x1944, request 8 frames per second, power on, start
streaming, power off. -/
def scenario_calls : List hm5065_call :=
  [ hm5065_call.set_fmt hm5065_probe_state.fmt full_size_request,
    hm5065_call.s_frame_interval eight_fps_request,
    hm5065_call.s_power 1,
    hm5065_call.s_stream 1,
    hm5065_call.s_power 0 ]

/-- A call sequence that leaves the device idle: negotiate 2592x1944, then request 8
frames per second. -/
def negotiation_calls : List hm5065_call :=
  [ hm5065_call.set_fmt hm5065_probe_state.fmt full_size_request,
    hm5065_call.s_frame_interval eight_fps_request ]

/-- The idle state that `negotiation_calls` ends in: 1280x1024 at interval `1/8`. -/
def negotiated_idle_state : hm5065_dev :=
  { hm5065_probe_state with
    fmt := negotiated_format hm5065_probe_state full_size_request,
    frame_interval := { numerator := 1, denominator := 8 },
    pending_mode_change := true }

/-- The state that `scenario_calls` ends in: 1280x1024 at interval `1/8`, streaming set,
power off. -/
def scenario_final_state : hm5065_dev :=
  { negotiated_idle_state with streaming := true }

/-! ## Reference definitions -/

/-- Reference encoder, written from the wording of the specification: zero maps to
zero; otherwise scale the absolute value by 1024/1000 rounding half up, take the
index `f` of the highest set bit, exponent `31 + f - 10`, mantissa shifted so its
leading bit sits at bit 9 and masked to 9 bits, sign bit `0x8000` for negatives. -/
def encode_reference (x : Int) : Nat :=
  if x = 0 then 0
  else
    let a : Nat := x.natAbs
    let v : Nat := 1024 * a / 1000 + (if (1024 * a) % 1000 ≥ 500 then 1 else 0)
    let f : Nat := Nat.log2 v
    let M : Nat := if f > 9 then v >>> (f - 9) else v <<< (9 - f)
    (if x < 0 then 0x8000 else 0) ||| ((31 + f - 10) <<< 9) ||| (M &&& 0x1ff)

/-- Reference decoder value, written from the wording of the specification:
`s * floor(1000 * (512 + m) * 2^(e - 31) / 512)` with `m = fp & 0x1ff`,
`e = (fp >> 9) & 0x3f` and `s = -1` exactly when bit 15 of `fp` is set. -/
def decode_reference (fp : Nat) : Int :=
  let m : Nat := fp &&& 0x1ff
  let e : Nat := (fp >>> 9) &&& 0x3f
  let s : Int := if fp.testBit 15 then -1 else 1
  s * ⌊(1000 * (512 + (m : ℚ)) * (2 : ℚ) ^ ((e : Int) - 31)) / 512⌋

/-- Reference budget, written from the wording of the specification:
`floor(max_pixel_rate * numerator / denominator)`. -/
def budget_reference (sensor : hm5065_dev) : Nat :=
  sensor.max_pixel_rate * sensor.frame_interval.numerator /
    sensor.frame_interval.denominator

/-- Reference power-on sequence, written from the wording of the specification: enable
regulators, enable clock, set the clock rate, deassert chip-enable, assert chip-enable,
read the identity register, write the clock lookup id, then the mode-programming
writes. -/
def power_on_sequence_reference (sensor : hm5065_dev) (lut : hm5065_clk_lut)
    (p : hm5065_pixfmt) : List hw_action :=
  [ hw_action.regulator_bulk_enable,
    hw_action.clk_prepare_enable,
    hw_action.clk_set_rate 24000000,
    hw_action.gpiod_set_value gpio_line.chipenable_gpio 0,
    hw_action.gpiod_set_value gpio_line.reset_gpio 1,
    hw_action.gpiod_set_value gpio_line.chipenable_gpio 1,
    hw_action.gpiod_set_value gpio_line.reset_gpio 0,
    reg_read_action 0x0000 2,
    reg_write_action 0x0009 [lut.lut_id],
    reg_write_action 0x0040 [0x00],
    reg_write_action 0x0041 [0x0a],
    reg_write_action 0x0042 (be16 sensor.fmt.width),
    reg_write_action 0x0044 (be16 sensor.fmt.height),
    reg_write_action 0x0046 [p.data_fmt] ] ++
  (if p.needs_ycbcr_setup then [reg_write_action 0x0085 [p.ycbcr_order]] else []) ++
  [ reg_write_action 0x00c8 (be16 sensor.frame_interval.denominator) ]

/-! ## Proofs: float codec -/

theorem and_bit63_ne_zero_iff (w : Nat) (hw : w < 2 ^ 64) :
    w &&& (1 <<< 63) ≠ 0 ↔ 2 ^ 63 ≤ w := by
  have h1 : (1 <<< 63 : Nat) = 2 ^ 63 := by simp [Nat.shiftLeft_eq]
  rw [h1]
  have htb : w.testBit 63 = decide (w / 2 ^ 63 % 2 = 1) := Nat.testBit_to_div_mod
  constructor
  · intro hne
    by_contra hlt
    apply hne
    apply Nat.eq_of_testBit_eq
    intro i
    rw [Nat.testBit_and, Nat.testBit_two_pow, Nat.zero_testBit]
    by_cases hi : 63 = i
    · subst hi
      have : w.testBit 63 = false := by
        rw [htb]; simp; omega
      simp [this]
    · simp [hi]
  · intro hle hz
    have h2 : (w &&& 2 ^ 63).testBit 63 = false := by rw [hz]; simp
    rw [Nat.testBit_and, Nat.testBit_two_pow_self, htb] at h2
    simp at h2
    omega

theorem log2_eq_of_bounds (u j : Nat) (hlo : 2 ^ j ≤ u) (hhi : u < 2 ^ (j + 1)) :
    Nat.log2 u = j := by
  have hu : u ≠ 0 := by
    have : 0 < 2 ^ j := Nat.two_pow_pos _
    omega
  have h1 : j ≤ Nat.log2 u := (Nat.le_log2 hu).2 hlo
  have h2 : Nat.log2 u < j + 1 := (Nat.log2_lt hu).2 hhi
  omega

theorem fls64_loop_spec (j : Nat) : ∀ (fuel w u : Nat), j + 2 ≤ fuel → j ≤ 63 → 0 < u →
    u < 2 ^ (j + 1) → w = u * 2 ^ (63 - j) →
    fls64_loop fuel (j : Int) w = (Nat.log2 u : Int) := by
  induction j with
  | zero =>
    intro fuel w u hf _ hu0 hu hw
    have hu1 : u = 1 := by simp at hu; omega
    subst hu1
    obtain ⟨fuel, rfl⟩ : ∃ f, fuel = f + 1 := ⟨fuel - 1, by omega⟩
    have hw64 : w < 2 ^ 64 := by rw [hw]; norm_num
    have hbit : w &&& (1 <<< 63) ≠ 0 := (and_bit63_ne_zero_iff w hw64).2 (by rw [hw]; norm_num)
    simp only [fls64_loop]
    rw [if_pos (by norm_num), if_pos hbit]
    simp [Nat.log2]
  | succ j ih =>
    intro fuel w u hf hj hu0 hu hw
    obtain ⟨fuel, rfl⟩ : ∃ f, fuel = f + 1 := ⟨fuel - 1, by omega⟩
    have hpow : (2 : Nat) ^ (j + 1 + 1) * 2 ^ (63 - (j + 1)) = 2 ^ 64 := by
      rw [← Nat.pow_add]; congr 1; omega
    have hpos : 0 < 2 ^ (63 - (j + 1)) := Nat.two_pow_pos _
    have hw64 : w < 2 ^ 64 := by
      rw [hw, ← hpow]
      exact Nat.mul_lt_mul_of_pos_right hu hpos
    simp only [fls64_loop]
    rw [if_pos (by omega)]
    by_cases hbit : w &&& (1 <<< 63) ≠ 0
    · rw [if_pos hbit]
      have hle : 2 ^ 63 ≤ w := (and_bit63_ne_zero_iff w hw64).1 hbit
      have hpow2 : (2 : Nat) ^ (j + 1) * 2 ^ (63 - (j + 1)) = 2 ^ 63 := by
        rw [← Nat.pow_add]; congr 1; omega
      have hlo : 2 ^ (j + 1) ≤ u := by
        by_contra hlt
        have hlt2 : u < 2 ^ (j + 1) := by omega
        have : u * 2 ^ (63 - (j + 1)) < 2 ^ (j + 1) * 2 ^ (63 - (j + 1)) :=
          Nat.mul_lt_mul_of_pos_right hlt2 hpos
        omega
      rw [log2_eq_of_bounds u (j + 1) hlo hu]
    · rw [if_neg hbit]
      have hlt : w < 2 ^ 63 := by
        by_contra hge
        exact hbit ((and_bit63_ne_zero_iff w hw64).2 (by omega))
      have hsh : (w <<< 1) % 2 ^ 64 = u * 2 ^ (63 - j) := by
        rw [Nat.shiftLeft_eq, Nat.mod_eq_of_lt (by omega), hw]
        have : 63 - j = (63 - (j + 1)) + 1 := by omega
        rw [this, Nat.pow_succ]; ring
      have hpow2 : (2 : Nat) ^ (j + 1) * 2 ^ (63 - (j + 1)) = 2 ^ 63 := by
        rw [← Nat.pow_add]; congr 1; omega
      have hu2 : u < 2 ^ (j + 1) := by
        by_contra hge
        have hge2 : 2 ^ (j + 1) ≤ u := by omega
        have : 2 ^ (j + 1) * 2 ^ (63 - (j + 1)) ≤ u * 2 ^ (63 - (j + 1)) :=
          Nat.mul_le_mul_right _ hge2
        omega
      have := ih fuel ((w <<< 1) % 2 ^ 64) u (by omega) (by omega) hu0 hu2 hsh
      have hcast : ((j + 1 : Nat) : Int) - 1 = (j : Int) := by push_cast; ring
      rw [hcast]
      exact this

theorem fls64_eq_log2 (v : Nat) (h0 : 0 < v) (h64 : v < 2 ^ 64) :
    __fls64 v = (Nat.log2 v : Int) := by
  unfold __fls64
  exact fls64_loop_spec 63 66 v v (by decide) (by decide) h0 h64 (by simp)

theorem wrap_u_of_nat (w n : Nat) (h : n < 2 ^ w) : wrap_u w (n : Int) = n := by
  unfold wrap_u
  have : ((n : Int) % (2 ^ w : Int)) = (n : Int) := by
    apply Int.emod_eq_of_lt (by omega)
    exact_mod_cast h
  rw [this]; simp

theorem round_scaled_bounds (a : Nat) (h1 : 1 ≤ a) (h2 : a < 2 ^ 31) :
    1 ≤ 1024 * a / 1000 + (if (1024 * a) % 1000 ≥ 500 then 1 else 0) ∧
    1024 * a / 1000 + (if (1024 * a) % 1000 ≥ 500 then 1 else 0) < 2 ^ 32 := by
  norm_num at h2 ⊢
  split <;> omega

theorem mantissa_bounds (v f : Nat) (hlo : 2 ^ f ≤ v) (hhi : v < 2 ^ (f + 1)) :
    512 ≤ (if f > 9 then v >>> (f - 9) else v <<< (9 - f)) ∧
    (if f > 9 then v >>> (f - 9) else v <<< (9 - f)) < 1024 := by
  split
  · rename_i h
    rw [Nat.shiftRight_eq_div_pow]
    have hf : f = (f - 9) + 9 := by omega
    have hp : (2 : Nat) ^ f = 2 ^ (f - 9) * 512 := by
      conv_lhs => rw [hf, Nat.pow_add]
    have hp1 : (2 : Nat) ^ (f + 1) = 2 ^ (f - 9) * 1024 := by
      have : f + 1 = (f - 9) + 10 := by omega
      rw [this, Nat.pow_add]
    have hpos : 0 < 2 ^ (f - 9) := Nat.two_pow_pos _
    constructor
    · rw [Nat.le_div_iff_mul_le hpos]; rw [hp] at hlo; rw [Nat.mul_comm]; exact hlo
    · rw [Nat.div_lt_iff_lt_mul hpos]; rw [hp1] at hhi; rw [Nat.mul_comm]; exact hhi
  · rename_i h
    rw [Nat.shiftLeft_eq]
    have hq : (2 : Nat) ^ f * 2 ^ (9 - f) = 512 := by
      rw [← Nat.pow_add]
      have : f + (9 - f) = 9 := by omega
      rw [this]
    have hq1 : (2 : Nat) ^ (f + 1) * 2 ^ (9 - f) = 1024 := by
      rw [← Nat.pow_add]
      have : f + 1 + (9 - f) = 10 := by omega
      rw [this]
    have hpos : 0 < 2 ^ (9 - f) := Nat.two_pow_pos _
    constructor
    · rw [← hq]; exact Nat.mul_le_mul_right _ hlo
    · rw [← hq1]; exact Nat.mul_lt_mul_of_pos_right hhi hpos

theorem encode_eq_reference (x : Int) (hlo : -2 ^ 31 < x) (hhi : x < 2 ^ 31) :
    hm5065_mili_to_fp16 x = encode_reference x := by
  unfold hm5065_mili_to_fp16 encode_reference
  by_cases hx0 : x = 0
  · simp [hx0]
  rw [if_neg hx0, if_neg hx0]
  have ha1 : 1 ≤ x.natAbs := by omega
  have ha2 : x.natAbs < 2 ^ 31 := by omega
  have hval : (if x < 0 then wrap_s 32 (-x) else x) = (x.natAbs : Int) := by
    split
    · unfold wrap_s
      have e1 : (2 : Int) ^ (32 - 1) = 2147483648 := by norm_num
      have e2 : (2 : Int) ^ 32 = 4294967296 := by norm_num
      have e3 : (2 : Int) ^ 31 = 2147483648 := by norm_num
      rw [e1, e2]
      rw [e3] at hlo hhi
      omega
    · omega
  simp only [hval]
  rw [wrap_u_of_nat 64 _ (by omega)]
  have hv0 : x.natAbs * 1024 % 2 ^ 64 = 1024 * x.natAbs := by
    rw [Nat.mod_eq_of_lt (by omega)]; ring
  simp only [hv0]
  obtain ⟨hv1, hv2⟩ := round_scaled_bounds x.natAbs ha1 ha2
  generalize hv : 1024 * x.natAbs / 1000 + (if (1024 * x.natAbs) % 1000 ≥ 500 then 1 else 0) = v
    at hv1 hv2
  rw [Nat.mod_eq_of_lt (by omega : v < 2 ^ 64)]
  rw [fls64_eq_log2 v (by omega) (by omega)]
  have hvne : v ≠ 0 := by omega
  have hflo : 2 ^ v.log2 ≤ v := Nat.log2_self_le hvne
  have hfhi : v < 2 ^ (v.log2 + 1) := Nat.lt_log2_self
  have hf31 : v.log2 < 32 := (Nat.log2_lt hvne).2 hv2
  generalize v.log2 = f at hflo hfhi hf31
  obtain ⟨hM1, hM2⟩ := mantissa_bounds v f hflo hfhi
  have he : wrap_u 16 (31 + (f : Int) - 10) = 31 + f - 10 := by
    have : (31 + (f : Int) - 10) = ((31 + f - 10 : Nat) : Int) := by omega
    rw [this, wrap_u_of_nat 16 _ (by norm_num; omega)]
  rw [he]
  have hm : (if (f : Int) > 9 then (v >>> ((f : Int) - 9).toNat) % 2 ^ 16
      else ((v <<< (9 - (f : Int)).toNat) % 2 ^ 64) % 2 ^ 16)
      = (if f > 9 then v >>> (f - 9) else v <<< (9 - f)) := by
    by_cases h9 : f > 9
    · have h9i : (f : Int) > 9 := by omega
      rw [if_pos h9i]
      rw [if_pos h9] at hM1 hM2 ⊢
      have : ((f : Int) - 9).toNat = f - 9 := by omega
      rw [this, Nat.mod_eq_of_lt (by omega)]
    · have h9i : ¬ (f : Int) > 9 := by omega
      rw [if_neg h9i]
      rw [if_neg h9] at hM1 hM2 ⊢
      have : (9 - (f : Int)).toNat = 9 - f := by omega
      rw [this, Nat.mod_eq_of_lt (by omega : v <<< (9 - f) < 2 ^ 64),
        Nat.mod_eq_of_lt (by omega)]
  rw [hm]
  generalize (if f > 9 then v >>> (f - 9) else v <<< (9 - f)) = M at hM1 hM2
  have hs : (if x < 0 then (0x8000 : Nat) else 0) < 2 ^ 16 := by split <;> norm_num
  have hmm : M &&& 0x1ff < 2 ^ 16 := by
    have : M &&& 0x1ff < 2 ^ 9 := Nat.and_lt_two_pow M (by norm_num)
    omega
  have hee : (31 + f - 10) <<< 9 < 2 ^ 16 := by
    rw [Nat.shiftLeft_eq]; norm_num; omega
  rw [wrap_u_of_nat 16 _ (Nat.or_lt_two_pow (Nat.or_lt_two_pow hs hmm) hee)]
  rw [Nat.or_assoc, Nat.or_assoc, Nat.or_comm (M &&& 0x1ff)]

theorem and_0x8000_ne_zero_iff (fp : Nat) (h : fp < 2 ^ 16) :
    fp &&& 0x8000 ≠ 0 ↔ 32768 ≤ fp := by
  have htb : fp.testBit 15 = decide (fp / 2 ^ 15 % 2 = 1) := Nat.testBit_to_div_mod
  have e : (0x8000 : Nat) = 2 ^ 15 := by norm_num
  rw [e]
  constructor
  · intro hne
    by_contra hlt
    apply hne
    apply Nat.eq_of_testBit_eq
    intro i
    rw [Nat.testBit_and, Nat.testBit_two_pow, Nat.zero_testBit]
    by_cases hi : 15 = i
    · subst hi
      have : fp.testBit 15 = false := by
        rw [htb]; simp; omega
      simp [this]
    · simp [hi]
  · intro hle hz
    have h2 : (fp &&& 2 ^ 15).testBit 15 = false := by rw [hz]; simp
    rw [Nat.testBit_and, Nat.testBit_two_pow_self, htb] at h2
    simp at h2
    omega

theorem testBit15_iff (fp : Nat) (h : fp < 2 ^ 16) : fp.testBit 15 = true ↔ 32768 ≤ fp := by
  rw [Nat.testBit_to_div_mod]
  simp
  omega

/-- Magnitude computed by the decoder, as one natural-number division. -/
theorem decode_nat (fp : Nat) (h : fp < 2 ^ 16) :
    hm5065_mili_from_fp16 fp =
      (if 32768 ≤ fp then -1 else 1) *
        ((1000 * (512 + fp % 512) * 2 ^ (fp / 512 % 64) / 2 ^ 40 : Nat) : Int) := by
  unfold hm5065_mili_from_fp16
  have hm : fp &&& 0x1ff = fp % 512 := Nat.and_pow_two_sub_one_eq_mod fp 9
  have he : (fp >>> 9) &&& 0x3f = fp / 512 % 64 := by
    rw [Nat.shiftRight_eq_div_pow]
    exact Nat.and_pow_two_sub_one_eq_mod (fp / 2 ^ 9) 6
  have hor : (fp % 512) ||| 0x200 = 512 + fp % 512 := by
    have := Nat.mul_add_lt_is_or (show fp % 512 < 2 ^ 9 by omega) 1
    rw [Nat.or_comm]
    simpa using this.symm
  simp only [hm, he, hor]
  have hmlt : fp % 512 < 512 := Nat.mod_lt _ (by decide)
  have helt : fp / 512 % 64 < 64 := Nat.mod_lt _ (by decide)
  generalize fp % 512 = m at hmlt
  generalize fp / 512 % 64 = e at helt
  -- magnitude before the sign is applied
  have hmag : ((if ((e : Int) - 31) > 0 then wrap_s 64 (1000 * ((512 + m : Nat) : Int) * 2 ^ ((e : Int) - 31).toNat)
      else if ((e : Int) - 31) < 0 then 1000 * ((512 + m : Nat) : Int) / 2 ^ (-((e : Int) - 31)).toNat
      else 1000 * ((512 + m : Nat) : Int)) / 2 ^ 9)
      = ((1000 * (512 + m) * 2 ^ e / 2 ^ 40 : Nat) : Int) := by
    rcases Nat.lt_trichotomy e 31 with hlt | heq | hgt
    · rw [if_neg (by omega), if_pos (by omega)]
      have ht : (-((e : Int) - 31)).toNat = 31 - e := by omega
      rw [ht]
      have h40 : (2 : Nat) ^ 40 = 2 ^ e * (2 ^ (31 - e) * 2 ^ 9) := by
        rw [← Nat.pow_add, ← Nat.pow_add]; congr 1; omega
      rw [h40, Nat.mul_comm (1000 * (512 + m)) (2 ^ e),
        Nat.mul_div_mul_left _ _ (Nat.two_pow_pos e), ← Nat.div_div_eq_div_mul]
      push_cast
      rfl
    · subst heq
      rw [if_neg (by omega), if_neg (by omega)]
      have h40 : (2 : Nat) ^ 40 = 2 ^ 9 * 2 ^ 31 := by norm_num
      rw [h40, Nat.mul_div_mul_right _ _ (Nat.two_pow_pos 31)]
      push_cast
      rfl
    · rw [if_pos (by omega)]
      have ht : ((e : Int) - 31).toNat = e - 31 := by omega
      rw [ht]
      have hk : e - 31 ≤ 32 := by omega
      have hb : 1000 * (512 + m) * 2 ^ (e - 31) < 2 ^ 63 := by
        have h1 : (2 : Nat) ^ (e - 31) ≤ 2 ^ 32 := Nat.pow_le_pow_right (by decide) hk
        have h2 : 1000 * (512 + m) < 2 ^ 20 := by norm_num; omega
        calc 1000 * (512 + m) * 2 ^ (e - 31) ≤ 1000 * (512 + m) * 2 ^ 32 :=
              Nat.mul_le_mul_left _ h1
          _ < 2 ^ 20 * 2 ^ 32 := Nat.mul_lt_mul_of_pos_right h2 (Nat.two_pow_pos 32)
          _ < 2 ^ 63 := by norm_num
      have hw : wrap_s 64 (1000 * ((512 + m : Nat) : Int) * 2 ^ (e - 31))
          = ((1000 * (512 + m) * 2 ^ (e - 31) : Nat) : Int) := by
        unfold wrap_s
        have e1 : (2 : Int) ^ (64 - 1) = 9223372036854775808 := by norm_num
        have e2 : (2 : Int) ^ 64 = 18446744073709551616 := by norm_num
        rw [e1, e2]
        have hb' : ((1000 * (512 + m) * 2 ^ (e - 31) : Nat) : Int) < 9223372036854775808 := by
          have : (2 : Nat) ^ 63 = 9223372036854775808 := by norm_num
          omega
        push_cast at hb' ⊢
        have ht0 : (0 : Int) ≤ 1000 * (512 + (m : Int)) * 2 ^ (e - 31) := by positivity
        generalize (1000 : Int) * (512 + (m : Int)) * 2 ^ (e - 31) = t at hb' ht0 ⊢
        omega
      rw [hw]
      have h40 : (2 : Nat) ^ 40 = 2 ^ 9 * 2 ^ 31 := by norm_num
      have hpe : (2 : Nat) ^ e = 2 ^ (e - 31) * 2 ^ 31 := by
        rw [← Nat.pow_add]; congr 1; omega
      rw [h40, hpe, ← Nat.mul_assoc, Nat.mul_div_mul_right _ _ (Nat.two_pow_pos 31)]
      push_cast
      rfl
  rw [hmag]
  have hs := and_0x8000_ne_zero_iff fp h
  by_cases hneg : 32768 ≤ fp
  · rw [if_pos (hs.2 hneg), if_pos hneg]
    have hN : 1000 * (512 + m) * 2 ^ e / 2 ^ 40 ≤ 2 ^ 43 := by
      have h1 : (2 : Nat) ^ e ≤ 2 ^ 63 := Nat.pow_le_pow_right (by decide) (by omega)
      have h2 : 1000 * (512 + m) ≤ 2 ^ 20 := by norm_num; omega
      have h3 : 1000 * (512 + m) * 2 ^ e ≤ 2 ^ 20 * 2 ^ 63 := Nat.mul_le_mul h2 h1
      have h4 : 1000 * (512 + m) * 2 ^ e / 2 ^ 40 ≤ 2 ^ 20 * 2 ^ 63 / 2 ^ 40 :=
        Nat.div_le_div_right h3
      have h5 : (2 : Nat) ^ 20 * 2 ^ 63 / 2 ^ 40 = 2 ^ 43 := by norm_num
      rw [h5] at h4
      exact h4
    generalize 1000 * (512 + m) * 2 ^ e / 2 ^ 40 = N at hN
    unfold wrap_s
    have e1 : (2 : Int) ^ (64 - 1) = 9223372036854775808 := by norm_num
    have e2 : (2 : Int) ^ 64 = 18446744073709551616 := by norm_num
    have e3 : (2 : Nat) ^ 43 = 8796093022208 := by norm_num
    rw [e1, e2]
    rw [e3] at hN
    omega
  · rw [if_neg (fun hc => hneg (hs.1 hc)), if_neg hneg]
    simp

theorem reference_floor_eq (m e : Nat) :
    ⌊(1000 * (512 + (m : ℚ)) * (2 : ℚ) ^ ((e : Int) - 31)) / 512⌋
      = ((1000 * (512 + m) * 2 ^ e / 2 ^ 40 : Nat) : Int) := by
  have h : (1000 * (512 + (m : ℚ)) * (2 : ℚ) ^ ((e : Int) - 31)) / 512
      = ((1000 * (512 + m) * 2 ^ e : Nat) : ℚ) / ((2 ^ 40 : Nat) : ℚ) := by
    rw [zpow_sub₀ (by norm_num : (2 : ℚ) ≠ 0), zpow_natCast]
    push_cast
    field_simp
    ring
  rw [h, Rat.floor_natCast_div_natCast]
  norm_cast

theorem decode_eq_reference (fp : Nat) (h : fp < 2 ^ 16) :
    hm5065_mili_from_fp16 fp = decode_reference fp := by
  rw [decode_nat fp h]
  unfold decode_reference
  simp only []
  rw [reference_floor_eq]
  have hm : fp &&& 0x1ff = fp % 512 := Nat.and_pow_two_sub_one_eq_mod fp 9
  have he : (fp >>> 9) &&& 0x3f = fp / 512 % 64 := by
    rw [Nat.shiftRight_eq_div_pow]
    exact Nat.and_pow_two_sub_one_eq_mod (fp / 2 ^ 9) 6
  rw [hm, he]
  have hs := testBit15_iff fp h
  by_cases hneg : 32768 ≤ fp
  · rw [if_pos hneg, if_pos (hs.2 hneg)]
  · rw [if_neg hneg, if_neg (fun hc => hneg (hs.1 hc))]

theorem reference_fields (v s : Nat) (hv1 : 1 ≤ v) (hv2 : v < 2 ^ 32)
    (hs : s = 0 ∨ s = 32768) :
    ∃ f M : Nat, f = Nat.log2 v ∧ 2 ^ f ≤ v ∧ v < 2 ^ (f + 1) ∧ f ≤ 31 ∧
      M = (if f > 9 then v / 2 ^ (f - 9) else v * 2 ^ (9 - f)) ∧ 512 ≤ M ∧ M < 1024 ∧
      s ||| ((31 + Nat.log2 v - 10) <<< 9) |||
          ((if Nat.log2 v > 9 then v >>> (Nat.log2 v - 9) else v <<< (9 - Nat.log2 v)) &&& 0x1ff)
        = s + 512 * (21 + f) + (M - 512) := by
  have hvne : v ≠ 0 := by omega
  have hflo : 2 ^ v.log2 ≤ v := Nat.log2_self_le hvne
  have hfhi : v < 2 ^ (v.log2 + 1) := Nat.lt_log2_self
  have hf31 : v.log2 < 32 := (Nat.log2_lt hvne).2 hv2
  obtain ⟨hM1, hM2⟩ := mantissa_bounds v v.log2 hflo hfhi
  have hMeq : (if v.log2 > 9 then v / 2 ^ (v.log2 - 9) else v * 2 ^ (9 - v.log2))
      = (if v.log2 > 9 then v >>> (v.log2 - 9) else v <<< (9 - v.log2)) := by
    split
    · rw [Nat.shiftRight_eq_div_pow]
    · rw [Nat.shiftLeft_eq]
  refine ⟨v.log2, _, rfl, hflo, hfhi, by omega, rfl, ?_, ?_, ?_⟩
  · rw [hMeq]; exact hM1
  · rw [hMeq]; exact hM2
  rw [hMeq]
  generalize (if v.log2 > 9 then v >>> (v.log2 - 9) else v <<< (9 - v.log2)) = M at hM1 hM2
  generalize v.log2 = f at hf31
  have hmask : M &&& 0x1ff = M - 512 := by
    have := Nat.and_pow_two_sub_one_eq_mod M 9
    have e : (0x1ff : Nat) = 2 ^ 9 - 1 := by norm_num
    rw [e, this]
    omega
  have hexp : (31 + f - 10) <<< 9 = 2 ^ 9 * (21 + f) := by
    rw [Nat.shiftLeft_eq, Nat.mul_comm]
    congr 1
    omega
  rw [hmask, hexp, Nat.or_assoc]
  rw [← Nat.mul_add_lt_is_or (show M - 512 < 2 ^ 9 by omega) (21 + f)]
  have hX : 2 ^ 9 * (21 + f) + (M - 512) < 2 ^ 15 := by omega
  rcases hs with h | h
  · subst h
    simp
  · subst h
    have := Nat.mul_add_lt_is_or hX 1
    simp only [Nat.mul_one] at this
    have e15 : (32768 : Nat) = 2 ^ 15 := by norm_num
    rw [e15, ← this]
    omega

theorem encode_fields (x : Int) (hx0 : x ≠ 0) (hlo : -2 ^ 31 < x) (hhi : x < 2 ^ 31) :
    ∃ v f M : Nat,
      v = 1024 * x.natAbs / 1000 + (if (1024 * x.natAbs) % 1000 ≥ 500 then 1 else 0) ∧
      1 ≤ v ∧ f = Nat.log2 v ∧ 2 ^ f ≤ v ∧ v < 2 ^ (f + 1) ∧ f ≤ 31 ∧
      M = (if f > 9 then v / 2 ^ (f - 9) else v * 2 ^ (9 - f)) ∧ 512 ≤ M ∧ M < 1024 ∧
      hm5065_mili_to_fp16 x = (if x < 0 then 32768 else 0) + 512 * (21 + f) + (M - 512) := by
  rw [encode_eq_reference x hlo hhi]
  unfold encode_reference
  rw [if_neg hx0]
  have ha1 : 1 ≤ x.natAbs := by omega
  have ha2 : x.natAbs < 2 ^ 31 := by omega
  obtain ⟨hv1, hv2⟩ := round_scaled_bounds x.natAbs ha1 ha2
  have hs : (if x < 0 then (32768 : Nat) else 0) = 0 ∨ (if x < 0 then (32768 : Nat) else 0) = 32768 := by
    split <;> simp
  obtain ⟨f, M, h1, h2, h3, h4, h5, h6, h7, h8⟩ := reference_fields _ _ hv1 hv2 hs
  exact ⟨_, f, M, rfl, hv1, h1, h2, h3, h4, h5, h6, h7, h8⟩

theorem decode_fields (s E r : Nat) (hs : s = 0 ∨ s = 32768) (hE : E < 64) (hr : r < 512) :
    hm5065_mili_from_fp16 (s + 512 * E + r) =
      (if s = 32768 then -1 else 1) * ((1000 * (512 + r) * 2 ^ E / 2 ^ 40 : Nat) : Int) := by
  rw [decode_nat _ (by rcases hs with h | h <;> subst h <;> norm_num <;> omega)]
  have h1 : (s + 512 * E + r) % 512 = r := by omega
  have h2 : (s + 512 * E + r) / 512 % 64 = E := by omega
  rw [h1, h2]
  rcases hs with h | h
  · subst h
    rw [if_neg (by omega), if_neg (by omega)]
  · subst h
    rw [if_pos (by omega), if_pos rfl]

theorem magnitude_bound (a v f M : Nat)
    (hv : v = 1024 * a / 1000 + (if (1024 * a) % 1000 ≥ 500 then 1 else 0))
    (hflo : 2 ^ f ≤ v) (hfhi : v < 2 ^ (f + 1))
    (hM : M = (if f > 9 then v / 2 ^ (f - 9) else v * 2 ^ (9 - f))) (hM1 : 512 ≤ M) :
    1000 * M * 2 ^ (21 + f) / 2 ^ 40 ≤ a ∧
    a - 1000 * M * 2 ^ (21 + f) / 2 ^ 40 ≤ a / 512 + 2 := by
  have hva1 : 1000 * v ≤ 1024 * a + 500 := by subst hv; split <;> omega
  have hva2 : 1024 * a ≤ 1000 * v + 499 := by subst hv; split <;> omega
  by_cases h9 : f > 9
  · rw [if_pos h9] at hM
    have hpos : 0 < 2 ^ (f - 9) := Nat.two_pow_pos _
    have hN : 1000 * M * 2 ^ (21 + f) / 2 ^ 40 = 1000 * (M * 2 ^ (f - 9)) / 1024 := by
      have e1 : (2 : Nat) ^ (21 + f) = 2 ^ (f - 9) * 2 ^ 30 := by
        rw [← Nat.pow_add]; congr 1; omega
      have e2 : (2 : Nat) ^ 40 = 1024 * 2 ^ 30 := by norm_num
      rw [e1, e2, ← Nat.mul_assoc, Nat.mul_div_mul_right _ _ (Nat.two_pow_pos 30),
        Nat.mul_assoc]
    rw [hN]
    have hV1 : M * 2 ^ (f - 9) ≤ v := by rw [hM]; exact Nat.div_mul_le_self v _
    have hV2 : v < M * 2 ^ (f - 9) + 2 ^ (f - 9) := by
      rw [hM]; exact Nat.lt_div_mul_add hpos
    have hV3 : 512 * 2 ^ (f - 9) ≤ M * 2 ^ (f - 9) := Nat.mul_le_mul_right _ hM1
    generalize M * 2 ^ (f - 9) = V at hV1 hV2 hV3
    generalize 2 ^ (f - 9) = P at hV2 hV3
    omega
  · rw [if_neg h9] at hM
    have hN : 1000 * M * 2 ^ (21 + f) / 2 ^ 40 = 1000 * v / 1024 := by
      have e1 : (2 : Nat) ^ (9 - f) * 2 ^ (21 + f) = 2 ^ 30 := by
        rw [← Nat.pow_add]; congr 1; omega
      have e2 : (2 : Nat) ^ 40 = 1024 * 2 ^ 30 := by norm_num
      rw [hM, e2, Nat.mul_assoc, Nat.mul_assoc, e1, ← Nat.mul_assoc,
        Nat.mul_div_mul_right _ _ (Nat.two_pow_pos 30)]
    rw [hN]
    omega

/-- C1: for every 32-bit signed `x` other than `INT_MIN`, the value
`d = hm5065_mili_from_fp16 (hm5065_mili_to_fp16 x)` is zero or has the sign of `x`,
`|d| ≤ |x|`, and `|x| - |d| ≤ ⌊|x| / 512⌋ + 2`; moreover `-12345678` encodes to
`0xD903`, which decodes to `-12336000`. -/
theorem float_codec_round_trip (x : Int) (hlo : -2 ^ 31 < x) (hhi : x < 2 ^ 31) :
    (hm5065_mili_from_fp16 (hm5065_mili_to_fp16 x) = 0 ∨
      (0 < hm5065_mili_from_fp16 (hm5065_mili_to_fp16 x) ∧ 0 < x) ∨
      (hm5065_mili_from_fp16 (hm5065_mili_to_fp16 x) < 0 ∧ x < 0)) ∧
    (hm5065_mili_from_fp16 (hm5065_mili_to_fp16 x)).natAbs ≤ x.natAbs ∧
    x.natAbs - (hm5065_mili_from_fp16 (hm5065_mili_to_fp16 x)).natAbs ≤ x.natAbs / 512 + 2 ∧
    hm5065_mili_to_fp16 (-12345678) = 0xD903 ∧
    hm5065_mili_from_fp16 0xD903 = -12336000 := by
  have hw1 : hm5065_mili_to_fp16 (-12345678) = 0xD903 := by decide
  have hw2 : hm5065_mili_from_fp16 0xD903 = -12336000 := by decide
  by_cases hx0 : x = 0
  · subst hx0
    have : hm5065_mili_from_fp16 (hm5065_mili_to_fp16 0) = 0 := by decide
    rw [this]
    exact ⟨Or.inl rfl, by simp, by simp, hw1, hw2⟩
  obtain ⟨v, f, M, hv, _, _, hflo, hfhi, hf31, hM, hM1, hM2, henc⟩ :=
    encode_fields x hx0 hlo hhi
  have hM' : 512 + (M - 512) = M := by omega
  obtain ⟨hb1, hb2⟩ := magnitude_bound x.natAbs v f M hv hflo hfhi hM hM1
  by_cases hneg : x < 0
  · rw [if_pos hneg] at henc
    rw [henc, decode_fields 32768 (21 + f) (M - 512) (Or.inr rfl) (by omega) (by omega),
      if_pos rfl, hM']
    generalize 1000 * M * 2 ^ (21 + f) / 2 ^ 40 = N at hb1 hb2
    exact ⟨by omega, by omega, by omega, hw1, hw2⟩
  · rw [if_neg hneg] at henc
    rw [henc, decode_fields 0 (21 + f) (M - 512) (Or.inl rfl) (by omega) (by omega),
      if_neg (by decide), hM']
    generalize 1000 * M * 2 ^ (21 + f) / 2 ^ 40 = N at hb1 hb2
    exact ⟨by omega, by omega, by omega, hw1, hw2⟩

theorem float_codec_round_trip_witness :
    (-2 ^ 31 < (-12345678 : Int)) ∧ ((-12345678 : Int) < 2 ^ 31) ∧
    (hm5065_mili_from_fp16 (hm5065_mili_to_fp16 (-12345678)) = 0 ∨
      (0 < hm5065_mili_from_fp16 (hm5065_mili_to_fp16 (-12345678)) ∧ (0 : Int) < -12345678) ∨
      (hm5065_mili_from_fp16 (hm5065_mili_to_fp16 (-12345678)) < 0 ∧ (-12345678 : Int) < 0)) ∧
    (hm5065_mili_from_fp16 (hm5065_mili_to_fp16 (-12345678))).natAbs ≤ (-12345678 : Int).natAbs ∧
    (-12345678 : Int).natAbs - (hm5065_mili_from_fp16 (hm5065_mili_to_fp16 (-12345678))).natAbs
      ≤ (-12345678 : Int).natAbs / 512 + 2 ∧
    hm5065_mili_to_fp16 (-12345678) = 0xD903 ∧
    hm5065_mili_from_fp16 0xD903 = -12336000 :=
  ⟨by norm_num, by norm_num, float_codec_round_trip (-12345678) (by norm_num) (by norm_num)⟩

/-! ## Proofs: frame-size negotiation -/

theorem frame_size_scan_eq_findIdx (A w h : Nat) (l : List hm5065_frame_size) (i : Nat) :
    frame_size_scan A w h l i = i + l.findIdx (frame_size_fits A w h) := by
  induction l generalizing i with
  | nil => simp [frame_size_scan]
  | cons fs rest ih =>
    rw [frame_size_scan, List.findIdx_cons]
    by_cases hf : frame_size_fits A w h fs = true
    · simp [hf]
    · simp only [hf, Bool.false_eq_true, if_false, cond_false]
      rw [ih]; omega

theorem frame_sizes_length : hm5065_frame_sizes.length = 12 := rfl

/-- The table is sorted by decreasing area. -/
theorem frame_area_antitone : ∀ i < 12, ∀ j < 12, i ≤ j →
    frame_area (hm5065_frame_sizes.getD j default) ≤
      frame_area (hm5065_frame_sizes.getD i default) := by
  decide

/-- No table area wraps around in `u32`. -/
theorem frame_area_no_wrap : ∀ fs ∈ hm5065_frame_sizes,
    (fs.width * fs.height) % 2 ^ 32 = fs.width * fs.height := by
  decide

theorem set_fmt_eq (sensor : hm5065_dev) (try_fmt : v4l2_mbus_framefmt)
    (format : v4l2_subdev_format) (hpad : format.pad = 0)
    (hd : sensor.frame_interval.denominator ≠ 0) :
    ∃ ret sensor1 try1 format1,
      hm5065_set_fmt sensor try_fmt format = some (ret, sensor1, try1, format1) ∧
      format1.format.width = (hm5065_frame_sizes.getD
        (frame_size_index (max_frame_area sensor) format.format.width format.format.height)
        default).width ∧
      format1.format.height = (hm5065_frame_sizes.getD
        (frame_size_index (max_frame_area sensor) format.format.width format.format.height)
        default).height ∧
      (sensor.streaming = false → ret = 0) := by
  unfold hm5065_set_fmt
  simp only [hpad, udiv, hd]
  simp only [ne_eq, not_true_eq_false, if_false, Option.bind_eq_bind, Option.some_bind,
    Option.pure_def]
  by_cases hw : format.which = V4L2_SUBDEV_FORMAT_TRY
  · simp only [hw, if_true]
    exact ⟨_, _, _, _, rfl, rfl, rfl, fun _ => rfl⟩
  · simp only [hw, if_false]
    by_cases hs : sensor.streaming = true
    · simp only [hs, if_true]
      exact ⟨_, _, _, _, rfl, rfl, rfl, fun h => by simp at h⟩
    · simp only [hs, Bool.false_eq_true, if_false]
      exact ⟨_, _, _, _, rfl, rfl, rfl, fun _ => rfl⟩

theorem fits_iff_admissible (A w h : Nat) (fs : hm5065_frame_size)
    (hfs : fs ∈ hm5065_frame_sizes) :
    frame_size_fits A w h fs = true ↔ size_admissible A w h fs := by
  unfold frame_size_fits size_admissible
  rw [frame_area_no_wrap fs hfs]
  simp [and_assoc]

theorem getD_mem_frame_sizes (k : Nat) (hk : k < 12) :
    hm5065_frame_sizes.getD k default ∈ hm5065_frame_sizes := by
  rw [List.getD_eq_getElem?_getD, List.getElem?_eq_getElem (by rw [frame_sizes_length]; exact hk)]
  exact List.getElem_mem _

theorem getD_eq_of_getElem? (k : Nat) (fs : hm5065_frame_size)
    (h : hm5065_frame_sizes[k]? = some fs) : hm5065_frame_sizes.getD k default = fs := by
  rw [List.getD_eq_getElem?_getD, h]; rfl

theorem getElem?_getD (k : Nat) (hk : k < 12) :
    hm5065_frame_sizes[k]? = some (hm5065_frame_sizes.getD k default) := by
  rw [List.getD_eq_getElem?_getD, List.getElem?_eq_getElem (by rw [frame_sizes_length]; exact hk)]
  rfl

theorem mem_frame_sizes_index (fs : hm5065_frame_size) (h : fs ∈ hm5065_frame_sizes) :
    ∃ j, j < 12 ∧ hm5065_frame_sizes.getD j default = fs := by
  obtain ⟨n, hn, he⟩ := List.getElem_of_mem h
  refine ⟨n, by rw [frame_sizes_length] at hn; exact hn, ?_⟩
  rw [List.getD_eq_getElem?_getD, List.getElem?_eq_getElem hn, ← he]
  rfl

theorem frame_size_index_lt (A w h : Nat) : frame_size_index A w h < 12 := by
  unfold frame_size_index
  simp only [frame_size_scan_eq_findIdx, Nat.zero_add, HM5065_NUM_FRAME_SIZES,
    frame_sizes_length]
  have := @List.findIdx_le_length _ (frame_size_fits A w h) hm5065_frame_sizes
  rw [frame_sizes_length] at this
  split <;> omega

theorem frame_size_index_of_exists (A w h : Nat)
    (hex : ∃ fs ∈ hm5065_frame_sizes, frame_size_fits A w h fs = true) :
    frame_size_fits A w h (hm5065_frame_sizes.getD (frame_size_index A w h) default) = true ∧
    ∀ j, j < frame_size_index A w h →
      frame_size_fits A w h (hm5065_frame_sizes.getD j default) = false := by
  have hlt := List.findIdx_lt_length_of_exists hex
  have hk : frame_size_index A w h = hm5065_frame_sizes.findIdx (frame_size_fits A w h) := by
    unfold frame_size_index
    simp only [frame_size_scan_eq_findIdx, Nat.zero_add, HM5065_NUM_FRAME_SIZES]
    rw [if_neg (by omega)]
  rw [hk]
  constructor
  · rw [List.getD_eq_getElem?_getD, List.getElem?_eq_getElem hlt]
    exact List.findIdx_getElem
  · intro j hj
    have hj2 : j < hm5065_frame_sizes.length := by omega
    rw [List.getD_eq_getElem?_getD, List.getElem?_eq_getElem hj2]
    exact List.not_of_lt_findIdx hj

theorem frame_size_index_of_none (A w h : Nat)
    (hno : ∀ fs ∈ hm5065_frame_sizes, frame_size_fits A w h fs = false) :
    frame_size_index A w h = 11 := by
  unfold frame_size_index
  simp only [frame_size_scan_eq_findIdx, Nat.zero_add, HM5065_NUM_FRAME_SIZES]
  rw [List.findIdx_eq_length_of_false hno]
  simp [frame_sizes_length]

theorem frame_size_index_mono (A w1 h1 w2 h2 : Nat) (hw : w1 ≤ w2) (hh : h1 ≤ h2) :
    frame_size_index A w2 h2 ≤ frame_size_index A w1 h1 := by
  have hle : hm5065_frame_sizes.findIdx (frame_size_fits A w2 h2) ≤
      hm5065_frame_sizes.findIdx (frame_size_fits A w1 h1) := by
    apply List.findIdx_le_findIdx
    intro fs _ hfit
    unfold frame_size_fits at hfit ⊢
    simp only [Bool.and_eq_true, decide_eq_true_eq] at hfit ⊢
    exact ⟨⟨hfit.1.1, by omega⟩, by omega⟩
  unfold frame_size_index
  simp only [frame_size_scan_eq_findIdx, Nat.zero_add, HM5065_NUM_FRAME_SIZES,
    frame_sizes_length]
  have h1b := @List.findIdx_le_length _ (frame_size_fits A w1 h1) hm5065_frame_sizes
  have h2b := @List.findIdx_le_length _ (frame_size_fits A w2 h2) hm5065_frame_sizes
  rw [frame_sizes_length] at h1b h2b
  split <;> split <;> omega

theorem frame_size_index_1920_1088 (A : Nat) (hA : 2073600 ≤ A) :
    frame_size_index A 1920 1088 = 1 := by
  unfold frame_size_index
  simp [hm5065_frame_sizes, frame_size_scan, frame_size_fits, hA, HM5065_NUM_FRAME_SIZES]

/-- C2: on pad 0, when the frame interval is `1/d` with `d ≥ 1`, `max_pixel_rate` is
a `u32` value and some table entry has area at most `⌊max_pixel_rate / d⌋`, width at most the requested width and height at most the
requested height, `hm5065_set_fmt` returns the first such entry in table order, which
has the largest area among all such entries.  With interval `1/30` and
`⌊max_pixel_rate / 30⌋ ≥ 1920 * 1080`, a request of 1920x1088 returns 1920x1080. -/
theorem frame_size_selection_optimal (sensor : hm5065_dev) (try_fmt : v4l2_mbus_framefmt)
    (format : v4l2_subdev_format) (d : Nat)
    (hpad : format.pad = 0) (hmpr : sensor.max_pixel_rate < 2 ^ 32)
    (hfi : sensor.frame_interval = { numerator := 1, denominator := d }) (hd : 1 ≤ d)
    (hex : ∃ fs ∈ hm5065_frame_sizes,
      size_admissible (sensor.max_pixel_rate / d) format.format.width format.format.height fs) :
    (∃ (ret : Int) (sensor1 : hm5065_dev) (try1 : v4l2_mbus_framefmt)
        (format1 : v4l2_subdev_format) (k : Nat) (sel : hm5065_frame_size),
      hm5065_set_fmt sensor try_fmt format = some (ret, sensor1, try1, format1) ∧
      hm5065_frame_sizes[k]? = some sel ∧
      format1.format.width = sel.width ∧ format1.format.height = sel.height ∧
      size_admissible (sensor.max_pixel_rate / d) format.format.width format.format.height sel ∧
      (∀ (j : Nat) (fs : hm5065_frame_size), j < k → hm5065_frame_sizes[j]? = some fs →
        ¬ size_admissible (sensor.max_pixel_rate / d) format.format.width
            format.format.height fs) ∧
      (∀ fs ∈ hm5065_frame_sizes,
        size_admissible (sensor.max_pixel_rate / d) format.format.width format.format.height fs →
        fs.width * fs.height ≤ sel.width * sel.height)) ∧
    (sensor.frame_interval.denominator = 30 → 1920 * 1080 ≤ sensor.max_pixel_rate / 30 →
      format.format.width = 1920 → format.format.height = 1088 →
      ∃ ret sensor1 try1 format1,
        hm5065_set_fmt sensor try_fmt format = some (ret, sensor1, try1, format1) ∧
        format1.format.width = 1920 ∧ format1.format.height = 1080) := by
  have hden : sensor.frame_interval.denominator ≠ 0 := by rw [hfi]; simp; omega
  have hA : max_frame_area sensor = sensor.max_pixel_rate / d := by
    unfold max_frame_area
    rw [hfi]
    simp only [Nat.mul_one]
    apply Nat.mod_eq_of_lt
    exact Nat.lt_of_le_of_lt (Nat.div_le_self _ _) hmpr
  obtain ⟨ret, sensor1, try1, format1, hset, hw, hh, _⟩ :=
    set_fmt_eq sensor try_fmt format hpad hden
  rw [hA] at hw hh
  have hex2 : ∃ fs ∈ hm5065_frame_sizes,
      frame_size_fits (sensor.max_pixel_rate / d) format.format.width format.format.height fs
        = true := by
    obtain ⟨fs, hmem, hadm⟩ := hex
    exact ⟨fs, hmem, (fits_iff_admissible _ _ _ fs hmem).2 hadm⟩
  obtain ⟨hfit, hfirst⟩ := frame_size_index_of_exists _ _ _ hex2
  have hklt := frame_size_index_lt (sensor.max_pixel_rate / d) format.format.width
    format.format.height
  have hsel_mem := getD_mem_frame_sizes _ hklt
  have hsel_adm := (fits_iff_admissible _ _ _ _ hsel_mem).1 hfit
  have hmax : ∀ fs ∈ hm5065_frame_sizes,
      size_admissible (sensor.max_pixel_rate / d) format.format.width format.format.height fs →
      fs.width * fs.height ≤
        (hm5065_frame_sizes.getD (frame_size_index (sensor.max_pixel_rate / d)
          format.format.width format.format.height) default).width *
        (hm5065_frame_sizes.getD (frame_size_index (sensor.max_pixel_rate / d)
          format.format.width format.format.height) default).height := by
    intro fs hmem hadm
    obtain ⟨j, hj, hje⟩ := mem_frame_sizes_index fs hmem
    have hge : frame_size_index (sensor.max_pixel_rate / d) format.format.width
        format.format.height ≤ j := by
      by_contra hlt
      have := hfirst j (by omega)
      rw [hje, (fits_iff_admissible _ _ _ fs hmem).2 hadm] at this
      exact Bool.noConfusion this
    have := frame_area_antitone _ hklt j hj hge
    rw [hje] at this
    exact this
  refine ⟨⟨ret, sensor1, try1, format1, _, _, hset, getElem?_getD _ hklt, hw, hh, hsel_adm,
    ?_, hmax⟩, ?_⟩
  · intro j fs hj hget hadm
    have hj12 : j < 12 := by omega
    have hmem : fs ∈ hm5065_frame_sizes := by
      rw [← getD_eq_of_getElem? j fs hget]; exact getD_mem_frame_sizes j hj12
    have := hfirst j hj
    rw [getD_eq_of_getElem? j fs hget, (fits_iff_admissible _ _ _ fs hmem).2 hadm] at this
    exact Bool.noConfusion this
  · intro h30 hbud hrw hrh
    have hd30 : d = 30 := by rw [hfi] at h30; exact h30
    subst hd30
    refine ⟨ret, sensor1, try1, format1, hset, ?_, ?_⟩
    · rw [hw, hrw, hrh, frame_size_index_1920_1088 _ (by omega)]; rfl
    · rw [hh, hrw, hrh, frame_size_index_1920_1088 _ (by omega)]; rfl

theorem frame_size_selection_optimal_witness :
    scenario_request.pad = 0 ∧ scenario_sensor.max_pixel_rate < 2 ^ 32 ∧
    scenario_sensor.frame_interval = { numerator := 1, denominator := 30 } ∧
    (∃ fs ∈ hm5065_frame_sizes,
      size_admissible (scenario_sensor.max_pixel_rate / 30) scenario_request.format.width
        scenario_request.format.height fs) ∧
    (∃ ret sensor1 try1 format1,
      hm5065_set_fmt scenario_sensor scenario_sensor.fmt scenario_request
        = some (ret, sensor1, try1, format1) ∧
      format1.format.width = 1920 ∧ format1.format.height = 1080) :=
  ⟨rfl, by decide, rfl, ⟨⟨1920, 1080, 0⟩, by decide, by decide⟩,
    (frame_size_selection_optimal scenario_sensor scenario_sensor.fmt scenario_request 30
      rfl (by decide) rfl (by decide) ⟨⟨1920, 1080, 0⟩, by decide, by decide⟩).2
      rfl (by decide) rfl rfl⟩

theorem all_sizes_at_least_88_72 : ∀ fs ∈ hm5065_frame_sizes, 88 ≤ fs.width ∧ 72 ≤ fs.height := by
  decide

/-- C8: on pad 0, while not streaming and with a frame-interval denominator of at least
1, `hm5065_set_fmt` returns 0 and the returned width and height are those of an entry of
the frame-size table; when no entry satisfies the selection condition, in particular
when the requested width is below 88 or the requested height below 72, the returned
size is 88x72. -/
theorem size_negotiation_never_fails (sensor : hm5065_dev) (try_fmt : v4l2_mbus_framefmt)
    (format : v4l2_subdev_format)
    (hpad : format.pad = 0) (hs : sensor.streaming = false)
    (hd : 1 ≤ sensor.frame_interval.denominator) :
    ∃ (sensor1 : hm5065_dev) (try1 : v4l2_mbus_framefmt) (format1 : v4l2_subdev_format),
      hm5065_set_fmt sensor try_fmt format = some (0, sensor1, try1, format1) ∧
      (∃ fs ∈ hm5065_frame_sizes,
        format1.format.width = fs.width ∧ format1.format.height = fs.height) ∧
      ((∀ fs ∈ hm5065_frame_sizes,
          ¬ size_admissible (max_frame_area sensor) format.format.width
              format.format.height fs) →
        format1.format.width = 88 ∧ format1.format.height = 72) ∧
      (format.format.width < 88 ∨ format.format.height < 72 →
        format1.format.width = 88 ∧ format1.format.height = 72) := by
  obtain ⟨ret, sensor1, try1, format1, hset, hw, hh, hret⟩ :=
    set_fmt_eq sensor try_fmt format hpad (by omega)
  have hr0 : ret = 0 := hret hs
  subst hr0
  have hklt := frame_size_index_lt (max_frame_area sensor) format.format.width
    format.format.height
  have hnone : (∀ fs ∈ hm5065_frame_sizes,
      ¬ size_admissible (max_frame_area sensor) format.format.width
          format.format.height fs) →
      format1.format.width = 88 ∧ format1.format.height = 72 := by
    intro hno
    have hno2 : ∀ fs ∈ hm5065_frame_sizes,
        frame_size_fits (max_frame_area sensor) format.format.width format.format.height fs
          = false := by
      intro fs hmem
      have := hno fs hmem
      rw [← fits_iff_admissible _ _ _ fs hmem] at this
      simpa using this
    rw [hw, hh, frame_size_index_of_none _ _ _ hno2]
    exact ⟨rfl, rfl⟩
  refine ⟨sensor1, try1, format1, hset, ⟨_, getD_mem_frame_sizes _ hklt, hw, hh⟩, hnone, ?_⟩
  intro hsmall
  apply hnone
  intro fs hmem hadm
  have := all_sizes_at_least_88_72 fs hmem
  unfold size_admissible at hadm
  omega

theorem size_negotiation_never_fails_witness :
    small_request.pad = 0 ∧ hm5065_probe_state.streaming = false ∧
    1 ≤ hm5065_probe_state.frame_interval.denominator ∧
    ∃ (sensor1 : hm5065_dev) (try1 : v4l2_mbus_framefmt) (format1 : v4l2_subdev_format),
      hm5065_set_fmt hm5065_probe_state hm5065_probe_state.fmt small_request
        = some (0, sensor1, try1, format1) ∧
      (∃ fs ∈ hm5065_frame_sizes,
        format1.format.width = fs.width ∧ format1.format.height = fs.height) ∧
      ((∀ fs ∈ hm5065_frame_sizes,
          ¬ size_admissible (max_frame_area hm5065_probe_state) small_request.format.width
              small_request.format.height fs) →
        format1.format.width = 88 ∧ format1.format.height = 72) ∧
      (small_request.format.width < 88 ∨ small_request.format.height < 72 →
        format1.format.width = 88 ∧ format1.format.height = 72) :=
  ⟨rfl, rfl, by decide,
    size_negotiation_never_fails hm5065_probe_state hm5065_probe_state.fmt small_request
      rfl rfl (by decide)⟩

/-- C9, counterexample: in the state set up by probe (640x480, interval 1/30,
`max_pixel_rate` 40454545) a request of 2592x1944 on pad 0 returns 1280x1024, not
2592x1944, because the budget `40454545 / 30 = 1348484` is below `2592 * 1944`. -/
theorem oversized_request_counterexample :
    2592 ≤ full_size_request.format.width ∧ 1944 ≤ full_size_request.format.height ∧
    ∃ r, hm5065_set_fmt hm5065_probe_state hm5065_probe_state.fmt full_size_request = some r ∧
      r.2.2.2.format.width = 1280 ∧ r.2.2.2.format.height = 1024 ∧
      ¬ (r.2.2.2.format.width = 2592 ∧ r.2.2.2.format.height = 1944) := by
  refine ⟨by decide, by decide, _, rfl, ?_, ?_, ?_⟩ <;> decide

/-- C9, amended: with a frame-interval denominator of at least 1, a request on pad 0
whose width is at least 2592 and whose height is at least 1944 returns the supported
size of largest area among those whose area is within the budget `max_frame_area`
(88x72 when none is); the result is 2592x1944 exactly when `2592 * 1944` is within the
budget. -/
theorem oversized_request_largest_within_budget (sensor : hm5065_dev)
    (try_fmt : v4l2_mbus_framefmt) (format : v4l2_subdev_format)
    (hpad : format.pad = 0) (hd : 1 ≤ sensor.frame_interval.denominator)
    (hw : 2592 ≤ format.format.width) (hh : 1944 ≤ format.format.height) :
    ∃ (ret : Int) (sensor1 : hm5065_dev) (try1 : v4l2_mbus_framefmt)
        (format1 : v4l2_subdev_format) (sel : hm5065_frame_size),
      hm5065_set_fmt sensor try_fmt format = some (ret, sensor1, try1, format1) ∧
      sel ∈ hm5065_frame_sizes ∧
      format1.format.width = sel.width ∧ format1.format.height = sel.height ∧
      ((∃ fs ∈ hm5065_frame_sizes, fs.width * fs.height ≤ max_frame_area sensor) →
        sel.width * sel.height ≤ max_frame_area sensor) ∧
      (∀ fs ∈ hm5065_frame_sizes, fs.width * fs.height ≤ max_frame_area sensor →
        fs.width * fs.height ≤ sel.width * sel.height) ∧
      ((∀ fs ∈ hm5065_frame_sizes, max_frame_area sensor < fs.width * fs.height) →
        format1.format.width = 88 ∧ format1.format.height = 72) ∧
      (format1.format.width = 2592 ∧ format1.format.height = 1944 ↔
        2592 * 1944 ≤ max_frame_area sensor) := by
  obtain ⟨ret, sensor1, try1, format1, hset, hfw, hfh, _⟩ :=
    set_fmt_eq sensor try_fmt format hpad (by omega)
  have hklt := frame_size_index_lt (max_frame_area sensor) format.format.width
    format.format.height
  have hsel_mem := getD_mem_frame_sizes _ hklt
  have hbig : ∀ fs ∈ hm5065_frame_sizes, fs.width ≤ 2592 ∧ fs.height ≤ 1944 := by decide
  have hadm_iff : ∀ fs ∈ hm5065_frame_sizes,
      (frame_size_fits (max_frame_area sensor) format.format.width format.format.height fs
        = true ↔ fs.width * fs.height ≤ max_frame_area sensor) := by
    intro fs hmem
    rw [fits_iff_admissible _ _ _ fs hmem]
    unfold size_admissible
    have := hbig fs hmem
    constructor
    · intro h; exact h.1
    · intro h; exact ⟨h, by omega, by omega⟩
  have hwithin : (∃ fs ∈ hm5065_frame_sizes, fs.width * fs.height ≤ max_frame_area sensor) →
      frame_size_fits (max_frame_area sensor) format.format.width format.format.height
        (hm5065_frame_sizes.getD (frame_size_index (max_frame_area sensor)
          format.format.width format.format.height) default) = true ∧
      ∀ j, j < frame_size_index (max_frame_area sensor) format.format.width
          format.format.height →
        frame_size_fits (max_frame_area sensor) format.format.width format.format.height
          (hm5065_frame_sizes.getD j default) = false := by
    intro hex
    obtain ⟨fs, hmem, hle⟩ := hex
    exact frame_size_index_of_exists _ _ _ ⟨fs, hmem, (hadm_iff fs hmem).2 hle⟩
  have hnone : (∀ fs ∈ hm5065_frame_sizes, max_frame_area sensor < fs.width * fs.height) →
      frame_size_index (max_frame_area sensor) format.format.width format.format.height
        = 11 := by
    intro hno
    apply frame_size_index_of_none
    intro fs hmem
    have h1 := hno fs hmem
    have h2 := hadm_iff fs hmem
    cases hb : frame_size_fits (max_frame_area sensor) format.format.width
      format.format.height fs
    · rfl
    · have := h2.1 hb; omega
  refine ⟨ret, sensor1, try1, format1, _, hset, hsel_mem, hfw, hfh, ?_, ?_, ?_, ?_⟩
  · intro hex
    exact (hadm_iff _ hsel_mem).1 (hwithin hex).1
  · intro fs hmem hle
    obtain ⟨j, hj, hje⟩ := mem_frame_sizes_index fs hmem
    have hfirst := (hwithin ⟨fs, hmem, hle⟩).2
    have hge : frame_size_index (max_frame_area sensor) format.format.width
        format.format.height ≤ j := by
      by_contra hlt
      have := hfirst j (by omega)
      rw [hje, (hadm_iff fs hmem).2 hle] at this
      exact Bool.noConfusion this
    have := frame_area_antitone _ hklt j hj hge
    rw [hje] at this
    exact this
  · intro hno
    rw [hfw, hfh, hnone hno]
    exact ⟨rfl, rfl⟩
  · have h0mem : (⟨2592, 1944, HM5065_REG_IMAGE_SIZE_5MP⟩ : hm5065_frame_size)
        ∈ hm5065_frame_sizes := by decide
    constructor
    · intro hres
      by_contra hlt
      have huniq : ∀ k < 12, (hm5065_frame_sizes.getD k default).width = 2592 → k = 0 := by
        decide
      have hk0 := huniq _ hklt (by rw [← hfw]; exact hres.1)
      by_cases hex : ∃ fs ∈ hm5065_frame_sizes, fs.width * fs.height ≤ max_frame_area sensor
      · have := (hadm_iff _ hsel_mem).1 (hwithin hex).1
        rw [hk0] at this
        exact hlt this
      · have hno : ∀ fs ∈ hm5065_frame_sizes, max_frame_area sensor < fs.width * fs.height := by
          intro fs hmem
          by_contra hc
          exact hex ⟨fs, hmem, by omega⟩
        have := hnone hno
        omega
    · intro hle
      have hfirst := (hwithin ⟨_, h0mem, hle⟩).2
      have hk0 : frame_size_index (max_frame_area sensor) format.format.width
          format.format.height = 0 := by
        by_contra hne
        have := hfirst 0 (by omega)
        have h2 := (hadm_iff _ h0mem).2 hle
        rw [show hm5065_frame_sizes.getD 0 default
          = (⟨2592, 1944, HM5065_REG_IMAGE_SIZE_5MP⟩ : hm5065_frame_size) from rfl, h2] at this
        exact Bool.noConfusion this
      rw [hfw, hfh, hk0]
      exact ⟨rfl, rfl⟩

theorem oversized_request_largest_within_budget_witness :
    full_size_request.pad = 0 ∧ 1 ≤ hm5065_probe_state.frame_interval.denominator ∧
    2592 ≤ full_size_request.format.width ∧ 1944 ≤ full_size_request.format.height ∧
    ∃ (ret : Int) (sensor1 : hm5065_dev) (try1 : v4l2_mbus_framefmt)
        (format1 : v4l2_subdev_format) (sel : hm5065_frame_size),
      hm5065_set_fmt hm5065_probe_state hm5065_probe_state.fmt full_size_request
        = some (ret, sensor1, try1, format1) ∧
      sel ∈ hm5065_frame_sizes ∧
      format1.format.width = sel.width ∧ format1.format.height = sel.height ∧
      ((∃ fs ∈ hm5065_frame_sizes, fs.width * fs.height ≤ max_frame_area hm5065_probe_state) →
        sel.width * sel.height ≤ max_frame_area hm5065_probe_state) ∧
      (∀ fs ∈ hm5065_frame_sizes, fs.width * fs.height ≤ max_frame_area hm5065_probe_state →
        fs.width * fs.height ≤ sel.width * sel.height) ∧
      ((∀ fs ∈ hm5065_frame_sizes,
          max_frame_area hm5065_probe_state < fs.width * fs.height) →
        format1.format.width = 88 ∧ format1.format.height = 72) ∧
      (format1.format.width = 2592 ∧ format1.format.height = 1944 ↔
        2592 * 1944 ≤ max_frame_area hm5065_probe_state) :=
  ⟨rfl, by decide, by decide, by decide,
    oversized_request_largest_within_budget hm5065_probe_state hm5065_probe_state.fmt
      full_size_request rfl (by decide) (by decide) (by decide)⟩

/-- C10: for a fixed device state with a frame-interval denominator of at least 1 and
two requests on pad 0 with `w1 ≤ w2` and `h1 ≤ h2`, the area of the size returned for
`(w1, h1)` is at most the area of the size returned for `(w2, h2)`. -/
theorem frame_size_negotiation_monotone (sensor : hm5065_dev)
    (try_a try_b : v4l2_mbus_framefmt) (format_a format_b : v4l2_subdev_format)
    (hpad_a : format_a.pad = 0) (hpad_b : format_b.pad = 0)
    (hd : 1 ≤ sensor.frame_interval.denominator)
    (hw : format_a.format.width ≤ format_b.format.width)
    (hh : format_a.format.height ≤ format_b.format.height) :
    ∃ ra rb, hm5065_set_fmt sensor try_a format_a = some ra ∧
      hm5065_set_fmt sensor try_b format_b = some rb ∧
      ra.2.2.2.format.width * ra.2.2.2.format.height ≤
        rb.2.2.2.format.width * rb.2.2.2.format.height := by
  obtain ⟨ret_a, sensor_a, tr_a, f_a, hset_a, hwa, hha, _⟩ :=
    set_fmt_eq sensor try_a format_a hpad_a (by omega)
  obtain ⟨ret_b, sensor_b, tr_b, f_b, hset_b, hwb, hhb, _⟩ :=
    set_fmt_eq sensor try_b format_b hpad_b (by omega)
  refine ⟨_, _, hset_a, hset_b, ?_⟩
  simp only [hwa, hha, hwb, hhb]
  have hmono := frame_size_index_mono (max_frame_area sensor) _ _ _ _ hw hh
  have hlt_a := frame_size_index_lt (max_frame_area sensor) format_a.format.width
    format_a.format.height
  have hlt_b := frame_size_index_lt (max_frame_area sensor) format_b.format.width
    format_b.format.height
  exact frame_area_antitone _ hlt_b _ hlt_a hmono

theorem frame_size_negotiation_monotone_witness :
    small_request.pad = 0 ∧ scenario_request.pad = 0 ∧
    1 ≤ hm5065_probe_state.frame_interval.denominator ∧
    small_request.format.width ≤ scenario_request.format.width ∧
    small_request.format.height ≤ scenario_request.format.height ∧
    ∃ ra rb,
      hm5065_set_fmt hm5065_probe_state hm5065_probe_state.fmt small_request = some ra ∧
      hm5065_set_fmt hm5065_probe_state hm5065_probe_state.fmt scenario_request = some rb ∧
      ra.2.2.2.format.width * ra.2.2.2.format.height ≤
        rb.2.2.2.format.width * rb.2.2.2.format.height :=
  ⟨rfl, rfl, by decide, by decide, by decide,
    frame_size_negotiation_monotone hm5065_probe_state hm5065_probe_state.fmt
      hm5065_probe_state.fmt small_request scenario_request rfl rfl (by decide) (by decide)
      (by decide)⟩

/-! ## Proofs: frame-interval negotiation, streaming and power guards -/

/-- C3, failing input: in the state set up by probe, a request of interval
`1/2147483648` on pad 0 stores denominator 1, because the quotient `2147483648` becomes
negative when it is stored in the `int` variable `frame_rate`; the claimed value is
`min (clamp 2147483648 1 120) (40454545 / (640 * 480)) = 120`. -/
theorem s_frame_interval_huge_rate :
    hm5065_s_frame_interval hm5065_probe_state
        { pad := 0, interval := { numerator := 1, denominator := 2147483648 } }
      = some (0, { hm5065_probe_state with
                    frame_interval := { numerator := 1, denominator := 1 },
                    pending_mode_change := true }) ∧
    min (clamp ((2147483648 / 1 : Nat) : Int) 1 HM5065_FRAME_RATE_MAX)
        ((hm5065_probe_state.max_pixel_rate /
          (hm5065_probe_state.fmt.width * hm5065_probe_state.fmt.height) : Nat) : Int) = 120 := by
  constructor <;> decide

/-- Frame-interval negotiation when the requested rate and the resolution ceiling fit
in a signed 32-bit integer: the stored interval is `1 / r` with
`r = min (clamp ⌊D / n⌋ 1 120) ⌊max_pixel_rate / (width * height)⌋`. -/
theorem s_frame_interval_in_range (sensor : hm5065_dev) (fi : v4l2_subdev_frame_interval)
    (hpad : fi.pad = 0) (hs : sensor.streaming = false)
    (hn : fi.interval.numerator ≠ 0)
    (hw : 0 < sensor.fmt.width) (hh : 0 < sensor.fmt.height)
    (hq : fi.interval.denominator / fi.interval.numerator < 2 ^ 31)
    (hmpr : sensor.max_pixel_rate < 2 ^ 31) :
    hm5065_s_frame_interval sensor fi =
      some (0, { sensor with
                  frame_interval :=
                    { numerator := 1,
                      denominator :=
                        min (min (max (fi.interval.denominator / fi.interval.numerator) 1) 120)
                          (sensor.max_pixel_rate / (sensor.fmt.width * sensor.fmt.height)) },
                  pending_mode_change := true }) := by
  unfold hm5065_s_frame_interval
  have hw0 : sensor.fmt.width ≠ 0 := by omega
  have hh0 : sensor.fmt.height ≠ 0 := by omega
  simp only [hpad, hs, udiv, hn, hw0, hh0, ne_eq, not_true_eq_false, if_false,
    Bool.false_eq_true, Option.bind_eq_bind, Option.some_bind, Option.pure_def, clamp,
    HM5065_FRAME_RATE_MAX]
  have hdd : sensor.max_pixel_rate / sensor.fmt.width / sensor.fmt.height
      = sensor.max_pixel_rate / (sensor.fmt.width * sensor.fmt.height) :=
    Nat.div_div_eq_div_mul _ _ _
  rw [hdd]
  have hm : sensor.max_pixel_rate / (sensor.fmt.width * sensor.fmt.height) < 2 ^ 31 :=
    Nat.lt_of_le_of_lt (Nat.div_le_self _ _) hmpr
  generalize sensor.max_pixel_rate / (sensor.fmt.width * sensor.fmt.height) = M at hm
  generalize fi.interval.denominator / fi.interval.numerator = Q at hq
  have e31 : (2 : Nat) ^ 31 = 2147483648 := by norm_num
  rw [e31] at hm hq
  have hwrap : ∀ k : Nat, k < 2147483648 → wrap_s 32 (k : Int) = (k : Int) := by
    intro k hk
    unfold wrap_s
    have e1 : (2 : Int) ^ (32 - 1) = 2147483648 := by norm_num
    have e2 : (2 : Int) ^ 32 = 4294967296 := by norm_num
    rw [e1, e2]
    omega
  rw [hwrap Q hq, hwrap M hm]
  have hres : wrap_u 32 (if min (max (Q : Int) 1) 120 > (M : Int) then (M : Int)
      else min (max (Q : Int) 1) 120) = min (min (max Q 1) 120) M := by
    have : (if min (max (Q : Int) 1) 120 > (M : Int) then (M : Int)
        else min (max (Q : Int) 1) 120) = ((min (min (max Q 1) 120) M : Nat) : Int) := by
      split <;> omega
    rw [this, wrap_u_of_nat 32 _ (by omega)]
  rw [hres]

/-- With streaming set, `hm5065_s_frame_interval` on pad 0 returns `-EBUSY` with the
device state unchanged, and so does `hm5065_set_fmt` on pad 0 with the active format
when the frame-interval denominator is not zero. -/
theorem streaming_rejects_of_state (sensor : hm5065_dev)
    (try_fmt : v4l2_mbus_framefmt) (format : v4l2_subdev_format)
    (fi : v4l2_subdev_frame_interval)
    (hs : sensor.streaming = true)
    (hpad : format.pad = 0) (hwhich : format.which = V4L2_SUBDEV_FORMAT_ACTIVE)
    (hfipad : fi.pad = 0) :
    hm5065_s_frame_interval sensor fi = some (-EBUSY, sensor) ∧
    (sensor.frame_interval.denominator ≠ 0 →
      ∃ format1, hm5065_set_fmt sensor try_fmt format
        = some (-EBUSY, sensor, try_fmt, format1)) := by
  constructor
  · unfold hm5065_s_frame_interval
    simp [hfipad, hs]
  · intro hd
    unfold hm5065_set_fmt
    simp only [hpad, udiv, hd, hwhich, hs]
    simp [V4L2_SUBDEV_FORMAT_ACTIVE, V4L2_SUBDEV_FORMAT_TRY]

theorem setup_mode_ignores_flags (env : hw_env) (sensor : hm5065_dev) (t : List hw_action)
    (b : Bool) :
    hm5065_setup_mode env { sensor with streaming := b } t = hm5065_setup_mode env sensor t :=
  rfl

theorem set_power_ignores_streaming (env : hw_env) (sensor : hm5065_dev)
    (t : List hw_action) (b on_ : Bool) :
    hm5065_set_power env { sensor with streaming := b } t on_
      = hm5065_set_power env sensor t on_ := by
  unfold hm5065_set_power
  simp only [setup_mode_ignores_flags]

/-- C5, counterexample: a power-off request issued while streaming is not rejected; it
returns 0, runs the power-down sequence and clears `powered`. -/
theorem s_power_off_while_streaming :
    streaming_state.streaming = true ∧
    hm5065_s_power ideal_env streaming_state [] 0 =
      (0, { streaming_state with powered := false },
        [hw_action.clk_disable_unprepare,
         hw_action.gpiod_set_value gpio_line.chipenable_gpio 0,
         hw_action.gpiod_set_value gpio_line.reset_gpio 1,
         hw_action.regulator_bulk_disable]) ∧
    (hm5065_s_power ideal_env streaming_state [] 0).1 ≠ -EBUSY ∧
    (hm5065_s_power ideal_env streaming_state [] 0).2.1 ≠ streaming_state := by
  refine ⟨rfl, ?_, ?_, ?_⟩ <;> decide

theorem s_power_request_held (env : hw_env) (sensor : hm5065_dev) (t : List hw_action)
    (on_ : Int) (hp : sensor.powered = decide (on_ ≠ 0)) :
    hm5065_s_power env sensor t on_ = (0, sensor, t) := by
  unfold hm5065_s_power
  by_cases h0 : on_ = 0
  · subst h0
    simp at hp
    simp [hp]
  · simp [h0] at hp
    simp [hp, h0]

theorem s_power_down (env : hw_env) (sensor : hm5065_dev) (t : List hw_action)
    (hp : sensor.powered = true) :
    hm5065_s_power env sensor t 0 =
      (0, { sensor with powered := false },
        t ++ [hw_action.clk_disable_unprepare] ++
          [hw_action.gpiod_set_value gpio_line.chipenable_gpio 0,
           hw_action.gpiod_set_value gpio_line.reset_gpio 1] ++
          [hw_action.regulator_bulk_disable]) := by
  unfold hm5065_s_power hm5065_set_power hm5065_set_power_xclk_off
    hm5065_set_power_power_off hm5065_chip_enable
  simp [hp]

theorem s_power_up (env : hw_env) (sensor : hm5065_dev) (t : List hw_action)
    (on_ : Int) (h0 : on_ ≠ 0) (hp : sensor.powered = false) :
    hm5065_s_power env sensor t on_ =
      if (hm5065_set_power env sensor t true).1 = 0 then
        (env.v4l2_ctrl_handler_setup (hm5065_set_power env sensor t true).2,
          { sensor with powered := true },
          (hm5065_set_power env sensor t true).2 ++ [hw_action.v4l2_ctrl_handler_setup])
      else ((hm5065_set_power env sensor t true).1, sensor,
          (hm5065_set_power env sensor t true).2) := by
  unfold hm5065_s_power
  by_cases hr : (hm5065_set_power env sensor t true).1 = 0
  · simp [h0, hp, hr]
  · simp [h0, hp, hr]

/-- C5, amended: `hm5065_s_power` does not look at the streaming flag.  For every
device state with streaming set it returns the same value, performs the same hardware
actions and leaves the same `powered` flag as in the state that differs only by
streaming being clear; no field other than `powered` changes; a power-off request
returns 0 and leaves `powered` clear; a request for the power state already held
returns 0 without any hardware action and without any change. -/
theorem s_power_ignores_streaming (env : hw_env) (sensor : hm5065_dev)
    (t : List hw_action) (on_ : Int) (hs : sensor.streaming = true) :
    (hm5065_s_power env sensor t on_).1
      = (hm5065_s_power env { sensor with streaming := false } t on_).1 ∧
    (hm5065_s_power env sensor t on_).2.2
      = (hm5065_s_power env { sensor with streaming := false } t on_).2.2 ∧
    (hm5065_s_power env sensor t on_).2.1.powered
      = (hm5065_s_power env { sensor with streaming := false } t on_).2.1.powered ∧
    (hm5065_s_power env sensor t on_).2.1
      = { sensor with powered := (hm5065_s_power env sensor t on_).2.1.powered } ∧
    (hm5065_s_power env sensor t on_).2.1.streaming = true ∧
    (on_ = 0 → (hm5065_s_power env sensor t on_).1 = 0 ∧
      (hm5065_s_power env sensor t on_).2.1.powered = false) ∧
    (sensor.powered = decide (on_ ≠ 0) → hm5065_s_power env sensor t on_ = (0, sensor, t)) := by
  have key : hm5065_set_power env { sensor with streaming := false } t true
      = hm5065_set_power env sensor t true :=
    set_power_ignores_streaming env sensor t false true
  by_cases hheld : sensor.powered = decide (on_ ≠ 0)
  · have h1 := s_power_request_held env sensor t on_ hheld
    have h2 := s_power_request_held env { sensor with streaming := false } t on_ hheld
    rw [h1, h2]
    refine ⟨rfl, rfl, rfl, rfl, hs, ?_, fun _ => rfl⟩
    intro h0
    subst h0
    simpa using hheld
  · by_cases h0 : on_ = 0
    · subst h0
      have hp : sensor.powered = true := by
        cases hc : sensor.powered
        · rw [hc] at hheld; simp at hheld
        · rfl
      have h1 := s_power_down env sensor t hp
      have h2 := s_power_down env { sensor with streaming := false } t hp
      rw [h1, h2]
      exact ⟨rfl, rfl, rfl, rfl, hs, fun _ => ⟨rfl, rfl⟩, fun h => absurd h hheld⟩
    · have hp : sensor.powered = false := by
        cases hc : sensor.powered
        · rfl
        · rw [hc] at hheld; simp [h0] at hheld
      have h1 := s_power_up env sensor t on_ h0 hp
      have h2 := s_power_up env { sensor with streaming := false } t on_ h0 hp
      rw [key] at h2
      by_cases hr : (hm5065_set_power env sensor t true).1 = 0
      · rw [if_pos hr] at h1 h2
        rw [h1, h2]
        exact ⟨rfl, rfl, rfl, rfl, hs, fun h => absurd h h0, fun h => absurd h hheld⟩
      · rw [if_neg hr] at h1 h2
        rw [h1, h2]
        exact ⟨rfl, rfl, rfl, rfl, hs, fun h => absurd h h0, fun h => absurd h hheld⟩

theorem s_power_ignores_streaming_witness :
    streaming_state.streaming = true ∧
    ((hm5065_s_power ideal_env streaming_state [] 0).1
      = (hm5065_s_power ideal_env { streaming_state with streaming := false } [] 0).1 ∧
    (hm5065_s_power ideal_env streaming_state [] 0).2.2
      = (hm5065_s_power ideal_env { streaming_state with streaming := false } [] 0).2.2 ∧
    (hm5065_s_power ideal_env streaming_state [] 0).2.1.powered
      = (hm5065_s_power ideal_env { streaming_state with streaming := false } [] 0).2.1.powered ∧
    (hm5065_s_power ideal_env streaming_state [] 0).2.1
      = { streaming_state with
          powered := (hm5065_s_power ideal_env streaming_state [] 0).2.1.powered } ∧
    (hm5065_s_power ideal_env streaming_state [] 0).2.1.streaming = true ∧
    ((0 : Int) = 0 → (hm5065_s_power ideal_env streaming_state [] 0).1 = 0 ∧
      (hm5065_s_power ideal_env streaming_state [] 0).2.1.powered = false) ∧
    (streaming_state.powered = decide ((0 : Int) ≠ 0) →
      hm5065_s_power ideal_env streaming_state [] 0 = (0, streaming_state, []))) :=
  ⟨rfl, s_power_ignores_streaming ideal_env streaming_state [] 0 rfl⟩

/-! ## Float codec: reference values -/

/-- C6: for every 16-bit `fp` with `m = fp & 0x1ff` and `e = (fp >> 9) & 0x3f`,
`hm5065_mili_from_fp16 fp = s * ⌊1000 * (512 + m) * 2^(e - 31) / 512⌋` where `s = -1`
if bit 15 of `fp` is set and `s = 1` otherwise; in particular the decoder maps 0 to 0. -/
theorem decode_matches_reference (fp : Nat) (h : fp < 2 ^ 16) :
    hm5065_mili_from_fp16 fp = decode_reference fp ∧ hm5065_mili_from_fp16 0 = 0 :=
  ⟨decode_eq_reference fp h, by decide⟩

theorem decode_matches_reference_witness :
    0xD903 < 2 ^ 16 ∧
    (hm5065_mili_from_fp16 0xD903 = decode_reference 0xD903 ∧ hm5065_mili_from_fp16 0 = 0) :=
  ⟨by decide, decode_matches_reference 0xD903 (by decide)⟩

/-- C7: the encoder maps 0 to 0, and for every 32-bit signed `x` other than `INT_MIN`
its result is the reference value `sign | ((31 + f - 10) << 9) | (M & 0x1ff)` built from
`v = ⌊1024 |x| / 1000⌋` rounded half up, `f` the index of the highest set bit of `v`,
`M = v >> (f - 9)` if `f > 9` and `v << (9 - f)` otherwise, and `sign = 0x8000` exactly
when `x < 0`; the value 1000 encodes to `0x3E00`. -/
theorem encode_matches_reference (x : Int) (hlo : -2 ^ 31 < x) (hhi : x < 2 ^ 31) :
    hm5065_mili_to_fp16 0 = 0 ∧ hm5065_mili_to_fp16 x = encode_reference x ∧
    hm5065_mili_to_fp16 1000 = 0x3E00 :=
  ⟨by decide, encode_eq_reference x hlo hhi, by decide⟩

theorem encode_matches_reference_witness :
    (-2 ^ 31 < (-12345678 : Int)) ∧ ((-12345678 : Int) < 2 ^ 31) ∧
    (hm5065_mili_to_fp16 0 = 0 ∧
      hm5065_mili_to_fp16 (-12345678) = encode_reference (-12345678) ∧
      hm5065_mili_to_fp16 1000 = 0x3E00) :=
  ⟨by norm_num, by norm_num, encode_matches_reference (-12345678) (by norm_num) (by norm_num)⟩

/-! ## Proofs: mode tables -/

/-- C14: `hm5065_find_clk_lut` returns the entries with ids `0x10` to `0x18` for the nine
table frequencies (24 MHz gives `0x16`), returns no entry exactly for every other
frequency, and the nine table frequencies are pairwise distinct. -/
theorem clk_lut_lookup_exact (f : Nat) :
    hm5065_find_clk_lut 12000000 = some { clk_freq := 12000000, lut_id := 0x10 } ∧
    hm5065_find_clk_lut 13000000 = some { clk_freq := 13000000, lut_id := 0x11 } ∧
    hm5065_find_clk_lut 13500000 = some { clk_freq := 13500000, lut_id := 0x12 } ∧
    hm5065_find_clk_lut 14400000 = some { clk_freq := 14400000, lut_id := 0x13 } ∧
    hm5065_find_clk_lut 18000000 = some { clk_freq := 18000000, lut_id := 0x14 } ∧
    hm5065_find_clk_lut 19200000 = some { clk_freq := 19200000, lut_id := 0x15 } ∧
    hm5065_find_clk_lut 24000000 = some { clk_freq := 24000000, lut_id := 0x16 } ∧
    hm5065_find_clk_lut 26000000 = some { clk_freq := 26000000, lut_id := 0x17 } ∧
    hm5065_find_clk_lut 27000000 = some { clk_freq := 27000000, lut_id := 0x18 } ∧
    (hm5065_find_clk_lut f = none ↔
      f ∉ [12000000, 13000000, 13500000, 14400000, 18000000, 19200000, 24000000,
            26000000, 27000000]) ∧
    (hm5065_clk_luts.map (fun l => l.clk_freq)).Nodup ∧
    hm5065_clk_luts.length = 9 := by
  refine ⟨by decide, by decide, by decide, by decide, by decide, by decide, by decide,
    by decide, by decide, ?_, by decide, rfl⟩
  unfold hm5065_find_clk_lut
  rw [List.find?_eq_none]
  simp [hm5065_clk_luts]
  omega

/-- C20: the frame-size table has exactly 12 entries, its first entry is 2592x1944, its
last entry is 88x72, and `width * height` strictly decreases from each entry to the
next. -/
theorem frame_sizes_table_invariant :
    hm5065_frame_sizes.length = 12 ∧
    (hm5065_frame_sizes.head?.map (fun fs => (fs.width, fs.height))) = some (2592, 1944) ∧
    (hm5065_frame_sizes.getLast?.map (fun fs => (fs.width, fs.height))) = some (88, 72) ∧
    List.Chain' (fun a b => b.width * b.height < a.width * a.height) hm5065_frame_sizes := by
  refine ⟨rfl, by decide, by decide, ?_⟩
  simp [hm5065_frame_sizes, List.chain'_cons]

/-! ## Proofs: register transport and bus traces -/

theorem write_regs_eq (env : hw_env) (t : List hw_action) (reg : Nat) (data : List Nat) :
    hm5065_write_regs env t reg data =
      (if (env.i2c_transfer t [reg_write_msg reg data]).1 < 0
        then (env.i2c_transfer t [reg_write_msg reg data]).1
        else 0,
       t ++ [reg_write_action reg data]) := by
  unfold hm5065_write_regs reg_write_action reg_write_msg
  simp only []
  split <;> rfl

theorem write_reg16_eq (env : hw_env) (t : List hw_action) (reg val : Nat) :
    hm5065_write_reg16 env t reg val = hm5065_write_regs env t reg (be16 val) := by
  unfold hm5065_write_reg16 be16
  simp only [Nat.shiftRight_eq_div_pow]
  have h1 : val % 2 ^ 16 / 2 ^ 8 % 256 = val / 256 % 256 := by omega
  have h2 : val % 2 ^ 16 % 256 = val % 256 := by omega
  rw [h1, h2]

theorem first_failure_write (env : hw_env) (t : List hw_action) (reg : Nat)
    (data : List Nat) :
    first_failure env t [reg_write_action reg data] =
      (if (hm5065_write_regs env t reg data).1 = 0 then none
       else some (hm5065_write_regs env t reg data).1) := by
  rw [write_regs_eq]
  unfold reg_write_action
  simp only [first_failure]
  split
  · rename_i h
    rw [if_neg (by omega)]
  · simp

theorem first_failure_append_some (env : hw_env) (a b : List hw_action) :
    ∀ (t : List hw_action) (r : Int), first_failure env t a = some r →
      first_failure env t (a ++ b) = some r := by
  induction a with
  | nil => intro t r h; simp [first_failure] at h
  | cons x rest ih =>
    intro t r h
    cases x <;> simp only [first_failure, List.cons_append] at h ⊢ <;>
      first
      | exact ih _ r h
      | (split at h
         · rename_i hneg; rw [if_pos hneg]; exact h
         · rename_i hneg; rw [if_neg hneg]; exact ih _ r h)

theorem first_failure_append_none (env : hw_env) (a b : List hw_action) :
    ∀ (t : List hw_action), first_failure env t a = none →
      first_failure env t (a ++ b) = first_failure env (t ++ a) b := by
  induction a with
  | nil => intro t _; simp
  | cons x rest ih =>
    intro t h
    have hassoc : t ++ x :: rest = (t ++ [x]) ++ rest := by simp
    cases x <;> simp only [first_failure, List.cons_append] at h ⊢ <;>
      first
      | (rw [hassoc]; exact ih _ h)
      | (split at h
         · exact Option.noConfusion h
         · rename_i hneg; rw [if_neg hneg, hassoc]; exact ih _ h)

theorem first_failure_no_bus (env : hw_env) (a : List hw_action) :
    ∀ (t : List hw_action), (∀ x ∈ a, is_bus_action x = false) →
      first_failure env t a = none := by
  induction a with
  | nil => intro t _; rfl
  | cons x rest ih =>
    intro t h
    have hx := h x (List.mem_cons_self _ _)
    have hrest : ∀ y ∈ rest, is_bus_action y = false :=
      fun y hy => h y (List.mem_cons_of_mem _ hy)
    cases x <;> simp only [first_failure] <;>
      first
      | exact ih _ hrest
      | (simp [is_bus_action] at hx)

theorem reports_nil (env : hw_env) (t : List hw_action) : reports env t [] 0 :=
  ⟨fun r h => by simp [first_failure] at h, fun _ => rfl⟩

theorem reports_write (env : hw_env) (t : List hw_action) (reg : Nat) (data : List Nat) :
    reports env t [reg_write_action reg data] (hm5065_write_regs env t reg data).1 := by
  unfold reports
  rw [first_failure_write]
  constructor
  · intro r h
    split at h
    · exact Option.noConfusion h
    · exact Option.some.inj h
  · intro h; rw [if_pos h]

/-- Sequencing: a successful first part followed by a second part. -/
theorem reports_seq (env : hw_env) (t a b : List hw_action) (ret : Int)
    (ha : reports env t a 0) (hb : reports env (t ++ a) b ret) :
    reports env t (a ++ b) ret := by
  have hnone := ha.2 rfl
  unfold reports
  rw [first_failure_append_none env a b t hnone]
  exact hb

/-- A failed first part followed by actions that do not touch the bus. -/
theorem reports_then_no_bus (env : hw_env) (t a b : List hw_action) (ret : Int)
    (ha : reports env t a ret) (hb : ∀ x ∈ b, is_bus_action x = false) :
    reports env t (a ++ b) ret := by
  unfold reports
  cases hf : first_failure env t a with
  | some r =>
    rw [first_failure_append_some env a b t r hf]
    constructor
    · intro r2 h; rw [← Option.some.inj h]; exact ha.1 r hf
    · intro h0; have := ha.2 h0; rw [hf] at this; exact Option.noConfusion this
  | none =>
    rw [first_failure_append_none env a b t hf, first_failure_no_bus env b _ hb]
    exact ⟨fun r h => Option.noConfusion h, fun _ => rfl⟩

/-- Actions that do not touch the bus followed by an operation. -/
theorem reports_after_no_bus (env : hw_env) (t a b : List hw_action) (ret : Int)
    (ha : ∀ x ∈ a, is_bus_action x = false) (hb : reports env (t ++ a) b ret) :
    reports env t (a ++ b) ret := by
  unfold reports
  rw [first_failure_append_none env a b t (first_failure_no_bus env a t ha)]
  exact hb

theorem run_writes_cons_ok (env : hw_env) (t : List hw_action) (w : Nat × List Nat)
    (l : List (Nat × List Nat)) (hw : (hm5065_write_regs env t w.1 w.2).1 = 0) :
    run_writes env t (w :: l) = run_writes env (t ++ [reg_write_action w.1 w.2]) l := by
  have htr : (hm5065_write_regs env t w.1 w.2).2 = t ++ [reg_write_action w.1 w.2] := by
    rw [write_regs_eq]
  simp [run_writes, hw, htr]

theorem run_writes_cons_fail (env : hw_env) (t : List hw_action) (w : Nat × List Nat)
    (l : List (Nat × List Nat)) (hw : (hm5065_write_regs env t w.1 w.2).1 ≠ 0) :
    run_writes env t (w :: l) = hm5065_write_regs env t w.1 w.2 := by
  simp [run_writes, hw]

theorem run_writes_spec (env : hw_env) (ws : List (Nat × List Nat)) :
    ∀ t : List hw_action, ∃ ext,
      (run_writes env t ws).2 = t ++ ext ∧
      reports env t ext (run_writes env t ws).1 ∧
      ((run_writes env t ws).1 = 0 → ext = ws.map (fun w => reg_write_action w.1 w.2)) := by
  induction ws with
  | nil =>
    intro t
    exact ⟨[], by simp [run_writes], reports_nil env t, fun _ => rfl⟩
  | cons w rest ih =>
    intro t
    by_cases hw : (hm5065_write_regs env t w.1 w.2).1 = 0
    · rw [run_writes_cons_ok env t w rest hw]
      obtain ⟨ext, h1, h2, h3⟩ := ih (t ++ [reg_write_action w.1 w.2])
      refine ⟨[reg_write_action w.1 w.2] ++ ext, ?_, ?_, ?_⟩
      · rw [h1]; simp
      · apply reports_seq env t _ _ _ _ h2
        have := reports_write env t w.1 w.2
        rw [hw] at this
        exact this
      · intro h0
        rw [h3 h0]; rfl
    · rw [run_writes_cons_fail env t w rest hw]
      refine ⟨[reg_write_action w.1 w.2], ?_, reports_write env t w.1 w.2, fun h => absurd h hw⟩
      rw [write_regs_eq]

theorem run_writes_append (env : hw_env) (a b : List (Nat × List Nat)) :
    ∀ t : List hw_action, run_writes env t (a ++ b) =
      if (run_writes env t a).1 ≠ 0 then run_writes env t a
      else run_writes env (run_writes env t a).2 b := by
  induction a with
  | nil => intro t; simp [run_writes]
  | cons w rest ih =>
    intro t
    rw [List.cons_append]
    by_cases hw : (hm5065_write_regs env t w.1 w.2).1 = 0
    · rw [run_writes_cons_ok env t w _ hw, run_writes_cons_ok env t w _ hw]
      exact ih _
    · rw [run_writes_cons_fail env t w _ hw, run_writes_cons_fail env t w _ hw, if_pos hw]

theorem run_writes_then_nil (env : hw_env) (t : List hw_action)
    (k : List hw_action → Int × List hw_action) :
    run_writes_then env t [] k = k t := by
  simp [run_writes_then, run_writes]

theorem run_writes_then_cons (env : hw_env) (t : List hw_action) (w : Nat × List Nat)
    (ws : List (Nat × List Nat)) (k : List hw_action → Int × List hw_action) :
    run_writes_then env t (w :: ws) k =
      if (hm5065_write_regs env t w.1 w.2).1 ≠ 0 then hm5065_write_regs env t w.1 w.2
      else run_writes_then env (hm5065_write_regs env t w.1 w.2).2 ws k := by
  unfold run_writes_then
  by_cases hw : (hm5065_write_regs env t w.1 w.2).1 = 0
  · simp [run_writes, hw]
  · simp [run_writes, hw]

theorem run_writes_eq_then (env : hw_env) (t : List hw_action) (ws : List (Nat × List Nat)) :
    run_writes env t ws = run_writes_then env t ws (fun t1 => (0, t1)) := by
  unfold run_writes_then
  by_cases h : (run_writes env t ws).1 = 0
  · rw [if_neg (by simpa using h)]
    exact Prod.ext h rfl
  · rw [if_pos h]

theorem setup_mode_eq (env : hw_env) (sensor : hm5065_dev) (t : List hw_action) :
    hm5065_setup_mode env sensor t =
      run_writes_then env t (size_writes sensor) (fun t1 =>
        match hm5065_find_format sensor.fmt.code with
        | none => (-EINVAL, t1)
        | some p => run_writes env t1 (format_writes sensor p)) := by
  unfold hm5065_setup_mode hm5065_write_reg8 size_writes
  simp only [write_reg16_eq, run_writes_then_cons, run_writes_then_nil,
    HM5065_REG_SENSOR_MODE_FULLSIZE, HM5065_REG_IMAGE_SIZE_MANUAL, Nat.zero_mod, Nat.reduceMod]
  cases hm5065_find_format sensor.fmt.code with
  | none => rfl
  | some p =>
    simp only [run_writes_eq_then]
    unfold format_writes
    cases p.needs_ycbcr_setup
    · simp only [if_false, Bool.false_eq_true, List.append_nil, List.cons_append,
        List.nil_append, run_writes_then_cons, run_writes_then_nil]
      generalize hm5065_write_regs env t HM5065_REG_P0_SENSOR_MODE [0] = r1
      generalize hm5065_write_regs env r1.2 HM5065_REG_P0_IMAGE_SIZE [10] = r2
      generalize hm5065_write_regs env r2.2 HM5065_REG_P0_MANUAL_HSIZE
        (be16 sensor.fmt.width) = r3
      generalize hm5065_write_regs env r3.2 HM5065_REG_P0_MANUAL_VSIZE
        (be16 sensor.fmt.height) = r4
      generalize hm5065_write_regs env r4.2 HM5065_REG_P0_DATA_FORMAT [p.data_fmt % 256] = r5
      generalize hm5065_write_regs env r5.2 HM5065_REG_DESIRED_FRAME_RATE_NUM
        (be16 sensor.frame_interval.denominator) = r7
      split_ifs <;> rfl
    · simp only [if_true, List.append_nil, List.cons_append,
        List.nil_append, run_writes_then_cons, run_writes_then_nil]

theorem reports_nil_any (env : hw_env) (t : List hw_action) (ret : Int) :
    reports env t [] ret :=
  ⟨fun r h => by simp [first_failure] at h, fun _ => rfl⟩

theorem run_writes_then_spec (env : hw_env) (ws : List (Nat × List Nat))
    (k : List hw_action → Int × List hw_action) (t : List hw_action)
    (hk : ∀ t1, ∃ e, (k t1).2 = t1 ++ e ∧ reports env t1 e (k t1).1) :
    ∃ ext, (run_writes_then env t ws k).2 = t ++ ext ∧
      reports env t ext (run_writes_then env t ws k).1 := by
  obtain ⟨e1, h1, h2, _⟩ := run_writes_spec env ws t
  unfold run_writes_then
  by_cases h : (run_writes env t ws).1 = 0
  · rw [if_neg (by simpa using h)]
    obtain ⟨e2, h3, h4⟩ := hk (run_writes env t ws).2
    rw [h1] at h3 h4
    rw [h] at h2
    refine ⟨e1 ++ e2, ?_, ?_⟩
    · rw [h1, h3, List.append_assoc]
    · rw [h1]; exact reports_seq env t e1 e2 _ h2 h4
  · rw [if_pos h]
    exact ⟨e1, h1, h2⟩

theorem setup_mode_spec (env : hw_env) (sensor : hm5065_dev) (t : List hw_action) :
    ∃ ext, (hm5065_setup_mode env sensor t).2 = t ++ ext ∧
      reports env t ext (hm5065_setup_mode env sensor t).1 := by
  rw [setup_mode_eq]
  apply run_writes_then_spec
  intro t1
  cases hm5065_find_format sensor.fmt.code with
  | none => exact ⟨[], by simp, reports_nil_any env t1 _⟩
  | some p =>
    obtain ⟨e, h1, h2, _⟩ := run_writes_spec env (format_writes sensor p) t1
    exact ⟨e, h1, h2⟩

theorem s_stream_spec (env : hw_env) (sensor : hm5065_dev) (t : List hw_action)
    (enable : Int) :
    ∃ ext, (hm5065_s_stream env sensor t enable).2.2 = t ++ ext ∧
      reports env t ext (hm5065_s_stream env sensor t enable).1 ∧
      ((hm5065_s_stream env sensor t enable).1 ≠ 0 →
        (hm5065_s_stream env sensor t enable).2.1 = sensor) := by
  unfold hm5065_s_stream
  by_cases hheld : sensor.streaming = decide (enable = 0)
  · rw [if_pos hheld]
    have hmode : ∃ e, (if enable ≠ 0 ∧ sensor.pending_mode_change = true
          then hm5065_setup_mode env sensor t else (0, t)).2 = t ++ e ∧
        reports env t e (if enable ≠ 0 ∧ sensor.pending_mode_change = true
          then hm5065_setup_mode env sensor t else (0, t)).1 := by
      split
      · exact setup_mode_spec env sensor t
      · exact ⟨[], by simp, reports_nil env t⟩
    obtain ⟨e1, h1, h2⟩ := hmode
    generalize (if enable ≠ 0 ∧ sensor.pending_mode_change = true
      then hm5065_setup_mode env sensor t else (0, t)) = m at h1 h2
    simp only []
    by_cases hm : m.1 = 0
    · rw [if_neg (by simpa using hm)]
      unfold hm5065_set_stream hm5065_write_reg8
      generalize (if enable ≠ 0 then HM5065_REG_USER_COMMAND_RUN
        else HM5065_REG_USER_COMMAND_STOP) % 256 = cmd
      have hw := reports_write env m.2 HM5065_REG_USER_COMMAND [cmd]
      have htr : (hm5065_write_regs env m.2 HM5065_REG_USER_COMMAND [cmd]).2
          = m.2 ++ [reg_write_action HM5065_REG_USER_COMMAND [cmd]] := by
        rw [write_regs_eq]
      rw [hm] at h2
      rw [h1] at hw htr
      by_cases hs : (hm5065_write_regs env m.2 HM5065_REG_USER_COMMAND [cmd]).1 = 0
      · rw [if_neg (by simpa using hs)]
        refine ⟨e1 ++ [reg_write_action HM5065_REG_USER_COMMAND [cmd]], ?_, ?_, ?_⟩
        · show (hm5065_write_regs env m.2 HM5065_REG_USER_COMMAND [cmd]).2 = _
          rw [h1, htr, List.append_assoc]
        · show reports env t _ (hm5065_write_regs env m.2 HM5065_REG_USER_COMMAND [cmd]).1
          rw [h1]
          exact reports_seq env t e1 _ _ h2 hw
        · intro hne
          exact absurd hs hne
      · rw [if_pos hs]
        refine ⟨e1 ++ [reg_write_action HM5065_REG_USER_COMMAND [cmd]], ?_, ?_, fun _ => rfl⟩
        · show (hm5065_write_regs env m.2 HM5065_REG_USER_COMMAND [cmd]).2 = _
          rw [h1, htr, List.append_assoc]
        · show reports env t _ (hm5065_write_regs env m.2 HM5065_REG_USER_COMMAND [cmd]).1
          rw [h1]
          exact reports_seq env t e1 _ _ h2 hw
    · rw [if_pos hm]
      exact ⟨e1, h1, h2, fun _ => rfl⟩
  · rw [if_neg hheld]
    exact ⟨[], by simp, reports_nil env t, fun h => absurd rfl h⟩

/-! ## Proofs: streaming -/

theorem run_writes_ok (env : hw_env) (hbus : ∀ tr msgs, 0 ≤ (env.i2c_transfer tr msgs).1)
    (ws : List (Nat × List Nat)) :
    ∀ t : List hw_action,
      run_writes env t ws = (0, t ++ ws.map (fun w => reg_write_action w.1 w.2)) := by
  induction ws with
  | nil => intro t; simp [run_writes]
  | cons w rest ih =>
    intro t
    have hw : (hm5065_write_regs env t w.1 w.2).1 = 0 := by
      rw [write_regs_eq]
      have := hbus t [reg_write_msg w.1 w.2]
      simp only []
      rw [if_neg (by omega)]
    rw [run_writes_cons_ok env t w rest hw, ih]
    simp

theorem formats_fit_u8 : ∀ p ∈ hm5065_formats,
    p.data_fmt % 256 = p.data_fmt ∧ p.ycbcr_order % 256 = p.ycbcr_order := by
  decide

theorem find_format_mem (code : Nat) (p : hm5065_pixfmt)
    (h : hm5065_find_format code = some p) : p ∈ hm5065_formats ∧ p.code = code := by
  unfold hm5065_find_format at h
  refine ⟨List.mem_of_find?_eq_some h, ?_⟩
  have := List.find?_some h
  simpa using this

theorem setup_mode_ok (env : hw_env) (hbus : ∀ tr msgs, 0 ≤ (env.i2c_transfer tr msgs).1)
    (sensor : hm5065_dev) (t : List hw_action) (p : hm5065_pixfmt)
    (hfmt : hm5065_find_format sensor.fmt.code = some p) :
    hm5065_setup_mode env sensor t =
      (0, t ++
        [ reg_write_action 0x0040 [0x00],
          reg_write_action 0x0041 [0x0a],
          reg_write_action 0x0042 (be16 sensor.fmt.width),
          reg_write_action 0x0044 (be16 sensor.fmt.height),
          reg_write_action 0x0046 [p.data_fmt] ] ++
        (if p.needs_ycbcr_setup then [reg_write_action 0x0085 [p.ycbcr_order]] else []) ++
        [ reg_write_action 0x00c8 (be16 sensor.frame_interval.denominator) ]) := by
  obtain ⟨hd, ho⟩ := formats_fit_u8 p (find_format_mem _ p hfmt).1
  rw [setup_mode_eq]
  unfold run_writes_then
  rw [run_writes_ok env hbus, hfmt]
  simp only [ne_eq, not_true_eq_false, if_false]
  rw [run_writes_ok env hbus]
  unfold size_writes format_writes
  rw [hd, ho]
  cases p.needs_ycbcr_setup <;>
    simp [HM5065_REG_P0_SENSOR_MODE, HM5065_REG_SENSOR_MODE_FULLSIZE,
      HM5065_REG_P0_IMAGE_SIZE, HM5065_REG_IMAGE_SIZE_MANUAL, HM5065_REG_P0_MANUAL_HSIZE,
      HM5065_REG_P0_MANUAL_VSIZE, HM5065_REG_P0_DATA_FORMAT, HM5065_REG_YCRCB_ORDER,
      HM5065_REG_DESIRED_FRAME_RATE_NUM]

theorem write_regs_ok (env : hw_env) (hbus : ∀ tr msgs, 0 ≤ (env.i2c_transfer tr msgs).1)
    (t : List hw_action) (reg : Nat) (data : List Nat) :
    hm5065_write_regs env t reg data = (0, t ++ [reg_write_action reg data]) := by
  rw [write_regs_eq]
  split
  · rename_i h
    exact absurd h (Int.not_lt.mpr (hbus _ _))
  · rfl

theorem set_stream_ok (env : hw_env) (hbus : ∀ tr msgs, 0 ≤ (env.i2c_transfer tr msgs).1)
    (t : List hw_action) (enable : Int) :
    hm5065_set_stream env t enable =
      (0, t ++ [reg_write_action 0x0010 [if enable ≠ 0 then 0x01 else 0x00]]) := by
  unfold hm5065_set_stream hm5065_write_reg8
  rw [write_regs_ok env hbus]
  by_cases h : enable = 0 <;>
    simp [h, HM5065_REG_USER_COMMAND, HM5065_REG_USER_COMMAND_RUN, HM5065_REG_USER_COMMAND_STOP]

/-- C15: with streaming clear, a pending mode change, a supported pixel code and a bus on
which every transfer succeeds, `hm5065_s_stream(1)` issues exactly the register writes
`0x0040 <- 0x00`, `0x0041 <- 0x0a`, `0x0042 <- width`, `0x0044 <- height` (16-bit, most
significant byte first), `0x0046 <- data format`, `0x0085 <- Y/Cb/Cr order` only when the
format needs it, `0x00c8 <- frame-interval denominator` (16-bit) and finally
`0x0010 <- 0x01`, in this order; it returns 0 and sets the streaming flag. -/
theorem stream_start_programs_mode (env : hw_env) (sensor : hm5065_dev)
    (t : List hw_action) (p : hm5065_pixfmt)
    (hs : sensor.streaming = false) (hpend : sensor.pending_mode_change = true)
    (hfmt : hm5065_find_format sensor.fmt.code = some p)
    (hbus : ∀ tr msgs, 0 ≤ (env.i2c_transfer tr msgs).1) :
    hm5065_s_stream env sensor t 1 =
      (0, { sensor with streaming := true },
        t ++
        [ reg_write_action 0x0040 [0x00],
          reg_write_action 0x0041 [0x0a],
          reg_write_action 0x0042 (be16 sensor.fmt.width),
          reg_write_action 0x0044 (be16 sensor.fmt.height),
          reg_write_action 0x0046 [p.data_fmt] ] ++
        (if p.needs_ycbcr_setup then [reg_write_action 0x0085 [p.ycbcr_order]] else []) ++
        [ reg_write_action 0x00c8 (be16 sensor.frame_interval.denominator) ] ++
        [ reg_write_action 0x0010 [0x01] ]) := by
  unfold hm5065_s_stream
  rw [if_pos (by rw [hs]; decide),
    if_pos (show (1 : Int) ≠ 0 ∧ sensor.pending_mode_change = true from ⟨by decide, hpend⟩),
    setup_mode_ok env hbus sensor t p hfmt]
  simp only [ne_eq, not_true_eq_false, if_false]
  rw [set_stream_ok env hbus]
  simp

theorem ideal_env_bus_ok : ∀ tr msgs, 0 ≤ (ideal_env.i2c_transfer tr msgs).1 :=
  fun _ msgs => Int.ofNat_nonneg msgs.length

theorem stream_start_programs_mode_witness :
    hm5065_probe_state.streaming = false ∧ hm5065_probe_state.pending_mode_change = true ∧
    hm5065_find_format hm5065_probe_state.fmt.code
      = some ⟨MEDIA_BUS_FMT_UYVY8_2X8, V4L2_COLORSPACE_SRGB,
          HM5065_REG_DATA_FORMAT_YCBCR_JFIF, HM5065_REG_YCRCB_ORDER_CB_Y_CR_Y, true⟩ ∧
    hm5065_s_stream ideal_env hm5065_probe_state [] 1 =
      (0, { hm5065_probe_state with streaming := true },
        [ reg_write_action 0x0040 [0x00],
          reg_write_action 0x0041 [0x0a],
          reg_write_action 0x0042 [0x02, 0x80],
          reg_write_action 0x0044 [0x01, 0xe0],
          reg_write_action 0x0046 [0x00],
          reg_write_action 0x0085 [0x00],
          reg_write_action 0x00c8 [0x00, 0x1e],
          reg_write_action 0x0010 [0x01] ]) :=
  ⟨rfl, rfl, rfl,
    stream_start_programs_mode ideal_env hm5065_probe_state []
      ⟨MEDIA_BUS_FMT_UYVY8_2X8, V4L2_COLORSPACE_SRGB,
        HM5065_REG_DATA_FORMAT_YCBCR_JFIF, HM5065_REG_YCRCB_ORDER_CB_Y_CR_Y, true⟩
      rfl rfl rfl ideal_env_bus_ok⟩

/-- C16: if a register write issued by `hm5065_s_stream` fails (its bus transfer
returns a negative code `r`), the call returns `r` and the device state, the
streaming flag included, is the one from before the call. -/
theorem stream_transition_atomic (env : hw_env) (sensor : hm5065_dev)
    (t ext : List hw_action) (enable r : Int)
    (hext : (hm5065_s_stream env sensor t enable).2.2 = t ++ ext)
    (hfail : first_failure env t ext = some r) :
    (hm5065_s_stream env sensor t enable).1 = r ∧
    (hm5065_s_stream env sensor t enable).2.1 = sensor := by
  obtain ⟨e, h1, h2, h3⟩ := s_stream_spec env sensor t enable
  have he : ext = e := List.append_cancel_left (hext.symm.trans h1)
  subst he
  have hr := h2.1 r hfail
  refine ⟨hr, h3 ?_⟩
  intro h0
  have := h2.2 h0
  rw [hfail] at this
  exact Option.noConfusion this

theorem stream_transition_atomic_witness :
    (hm5065_s_stream failing_bus_env hm5065_probe_state [] 1).2.2
      = [] ++ [reg_write_action 0x0040 [0x00]] ∧
    first_failure failing_bus_env [] [reg_write_action 0x0040 [0x00]] = some (-5) ∧
    (hm5065_s_stream failing_bus_env hm5065_probe_state [] 1).1 = -5 ∧
    (hm5065_s_stream failing_bus_env hm5065_probe_state [] 1).2.1 = hm5065_probe_state :=
  ⟨by decide, by decide,
    stream_transition_atomic failing_bus_env hm5065_probe_state []
      [reg_write_action 0x0040 [0x00]] 1 (-5) (by decide) (by decide)⟩

theorem s_stream_held (env : hw_env) (sensor : hm5065_dev) (t : List hw_action)
    (enable : Int) (hheld : sensor.streaming = decide (enable ≠ 0)) :
    hm5065_s_stream env sensor t enable = (0, sensor, t) := by
  unfold hm5065_s_stream
  rw [if_neg]
  rw [hheld]
  by_cases h : enable = 0 <;> simp [h]

theorem s_stream_stop (env : hw_env) (sensor : hm5065_dev) (t : List hw_action)
    (hs : sensor.streaming = true)
    (hbus : 0 ≤ (env.i2c_transfer t [reg_write_msg 0x0010 [0x00]]).1) :
    hm5065_s_stream env sensor t 0 =
      (0, { sensor with streaming := false }, t ++ [reg_write_action 0x0010 [0x00]]) := by
  have hset : hm5065_set_stream env t 0 = (0, t ++ [reg_write_action 0x0010 [0x00]]) := by
    unfold hm5065_set_stream hm5065_write_reg8
    rw [write_regs_eq]
    have e : (if (0 : Int) ≠ 0 then HM5065_REG_USER_COMMAND_RUN
        else HM5065_REG_USER_COMMAND_STOP) % 256 = 0x00 := by decide
    have e2 : HM5065_REG_USER_COMMAND = 0x0010 := rfl
    rw [e, e2, if_neg (by omega)]
  unfold hm5065_s_stream
  simp [hs, hset]

/-- C17: requesting the streaming state already held returns 0, issues no bus
transaction and leaves the device state unchanged; and `hm5065_s_stream(0)` from a
streaming device whose bus accepts the write issues `0x0010 <- 0x00`, returns 0 and
clears the streaming flag. -/
theorem stream_request_held_is_noop (env : hw_env) (sensor : hm5065_dev)
    (t : List hw_action) (enable : Int) :
    (sensor.streaming = decide (enable ≠ 0) →
      hm5065_s_stream env sensor t enable = (0, sensor, t)) ∧
    (sensor.streaming = true →
      0 ≤ (env.i2c_transfer t [reg_write_msg 0x0010 [0x00]]).1 →
      hm5065_s_stream env sensor t 0 =
        (0, { sensor with streaming := false }, t ++ [reg_write_action 0x0010 [0x00]])) :=
  ⟨s_stream_held env sensor t enable, s_stream_stop env sensor t⟩

theorem stream_request_held_is_noop_witness :
    streaming_state.streaming = decide ((1 : Int) ≠ 0) ∧
    hm5065_s_stream ideal_env streaming_state [] 1 = (0, streaming_state, []) ∧
    streaming_state.streaming = true ∧
    0 ≤ (ideal_env.i2c_transfer [] [reg_write_msg 0x0010 [0x00]]).1 ∧
    hm5065_s_stream ideal_env streaming_state [] 0 =
      (0, { streaming_state with streaming := false },
        [] ++ [reg_write_action 0x0010 [0x00]]) :=
  ⟨rfl, (stream_request_held_is_noop ideal_env streaming_state [] 1).1 rfl, rfl, by decide,
    (stream_request_held_is_noop ideal_env streaming_state [] 1).2 rfl (by decide)⟩

/-! ## Proofs: power sequencing -/

theorem read_reg16_eq (env : hw_env) (t : List hw_action) (reg : Nat) :
    hm5065_read_reg16 env t reg =
      if (env.i2c_transfer t (reg_read_msgs reg 2)).1 < 0 then
        ((env.i2c_transfer t (reg_read_msgs reg 2)).1, 0, t ++ [reg_read_action reg 2])
      else
        (0, be16_value (env.i2c_transfer t (reg_read_msgs reg 2)).2,
          t ++ [reg_read_action reg 2]) := by
  unfold hm5065_read_reg16 hm5065_read_regs reg_read_action reg_read_msgs be16_value
  simp only []
  split
  · rename_i h
    rw [if_pos (by simp only []; omega)]
  · rw [if_neg (by simp)]

theorem first_failure_read (env : hw_env) (t : List hw_action) (reg count : Nat) :
    first_failure env t [reg_read_action reg count] =
      if (env.i2c_transfer t (reg_read_msgs reg count)).1 < 0 then
        some (env.i2c_transfer t (reg_read_msgs reg count)).1
      else none := by
  unfold reg_read_action
  simp only [first_failure]

theorem configure_eq (env : hw_env) (t : List hw_action) :
    hm5065_configure env t =
      if (env.i2c_transfer t (reg_read_msgs 0x0000 2)).1 < 0 then
        ((env.i2c_transfer t (reg_read_msgs 0x0000 2)).1, t ++ [reg_read_action 0x0000 2])
      else if be16_value (env.i2c_transfer t (reg_read_msgs 0x0000 2)).2 ≠ 0x039e then
        (-EINVAL, t ++ [reg_read_action 0x0000 2])
      else
        match hm5065_find_clk_lut (env.clk_get_rate (t ++ [reg_read_action 0x0000 2])) with
        | none => (-EINVAL, t ++ [reg_read_action 0x0000 2] ++ [hw_action.clk_get_rate])
        | some lut =>
          hm5065_write_regs env (t ++ [reg_read_action 0x0000 2] ++ [hw_action.clk_get_rate])
            0x0009 [lut.lut_id % 256] := by
  unfold hm5065_configure
  rw [read_reg16_eq]
  simp only [HM5065_REG_DEVICE_ID, HM5065_REG_DEVICE_ID_VALUE, HM5065_REG_EXCLOCKLUT,
    hm5065_write_reg8]
  by_cases h1 : (env.i2c_transfer t (reg_read_msgs 0 2)).1 < 0
  · rw [if_pos h1, if_pos h1]
    rw [if_pos (by simp only []; omega)]
  · rw [if_neg h1, if_neg h1]
    simp only [ne_eq, not_true_eq_false, if_false]
    by_cases h2 : be16_value (env.i2c_transfer t (reg_read_msgs 0 2)).2 = 926
    · rw [if_neg (by simpa using h2), if_neg (by simpa using h2)]
      cases hm5065_find_clk_lut (env.clk_get_rate (t ++ [reg_read_action 0 2])) with
      | none => rfl
      | some lut =>
        simp only []
        split
        · rfl
        · rename_i h
          simp only [ne_eq, not_not] at h
          exact Prod.ext h.symm rfl
    · rw [if_pos h2, if_pos h2]

theorem configure_spec (env : hw_env) (t : List hw_action) :
    ∃ ext, (hm5065_configure env t).2 = t ++ ext ∧
      reports env t ext (hm5065_configure env t).1 := by
  rw [configure_eq]
  have hread := first_failure_read env t 0x0000 2
  by_cases h1 : (env.i2c_transfer t (reg_read_msgs 0x0000 2)).1 < 0
  · rw [if_pos h1]
    rw [if_pos h1] at hread
    refine ⟨[reg_read_action 0x0000 2], rfl, ?_, ?_⟩
    · intro r hr
      rw [hread] at hr
      exact Option.some.inj hr
    · intro h0
      simp only [] at h0
      omega
  · rw [if_neg h1]
    rw [if_neg h1] at hread
    have hrd0 : reports env t [reg_read_action 0x0000 2] 0 :=
      ⟨fun r hr => by rw [hread] at hr; exact Option.noConfusion hr, fun _ => hread⟩
    by_cases h2 : be16_value (env.i2c_transfer t (reg_read_msgs 0x0000 2)).2 ≠ 0x039e
    · rw [if_pos h2]
      refine ⟨[reg_read_action 0x0000 2], rfl, ?_, fun _ => hread⟩
      intro r hr
      rw [hread] at hr
      exact Option.noConfusion hr
    · rw [if_neg h2]
      have hnb : ∀ x ∈ [hw_action.clk_get_rate], is_bus_action x = false := by
        intro x hx
        simp at hx
        subst hx
        rfl
      have hpre : reports env t ([reg_read_action 0x0000 2] ++ [hw_action.clk_get_rate]) 0 :=
        reports_then_no_bus env t _ _ 0 hrd0 hnb
      cases hm5065_find_clk_lut (env.clk_get_rate (t ++ [reg_read_action 0x0000 2])) with
      | none =>
        refine ⟨[reg_read_action 0x0000 2] ++ [hw_action.clk_get_rate], by simp, ?_, ?_⟩
        · intro r hr
          rw [hpre.2 rfl] at hr
          exact Option.noConfusion hr
        · intro _
          exact hpre.2 rfl
      | some lut =>
        simp only []
        refine ⟨([reg_read_action 0x0000 2] ++ [hw_action.clk_get_rate]) ++
          [reg_write_action 0x0009 [lut.lut_id % 256]], ?_, ?_⟩
        · rw [write_regs_eq]; simp
        · apply reports_seq env t _ _ _ hpre
          have := reports_write env (t ++ ([reg_read_action 0x0000 2] ++ [hw_action.clk_get_rate]))
            0x0009 [lut.lut_id % 256]
          simpa using this

theorem set_power_on_eq (env : hw_env) (sensor : hm5065_dev) (t : List hw_action)
    (hreg : env.regulator_bulk_enable t = 0)
    (hclk : env.clk_prepare_enable (t ++ [hw_action.regulator_bulk_enable]) = 0)
    (hrate : env.clk_set_rate
      (t ++ [hw_action.regulator_bulk_enable] ++ [hw_action.clk_prepare_enable]) 24000000 = 0) :
    hm5065_set_power env sensor t true =
      if (hm5065_configure env (t ++ power_up_actions)).1 ≠ 0 then
        ((hm5065_configure env (t ++ power_up_actions)).1,
          (hm5065_configure env (t ++ power_up_actions)).2 ++ power_down_actions)
      else if (hm5065_setup_mode env sensor
          (hm5065_configure env (t ++ power_up_actions)).2).1 ≠ 0 then
        ((hm5065_setup_mode env sensor (hm5065_configure env (t ++ power_up_actions)).2).1,
          (hm5065_setup_mode env sensor (hm5065_configure env (t ++ power_up_actions)).2).2
            ++ power_down_actions)
      else
        (0, (hm5065_setup_mode env sensor
          (hm5065_configure env (t ++ power_up_actions)).2).2) := by
  unfold hm5065_set_power
  simp only [if_true, hreg, hclk, hrate, ne_eq, not_true_eq_false, if_false]
  have htr : hm5065_chip_enable
      (hm5065_chip_enable
          (t ++ [hw_action.regulator_bulk_enable] ++ [hw_action.clk_prepare_enable] ++
              [hw_action.clk_set_rate 24000000] ++ [hw_action.usleep_range 1000 2000]) false ++
        [hw_action.usleep_range 1000 2000]) true ++ [hw_action.usleep_range 50000 70000]
      = t ++ power_up_actions := by
    simp [hm5065_chip_enable, power_up_actions]
  rw [htr]
  have hx : ∀ (tr : List hw_action) (ret : Int),
      hm5065_set_power_xclk_off tr ret = (ret, tr ++ power_down_actions) := by
    intro tr ret
    simp [hm5065_set_power_xclk_off, hm5065_set_power_power_off, hm5065_chip_enable,
      power_down_actions]
  simp only [hx]

theorem no_bus_power_up : ∀ x ∈ power_up_actions, is_bus_action x = false := by decide

theorem no_bus_power_down : ∀ x ∈ power_down_actions, is_bus_action x = false := by decide

/-- Trace and result of a power-up attempt whose supply and clock steps succeed. -/
theorem s_power_up_spec (env : hw_env) (sensor : hm5065_dev) (t : List hw_action)
    (on_ : Int) (hon : on_ ≠ 0) (hp : sensor.powered = false)
    (hreg : env.regulator_bulk_enable t = 0)
    (hclk : env.clk_prepare_enable (t ++ [hw_action.regulator_bulk_enable]) = 0)
    (hrate : env.clk_set_rate
      (t ++ [hw_action.regulator_bulk_enable] ++ [hw_action.clk_prepare_enable]) 24000000 = 0) :
    (∃ body err, err ≠ 0 ∧ reports env t (body ++ power_down_actions) err ∧
      hm5065_s_power env sensor t on_ = (err, sensor, t ++ body ++ power_down_actions) ∧
      ((hm5065_configure env (t ++ power_up_actions)).1 ≠ 0 →
        err = (hm5065_configure env (t ++ power_up_actions)).1)) ∨
    (∃ body, reports env t (body ++ [hw_action.v4l2_ctrl_handler_setup]) 0 ∧
      (hm5065_configure env (t ++ power_up_actions)).1 = 0 ∧
      (hm5065_s_power env sensor t on_).2.2
        = t ++ (body ++ [hw_action.v4l2_ctrl_handler_setup])) := by
  have hsp := set_power_on_eq env sensor t hreg hclk hrate
  have hup := s_power_up env sensor t on_ hon hp
  obtain ⟨ec, hc1, hc2⟩ := configure_spec env (t ++ power_up_actions)
  by_cases hc : (hm5065_configure env (t ++ power_up_actions)).1 = 0
  · rw [if_neg (by simpa using hc)] at hsp
    obtain ⟨em, hm1, hm2⟩ := setup_mode_spec env sensor
      (hm5065_configure env (t ++ power_up_actions)).2
    rw [hc] at hc2
    have hpre : reports env t (power_up_actions ++ ec) 0 :=
      reports_after_no_bus env t _ _ 0 no_bus_power_up hc2
    have hall : reports env t ((power_up_actions ++ ec) ++ em)
        (hm5065_setup_mode env sensor (hm5065_configure env (t ++ power_up_actions)).2).1 := by
      apply reports_seq env t _ _ _ hpre
      rw [← List.append_assoc, ← hc1]
      exact hm2
    by_cases hm : (hm5065_setup_mode env sensor
        (hm5065_configure env (t ++ power_up_actions)).2).1 = 0
    · right
      rw [if_neg (by simpa using hm)] at hsp
      rw [hsp, if_pos rfl] at hup
      rw [hm] at hall
      refine ⟨(power_up_actions ++ ec) ++ em, ?_, hc, ?_⟩
      · apply reports_then_no_bus env t _ _ 0 hall
        intro x hx
        simp at hx
        subst hx
        rfl
      · rw [hup]
        show (hm5065_setup_mode env sensor (hm5065_configure env (t ++ power_up_actions)).2).2
            ++ [hw_action.v4l2_ctrl_handler_setup] = _
        rw [hm1, hc1]
        simp
    · left
      rw [if_pos hm] at hsp
      rw [hsp, if_neg hm] at hup
      refine ⟨(power_up_actions ++ ec) ++ em, _, hm, ?_, ?_, fun h => absurd hc h⟩
      · exact reports_then_no_bus env t _ _ _ hall no_bus_power_down
      · rw [hup, hm1, hc1]
        simp
  · left
    rw [if_pos hc] at hsp
    rw [hsp, if_neg hc] at hup
    refine ⟨power_up_actions ++ ec, _, hc, ?_, ?_, fun _ => rfl⟩
    · apply reports_then_no_bus env t _ _ _ _ no_bus_power_down
      exact reports_after_no_bus env t _ _ _ no_bus_power_up hc2
    · rw [hup, hc1]
      simp

/-- C13: starting from `powered = false`, when the supplies and the clock were switched
on, a power-on request is unwound if the identity register does not read `0x039e`
(result `-EINVAL`), if the clock rate has no lookup-table entry (result `-EINVAL`), or
if any bus transfer of the configuration or the mode programming fails (result: the
code of that transfer): the call returns the error, the device state is unchanged, so
`powered` stays false, and the trace ends with clock disable, chip-enable deassert and
regulator disable. -/
theorem failed_power_on_unwinds (env : hw_env) (sensor : hm5065_dev) (t : List hw_action)
    (on_ : Int) (hon : on_ ≠ 0) (hp : sensor.powered = false)
    (hreg : env.regulator_bulk_enable t = 0)
    (hclk : env.clk_prepare_enable (t ++ [hw_action.regulator_bulk_enable]) = 0)
    (hrate : env.clk_set_rate
      (t ++ [hw_action.regulator_bulk_enable] ++ [hw_action.clk_prepare_enable]) 24000000 = 0) :
    (0 ≤ (env.i2c_transfer (t ++ power_up_actions) (reg_read_msgs 0x0000 2)).1 →
      be16_value (env.i2c_transfer (t ++ power_up_actions) (reg_read_msgs 0x0000 2)).2
        ≠ 0x039e →
      power_on_unwound env sensor t on_ (-EINVAL)) ∧
    (0 ≤ (env.i2c_transfer (t ++ power_up_actions) (reg_read_msgs 0x0000 2)).1 →
      be16_value (env.i2c_transfer (t ++ power_up_actions) (reg_read_msgs 0x0000 2)).2
        = 0x039e →
      hm5065_find_clk_lut
        (env.clk_get_rate (t ++ power_up_actions ++ [reg_read_action 0x0000 2])) = none →
      power_on_unwound env sensor t on_ (-EINVAL)) ∧
    (∀ ext r, (hm5065_s_power env sensor t on_).2.2 = t ++ ext →
      first_failure env t ext = some r →
      power_on_unwound env sensor t on_ r) ∧
    (∀ err, power_on_unwound env sensor t on_ err →
      (hm5065_s_power env sensor t on_).2.1.powered = false) := by
  have hspec := s_power_up_spec env sensor t on_ hon hp hreg hclk hrate
  have hceq := configure_eq env (t ++ power_up_actions)
  have hEINVAL : (-EINVAL : Int) ≠ 0 := by decide
  have hcfg : ∀ err, err ≠ 0 → (hm5065_configure env (t ++ power_up_actions)).1 = err →
      power_on_unwound env sensor t on_ err := by
    intro err herr hc
    rcases hspec with ⟨body, e, _, _, heq, hce⟩ | ⟨_, _, hc0, _⟩
    · have : e = err := by rw [hce (by rw [hc]; exact herr), hc]
      subst this
      unfold power_on_unwound
      rw [heq]
      exact ⟨rfl, rfl, body, rfl⟩
    · rw [hc] at hc0
      exact absurd hc0 herr
  refine ⟨?_, ?_, ?_, ?_⟩
  · intro hrd hid
    apply hcfg _ hEINVAL
    rw [hceq, if_neg (by omega), if_pos hid]
  · intro hrd hid hlut
    apply hcfg _ hEINVAL
    rw [hceq, if_neg (by omega), if_neg (by simpa using hid), hlut]
  · intro ext r hext hfail
    rcases hspec with ⟨body, e, _, hrep, heq, _⟩ | ⟨body, hrep, _, htr⟩
    · rw [heq] at hext
      have he : body ++ power_down_actions = ext := by
        have h2 : t ++ (body ++ power_down_actions) = t ++ ext := by
          rw [← hext]; simp
        exact List.append_cancel_left h2
      rw [he] at hrep
      have : e = r := hrep.1 r hfail
      subst this
      unfold power_on_unwound
      rw [heq]
      exact ⟨rfl, rfl, body, rfl⟩
    · rw [htr] at hext
      have he : body ++ [hw_action.v4l2_ctrl_handler_setup] = ext :=
        List.append_cancel_left hext
      rw [he] at hrep
      have := hrep.2 rfl
      rw [hfail] at this
      exact Option.noConfusion this
  · intro err hun
    rw [hun.2.1]
    exact hp

theorem failed_power_on_unwinds_witness :
    ((1 : Int) ≠ 0 ∧ hm5065_probe_state.powered = false) ∧
    power_on_unwound wrong_id_env hm5065_probe_state [] 1 (-EINVAL) ∧
    power_on_unwound wrong_clock_env hm5065_probe_state [] 1 (-EINVAL) ∧
    power_on_unwound failing_bus_env hm5065_probe_state [] 1 (-5) :=
  ⟨⟨by decide, rfl⟩,
    (failed_power_on_unwinds wrong_id_env hm5065_probe_state [] 1 (by decide) rfl rfl rfl
      rfl).1 (by decide) (by decide),
    (failed_power_on_unwinds wrong_clock_env hm5065_probe_state [] 1 (by decide) rfl rfl rfl
      rfl).2.1 (by decide) (by decide) (by decide),
    (failed_power_on_unwinds failing_bus_env hm5065_probe_state [] 1 (by decide) rfl rfl rfl
      rfl).2.2.1 (power_up_actions ++ [reg_read_action 0x0000 2] ++ power_down_actions) (-5)
      (by decide) (by decide)⟩

/-- C19: with `powered = false`, `hm5065_s_power(0)` returns 0, performs no hardware
action and leaves the device state unchanged; a second power-off after any power-off
therefore changes neither the state nor the trace; and a power-off from
`powered = true` returns 0 after exactly clock disable, chip-enable deassert and
regulator disable, with `powered = false`. -/
theorem power_off_idempotent (env : hw_env) (sensor : hm5065_dev) (t : List hw_action) :
    (sensor.powered = false → hm5065_s_power env sensor t 0 = (0, sensor, t)) ∧
    hm5065_s_power env (hm5065_s_power env sensor t 0).2.1
        (hm5065_s_power env sensor t 0).2.2 0
      = (0, (hm5065_s_power env sensor t 0).2.1, (hm5065_s_power env sensor t 0).2.2) ∧
    (sensor.powered = true →
      hm5065_s_power env sensor t 0 =
        (0, { sensor with powered := false }, t ++ power_down_actions)) := by
  have hoff : sensor.powered = false → hm5065_s_power env sensor t 0 = (0, sensor, t) :=
    fun h => s_power_request_held env sensor t 0 (by rw [h]; decide)
  have hon : sensor.powered = true →
      hm5065_s_power env sensor t 0 =
        (0, { sensor with powered := false }, t ++ power_down_actions) := by
    intro h
    rw [s_power_down env sensor t h]
    simp [power_down_actions]
  refine ⟨hoff, ?_, hon⟩
  cases hpw : sensor.powered
  · rw [hoff hpw]
    exact hoff hpw
  · rw [hon hpw]
    exact s_power_request_held env _ _ 0 (by simp)

theorem power_off_idempotent_witness :
    hm5065_probe_state.powered = false ∧
    hm5065_s_power ideal_env hm5065_probe_state [] 0 = (0, hm5065_probe_state, []) ∧
    streaming_state.powered = true ∧
    hm5065_s_power ideal_env streaming_state [] 0 =
      (0, { streaming_state with powered := false }, [] ++ power_down_actions) :=
  ⟨rfl, (power_off_idempotent ideal_env hm5065_probe_state []).1 rfl, rfl,
    (power_off_idempotent ideal_env streaming_state []).2.2 rfl⟩

/-! ## Proofs: format resolution and lazy apply -/

theorem set_fmt_result (sensor : hm5065_dev) (try_fmt : v4l2_mbus_framefmt)
    (format : v4l2_subdev_format) (hpad : format.pad = 0)
    (hd : sensor.frame_interval.denominator ≠ 0) :
    hm5065_set_fmt sensor try_fmt format =
      some (if format.which = V4L2_SUBDEV_FORMAT_TRY then
          (0, sensor, negotiated_format sensor format,
            { format with format := negotiated_format sensor format })
        else if sensor.streaming = true then
          (-EBUSY, sensor, try_fmt, { format with format := negotiated_format sensor format })
        else
          (0, { sensor with fmt := negotiated_format sensor format,
                            pending_mode_change := true },
            try_fmt, { format with format := negotiated_format sensor format })) := by
  unfold hm5065_set_fmt
  simp only [hpad, udiv, hd]
  simp only [ne_eq, not_true_eq_false, if_false, Option.bind_eq_bind, Option.some_bind,
    Option.pure_def]
  by_cases hw : format.which = V4L2_SUBDEV_FORMAT_TRY
  · simp only [hw, if_true]
    rfl
  · simp only [hw, if_false]
    by_cases hs : sensor.streaming = true
    · simp only [hs, if_true]
      rfl
    · simp only [hs, Bool.false_eq_true, if_false]
      rfl

theorem resolved_pixfmt_spec (code : Nat) :
    resolved_pixfmt code ∈ hm5065_formats ∧
    (code ∈ hm5065_formats.map (fun p => p.code) → (resolved_pixfmt code).code = code) ∧
    (code ∉ hm5065_formats.map (fun p => p.code) →
      resolved_pixfmt code = ⟨MEDIA_BUS_FMT_UYVY8_2X8, V4L2_COLORSPACE_SRGB,
        HM5065_REG_DATA_FORMAT_YCBCR_JFIF, HM5065_REG_YCRCB_ORDER_CB_Y_CR_Y, true⟩) := by
  unfold resolved_pixfmt
  cases hf : hm5065_find_format code with
  | some p =>
    obtain ⟨hmem, hcode⟩ := find_format_mem code p hf
    refine ⟨hmem, fun _ => hcode, ?_⟩
    intro hnot
    exfalso
    apply hnot
    rw [List.mem_map]
    exact ⟨p, hmem, hcode⟩
  | none =>
    refine ⟨by decide, ?_, fun _ => rfl⟩
    intro hin
    exfalso
    rw [List.mem_map] at hin
    obtain ⟨p, hmem, hcode⟩ := hin
    unfold hm5065_find_format at hf
    rw [List.find?_eq_none] at hf
    have := hf p hmem
    simp [hcode] at this

/-- C12: on pad 0 with a non-zero frame-interval denominator, the code returned by
`hm5065_set_fmt` is the requested code when that is one of the six table codes and
`MEDIA_BUS_FMT_UYVY8_2X8`, the code of the first entry, otherwise; the returned
colorspace is the colorspace of the table entry with the returned code; the return
value does not depend on the code and is never `-EINVAL`. -/
theorem pixel_encoding_resolution (sensor : hm5065_dev) (try_fmt : v4l2_mbus_framefmt)
    (format : v4l2_subdev_format) (hpad : format.pad = 0)
    (hd : 1 ≤ sensor.frame_interval.denominator) :
    ∃ (ret : Int) (sensor1 : hm5065_dev) (try1 : v4l2_mbus_framefmt)
        (format1 : v4l2_subdev_format),
      hm5065_set_fmt sensor try_fmt format = some (ret, sensor1, try1, format1) ∧
      (format.format.code ∈ hm5065_formats.map (fun p => p.code) →
        format1.format.code = format.format.code) ∧
      (format.format.code ∉ hm5065_formats.map (fun p => p.code) →
        format1.format.code = MEDIA_BUS_FMT_UYVY8_2X8 ∧
        (hm5065_formats.head?.map (fun p => p.code)) = some format1.format.code) ∧
      (∃ p ∈ hm5065_formats, p.code = format1.format.code ∧
        format1.format.colorspace = p.colorspace) ∧
      ret = (if format.which ≠ V4L2_SUBDEV_FORMAT_TRY ∧ sensor.streaming = true
              then -EBUSY else 0) ∧
      ret ≠ -EINVAL ∧
      hm5065_formats.length = 6 ∧ (hm5065_formats.map (fun p => p.code)).Nodup := by
  have hres := set_fmt_result sensor try_fmt format hpad (by omega)
  obtain ⟨hmem, hin, hnot⟩ := resolved_pixfmt_spec format.format.code
  have hcode : (negotiated_format sensor format).code
      = (resolved_pixfmt format.format.code).code := rfl
  have hcs : (negotiated_format sensor format).colorspace
      = (resolved_pixfmt format.format.code).colorspace := rfl
  have hcommon : ∀ (ret : Int) (s1 : hm5065_dev) (t1 : v4l2_mbus_framefmt),
      hm5065_set_fmt sensor try_fmt format
        = some (ret, s1, t1, { format with format := negotiated_format sensor format }) →
      ret = (if format.which ≠ V4L2_SUBDEV_FORMAT_TRY ∧ sensor.streaming = true
              then -EBUSY else 0) →
      ∃ (ret : Int) (sensor1 : hm5065_dev) (try1 : v4l2_mbus_framefmt)
        (format1 : v4l2_subdev_format),
      hm5065_set_fmt sensor try_fmt format = some (ret, sensor1, try1, format1) ∧
      (format.format.code ∈ hm5065_formats.map (fun p => p.code) →
        format1.format.code = format.format.code) ∧
      (format.format.code ∉ hm5065_formats.map (fun p => p.code) →
        format1.format.code = MEDIA_BUS_FMT_UYVY8_2X8 ∧
        (hm5065_formats.head?.map (fun p => p.code)) = some format1.format.code) ∧
      (∃ p ∈ hm5065_formats, p.code = format1.format.code ∧
        format1.format.colorspace = p.colorspace) ∧
      ret = (if format.which ≠ V4L2_SUBDEV_FORMAT_TRY ∧ sensor.streaming = true
              then -EBUSY else 0) ∧
      ret ≠ -EINVAL ∧
      hm5065_formats.length = 6 ∧ (hm5065_formats.map (fun p => p.code)).Nodup := by
    intro ret s1 t1 hset hret
    refine ⟨ret, s1, t1, _, hset, ?_, ?_, ?_, hret, ?_, rfl, by decide⟩
    · intro h; show (negotiated_format sensor format).code = _; rw [hcode]; exact hin h
    · intro h
      have e := hnot h
      constructor
      · show (negotiated_format sensor format).code = _; rw [hcode, e]
      · show _ = some (negotiated_format sensor format).code; rw [hcode, e]; rfl
    · exact ⟨_, hmem, hcode.symm, hcs⟩
    · rw [hret]; split <;> decide
  by_cases hw : format.which = V4L2_SUBDEV_FORMAT_TRY
  · rw [if_pos hw] at hres
    exact hcommon _ _ _ hres (by rw [if_neg (by simp [hw])])
  · rw [if_neg hw] at hres
    by_cases hs : sensor.streaming = true
    · rw [if_pos hs] at hres
      exact hcommon _ _ _ hres (by rw [if_pos ⟨hw, hs⟩])
    · rw [if_neg hs] at hres
      exact hcommon _ _ _ hres (by rw [if_neg (by simp [hs])])

theorem pixel_encoding_resolution_witness :
    unsupported_code_request.pad = 0 ∧ 1 ≤ hm5065_probe_state.frame_interval.denominator ∧
    unsupported_code_request.format.code ∉ hm5065_formats.map (fun p => p.code) ∧
    ∃ (ret : Int) (sensor1 : hm5065_dev) (try1 : v4l2_mbus_framefmt)
        (format1 : v4l2_subdev_format),
      hm5065_set_fmt hm5065_probe_state hm5065_probe_state.fmt unsupported_code_request
        = some (ret, sensor1, try1, format1) ∧
      format1.format.code = MEDIA_BUS_FMT_UYVY8_2X8 ∧ ret = 0 := by
  refine ⟨rfl, by decide, by decide, ?_⟩
  obtain ⟨ret, s1, t1, f1, h1, _, h3, _, h5, _⟩ :=
    pixel_encoding_resolution hm5065_probe_state hm5065_probe_state.fmt
      unsupported_code_request rfl (by decide)
  exact ⟨ret, s1, t1, f1, h1, (h3 (by decide)).1, by rw [h5]; decide⟩

theorem s_frame_interval_frame (sensor : hm5065_dev) (fi : v4l2_subdev_frame_interval)
    (r : Int × hm5065_dev) (h : hm5065_s_frame_interval sensor fi = some r) :
    r.2.fmt = sensor.fmt ∧ r.2.powered = sensor.powered ∧
    r.2.streaming = sensor.streaming ∧ r.2.max_pixel_rate = sensor.max_pixel_rate := by
  unfold hm5065_s_frame_interval at h
  by_cases hpad : fi.pad = 0
  · by_cases hs : sensor.streaming = true
    · simp only [hpad, hs, ne_eq, not_true_eq_false, if_false, if_true] at h
      rw [← Option.some.inj h]
      exact ⟨rfl, rfl, rfl, rfl⟩
    · simp only [hpad, hs, ne_eq, not_true_eq_false, if_false, Bool.false_eq_true, udiv,
        Option.bind_eq_bind, Option.pure_def] at h
      by_cases hw : sensor.fmt.width = 0
      · simp [hw] at h
      · by_cases hh : sensor.fmt.height = 0
        · simp [hw, hh] at h
        · simp only [hw, hh, if_false, Option.some_bind] at h
          have hs1 : sensor.streaming = false := by simpa using hs
          rw [← Option.some.inj h]
          exact ⟨rfl, rfl, hs1.symm, rfl⟩
  · simp only [hpad, ne_eq, not_false_eq_true, if_true] at h
    rw [← Option.some.inj h]
    exact ⟨rfl, rfl, rfl, rfl⟩

theorem s_frame_interval_returns (sensor : hm5065_dev) (fi : v4l2_subdev_frame_interval)
    (hw : 0 < sensor.fmt.width) (hh : 0 < sensor.fmt.height) :
    ∃ r, hm5065_s_frame_interval sensor fi = some r := by
  unfold hm5065_s_frame_interval
  have hw0 : sensor.fmt.width ≠ 0 := by omega
  have hh0 : sensor.fmt.height ≠ 0 := by omega
  by_cases hpad : fi.pad = 0
  · by_cases hs : sensor.streaming = true
    · simp [hpad, hs]
    · simp [hpad, hs, udiv, hw0, hh0]
  · simp [hpad]

/-! ## Proofs: unconstrained frame rate -/

theorem s_frame_interval_unconstrained (sensor : hm5065_dev)
    (fi : v4l2_subdev_frame_interval)
    (hpad : fi.pad = 0) (hs : sensor.streaming = false)
    (hn : fi.interval.numerator = 0)
    (hw : 0 < sensor.fmt.width) (hh : 0 < sensor.fmt.height)
    (hq : sensor.max_pixel_rate / (sensor.fmt.width * sensor.fmt.height) < 2 ^ 31) :
    hm5065_s_frame_interval sensor fi =
      some (0, { sensor with
                  frame_interval :=
                    { numerator := 1,
                      denominator :=
                        min 120 (sensor.max_pixel_rate /
                          (sensor.fmt.width * sensor.fmt.height)) },
                  pending_mode_change := true }) := by
  unfold hm5065_s_frame_interval
  have hw0 : sensor.fmt.width ≠ 0 := by omega
  have hh0 : sensor.fmt.height ≠ 0 := by omega
  simp only [hpad, hs, udiv, hn, hw0, hh0, ne_eq, not_true_eq_false, if_false, if_true,
    Bool.false_eq_true, Option.bind_eq_bind, Option.some_bind, Option.pure_def, clamp,
    HM5065_FRAME_RATE_MAX]
  have hdd : sensor.max_pixel_rate / sensor.fmt.width / sensor.fmt.height
      = sensor.max_pixel_rate / (sensor.fmt.width * sensor.fmt.height) :=
    Nat.div_div_eq_div_mul _ _ _
  rw [hdd]
  generalize sensor.max_pixel_rate / (sensor.fmt.width * sensor.fmt.height) = M at hq
  have e31 : (2 : Nat) ^ 31 = 2147483648 := by norm_num
  rw [e31] at hq
  have hwrap : wrap_s 32 (M : Int) = (M : Int) := by
    unfold wrap_s
    have e1 : (2 : Int) ^ (32 - 1) = 2147483648 := by norm_num
    have e2 : (2 : Int) ^ 32 = 4294967296 := by norm_num
    rw [e1, e2]
    omega
  rw [hwrap]
  have hres : wrap_u 32 (if min (max (120 : Int) 1) 120 > (M : Int) then (M : Int)
      else min (max (120 : Int) 1) 120) = min 120 M := by
    have : (if min (max (120 : Int) 1) 120 > (M : Int) then (M : Int)
        else min (max (120 : Int) 1) 120) = ((min 120 M : Nat) : Int) := by
      split <;> omega
    rw [this, wrap_u_of_nat 32 _ (by omega)]
  rw [hres]

/-! ## Proofs: register framing and transport errors -/

theorem and_ff_eq_mod (x : Nat) : x &&& 0xff = x % 256 :=
  Nat.and_pow_two_sub_one_eq_mod x 8

theorem or_shift8 (a b : Nat) (hb : b < 256) : (a <<< 8) ||| b = a * 256 + b := by
  rw [Nat.shiftLeft_eq, Nat.mul_comm a (2 ^ 8)]
  exact (Nat.mul_add_lt_is_or (by simpa using hb) a).symm

theorem or_shift16 (a b : Nat) (hb : b < 65536) : (a <<< 16) ||| b = a * 65536 + b := by
  rw [Nat.shiftLeft_eq, Nat.mul_comm a (2 ^ 16)]
  exact (Nat.mul_add_lt_is_or (by simpa using hb) a).symm

theorem or_shift24 (a b : Nat) (hb : b < 16777216) : (a <<< 24) ||| b = a * 16777216 + b := by
  rw [Nat.shiftLeft_eq, Nat.mul_comm a (2 ^ 24)]
  exact (Nat.mul_add_lt_is_or (by simpa using hb) a).symm

theorem be16_value_be16 (v : Nat) (hv : v < 2 ^ 16) : be16_value (be16 v) = v := by
  unfold be16_value be16
  simp only [List.getD_cons_zero, List.getD_cons_succ]
  rw [or_shift8 _ _ (Nat.mod_lt _ (by decide))]
  omega

theorem be32_value_be32 (v : Nat) (hv : v < 2 ^ 32) : be32_value (be32 v) = v := by
  unfold be32_value be32
  simp only [List.getD_cons_zero, List.getD_cons_succ]
  have h3 : v % 256 % 256 < 256 := Nat.mod_lt _ (by decide)
  have h2 : (v / 2 ^ 8 % 256 % 256) <<< 8 ||| v % 256 % 256
      = (v / 2 ^ 8 % 256 % 256) * 256 + v % 256 % 256 := or_shift8 _ _ h3
  have h1 : (v / 2 ^ 16 % 256 % 256) <<< 16 |||
      ((v / 2 ^ 8 % 256 % 256) * 256 + v % 256 % 256)
      = (v / 2 ^ 16 % 256 % 256) * 65536 + ((v / 2 ^ 8 % 256 % 256) * 256 + v % 256 % 256) :=
    or_shift16 _ _ (by omega)
  have h0 : (v / 2 ^ 24 % 256 % 256) <<< 24 |||
      ((v / 2 ^ 16 % 256 % 256) * 65536 + ((v / 2 ^ 8 % 256 % 256) * 256 + v % 256 % 256))
      = (v / 2 ^ 24 % 256 % 256) * 16777216 +
        ((v / 2 ^ 16 % 256 % 256) * 65536 + ((v / 2 ^ 8 % 256 % 256) * 256 + v % 256 % 256)) :=
    or_shift24 _ _ (by omega)
  rw [Nat.lor_assoc, Nat.lor_assoc, h2, h1, h0]
  omega

theorem write_reg32_eq (env : hw_env) (t : List hw_action) (reg val : Nat) :
    hm5065_write_reg32 env t reg val = hm5065_write_regs env t reg (be32 val) := by
  unfold hm5065_write_reg32 be32
  simp only [Nat.shiftRight_eq_div_pow]
  have h0 : val % 2 ^ 32 / 2 ^ 24 % 256 = val / 2 ^ 24 % 256 := by omega
  have h1 : val % 2 ^ 32 / 2 ^ 16 % 256 = val / 2 ^ 16 % 256 := by omega
  have h2 : val % 2 ^ 32 / 2 ^ 8 % 256 = val / 2 ^ 8 % 256 := by omega
  have h3 : val % 2 ^ 32 % 256 = val % 256 := by omega
  rw [h0, h1, h2, h3]

theorem read_regs_eq (env : hw_env) (t : List hw_action) (reg count : Nat) :
    hm5065_read_regs env t reg count =
      (if (env.i2c_transfer t (reg_read_msgs reg count)).1 < 0
        then (env.i2c_transfer t (reg_read_msgs reg count)).1 else 0,
       (env.i2c_transfer t (reg_read_msgs reg count)).2,
       t ++ [reg_read_action reg count]) := by
  unfold hm5065_read_regs reg_read_action reg_read_msgs
  simp only []
  split <;> rfl

theorem read_reg32_eq (env : hw_env) (t : List hw_action) (reg : Nat) :
    hm5065_read_reg32 env t reg =
      if (env.i2c_transfer t (reg_read_msgs reg 4)).1 < 0 then
        ((env.i2c_transfer t (reg_read_msgs reg 4)).1, 0, t ++ [reg_read_action reg 4])
      else
        (0, be32_value (env.i2c_transfer t (reg_read_msgs reg 4)).2,
          t ++ [reg_read_action reg 4]) := by
  unfold hm5065_read_reg32
  rw [read_regs_eq]
  unfold be32_value
  simp only []
  split
  · rename_i h
    rw [if_pos (by omega)]
  · rw [if_neg (by simp)]

theorem written_payload_write (t : List hw_action) (reg : Nat) (data : List Nat) :
    written_payload (t ++ [reg_write_action reg data]) = data := by
  unfold written_payload reg_write_action reg_write_msg
  simp

theorem reg_write_action_bytes (a : Nat) (data : List Nat) (ha : a < 2 ^ 16) :
    reg_write_action a data =
      hw_action.i2c_transfer
        [i2c_msg.mk false (data.length + 2) ([a >>> 8, a &&& 0xff] ++ data)] := by
  unfold reg_write_action reg_write_msg
  have h1 : (a >>> 8) % 256 = a >>> 8 := by
    rw [Nat.shiftRight_eq_div_pow]; omega
  have h2 : (a &&& 0xff) % 256 = a &&& 0xff := by
    rw [and_ff_eq_mod]; omega
  rw [h1, h2]

theorem be16_bytes (v : Nat) (hv : v < 2 ^ 16) : be16 v = [v >>> 8, v &&& 0xff] := by
  unfold be16
  rw [and_ff_eq_mod, Nat.shiftRight_eq_div_pow]
  have : v / 256 % 256 = v / 2 ^ 8 := by omega
  rw [this]

theorem be32_bytes (v : Nat) (hv : v < 2 ^ 32) :
    be32 v = [v >>> 24, (v >>> 16) &&& 0xff, (v >>> 8) &&& 0xff, v &&& 0xff] := by
  unfold be32
  simp only [and_ff_eq_mod, Nat.shiftRight_eq_div_pow]
  have : v / 2 ^ 24 % 256 = v / 2 ^ 24 := by omega
  rw [this]

theorem write_regs_trace (env : hw_env) (t : List hw_action) (reg : Nat) (data : List Nat) :
    (hm5065_write_regs env t reg data).2 = t ++ [reg_write_action reg data] := by
  rw [write_regs_eq]

theorem read_reg16_round_trip (env : hw_env) (t : List hw_action) (reg v : Nat)
    (hv : v < 2 ^ 16) (hok : 0 ≤ (env.i2c_transfer t (reg_read_msgs reg 2)).1)
    (hdata : (env.i2c_transfer t (reg_read_msgs reg 2)).2 = be16 v) :
    hm5065_read_reg16 env t reg = (0, v, t ++ [reg_read_action reg 2]) := by
  rw [read_reg16_eq, if_neg (by omega), hdata, be16_value_be16 v hv]

theorem read_reg32_round_trip (env : hw_env) (t : List hw_action) (reg v : Nat)
    (hv : v < 2 ^ 32) (hok : 0 ≤ (env.i2c_transfer t (reg_read_msgs reg 4)).1)
    (hdata : (env.i2c_transfer t (reg_read_msgs reg 4)).2 = be32 v) :
    hm5065_read_reg32 env t reg = (0, v, t ++ [reg_read_action reg 4]) := by
  rw [read_reg32_eq, if_neg (by omega), hdata, be32_value_be32 v hv]

/-- C22: for every 16-bit address `a` and every payload, `hm5065_write_regs` submits one
transfer of one message of length `n + 2` whose bytes are `a >> 8`, `a & 0xff` and then
the payload; `hm5065_write_reg16` and `hm5065_write_reg32` send the bytes of the value
most significant byte first; and `hm5065_read_reg16` / `hm5065_read_reg32`, when the
bus answers a read with the payload that was written, return the original value, for
every 16-bit / 32-bit value. -/
theorem register_framing_big_endian (env : hw_env) (t : List hw_action) (a : Nat)
    (data : List Nat) (ha : a < 2 ^ 16) :
    (hm5065_write_regs env t a data).2 =
      t ++ [hw_action.i2c_transfer
        [i2c_msg.mk false (data.length + 2) ([a >>> 8, a &&& 0xff] ++ data)]] ∧
    (∀ v, v < 2 ^ 16 →
      (hm5065_write_reg16 env t a v).2 =
        t ++ [hw_action.i2c_transfer
          [i2c_msg.mk false 4 [a >>> 8, a &&& 0xff, v >>> 8, v &&& 0xff]]] ∧
      ∀ (env2 : hw_env) (t2 : List hw_action) (reg : Nat),
        0 ≤ (env2.i2c_transfer t2 (reg_read_msgs reg 2)).1 →
        (env2.i2c_transfer t2 (reg_read_msgs reg 2)).2
          = written_payload (hm5065_write_reg16 env t a v).2 →
        hm5065_read_reg16 env2 t2 reg = (0, v, t2 ++ [reg_read_action reg 2])) ∧
    (∀ v, v < 2 ^ 32 →
      (hm5065_write_reg32 env t a v).2 =
        t ++ [hw_action.i2c_transfer
          [i2c_msg.mk false 6
            [a >>> 8, a &&& 0xff, v >>> 24, (v >>> 16) &&& 0xff, (v >>> 8) &&& 0xff,
              v &&& 0xff]]] ∧
      ∀ (env2 : hw_env) (t2 : List hw_action) (reg : Nat),
        0 ≤ (env2.i2c_transfer t2 (reg_read_msgs reg 4)).1 →
        (env2.i2c_transfer t2 (reg_read_msgs reg 4)).2
          = written_payload (hm5065_write_reg32 env t a v).2 →
        hm5065_read_reg32 env2 t2 reg = (0, v, t2 ++ [reg_read_action reg 4])) := by
  refine ⟨?_, ?_, ?_⟩
  · rw [write_regs_trace, reg_write_action_bytes a data ha]
  · intro v hv
    have htr : (hm5065_write_reg16 env t a v).2 = t ++ [reg_write_action a (be16 v)] := by
      rw [write_reg16_eq, write_regs_trace]
    refine ⟨?_, ?_⟩
    · rw [htr, reg_write_action_bytes a _ ha, be16_bytes v hv]
      rfl
    · intro env2 t2 reg hok hdata
      rw [htr, written_payload_write] at hdata
      exact read_reg16_round_trip env2 t2 reg v hv hok hdata
  · intro v hv
    have htr : (hm5065_write_reg32 env t a v).2 = t ++ [reg_write_action a (be32 v)] := by
      rw [write_reg32_eq, write_regs_trace]
    refine ⟨?_, ?_⟩
    · rw [htr, reg_write_action_bytes a _ ha, be32_bytes v hv]
      rfl
    · intro env2 t2 reg hok hdata
      rw [htr, written_payload_write] at hdata
      exact read_reg32_round_trip env2 t2 reg v hv hok hdata

theorem register_framing_big_endian_witness :
    (0x0042 : Nat) < 2 ^ 16 ∧
    (hm5065_write_regs ideal_env [] 0x0042 [0x0a, 0x20]).2 =
      [hw_action.i2c_transfer [i2c_msg.mk false 4 [0x00, 0x42, 0x0a, 0x20]]] ∧
    (hm5065_write_reg16 ideal_env [] 0x0042 0x039e).2 =
      [hw_action.i2c_transfer [i2c_msg.mk false 4 [0x00, 0x42, 0x03, 0x9e]]] ∧
    hm5065_read_reg16 ideal_env [] 0x0000 = (0, 0x039e, [reg_read_action 0x0000 2]) :=
  ⟨by decide,
    (register_framing_big_endian ideal_env [] 0x0042 [0x0a, 0x20] (by decide)).1,
    ((register_framing_big_endian ideal_env [] 0x0042 [0x0a, 0x20] (by decide)).2.1
      0x039e (by decide)).1,
    ((register_framing_big_endian ideal_env [] 0x0042 [0x0a, 0x20] (by decide)).2.1
      0x039e (by decide)).2 ideal_env [] 0x0000 (by decide) (by decide)⟩

/-- C23: every register read and write, raw or typed, attempts its bus transfer exactly
once (the trace grows by that one transfer); when the transfer returns a negative code
`r` the operation returns `r`, and otherwise it returns 0. -/
theorem transport_errors_verbatim (env : hw_env) (t : List hw_action) (reg val count : Nat)
    (data : List Nat) :
    surfaces_transfer env t [reg_write_msg reg data]
      (hm5065_write_regs env t reg data).1 (hm5065_write_regs env t reg data).2 ∧
    surfaces_transfer env t (reg_read_msgs reg count)
      (hm5065_read_regs env t reg count).1 (hm5065_read_regs env t reg count).2.2 ∧
    surfaces_transfer env t (reg_read_msgs reg 1)
      (hm5065_read_reg8 env t reg).1 (hm5065_read_reg8 env t reg).2.2 ∧
    surfaces_transfer env t [reg_write_msg reg [val % 256]]
      (hm5065_write_reg8 env t reg val).1 (hm5065_write_reg8 env t reg val).2 ∧
    surfaces_transfer env t (reg_read_msgs reg 2)
      (hm5065_read_reg16 env t reg).1 (hm5065_read_reg16 env t reg).2.2 ∧
    surfaces_transfer env t [reg_write_msg reg (be16 val)]
      (hm5065_write_reg16 env t reg val).1 (hm5065_write_reg16 env t reg val).2 ∧
    surfaces_transfer env t (reg_read_msgs reg 4)
      (hm5065_read_reg32 env t reg).1 (hm5065_read_reg32 env t reg).2.2 ∧
    surfaces_transfer env t [reg_write_msg reg (be32 val)]
      (hm5065_write_reg32 env t reg val).1 (hm5065_write_reg32 env t reg val).2 := by
  unfold surfaces_transfer
  refine ⟨?_, ?_, ?_, ?_, ?_, ?_, ?_, ?_⟩
  · rw [write_regs_eq]; exact ⟨rfl, rfl⟩
  · rw [read_regs_eq]; exact ⟨rfl, rfl⟩
  · unfold hm5065_read_reg8; rw [read_regs_eq]; exact ⟨rfl, rfl⟩
  · unfold hm5065_write_reg8; rw [write_regs_eq]; exact ⟨rfl, rfl⟩
  · rw [read_reg16_eq]; split <;> exact ⟨rfl, rfl⟩
  · rw [write_reg16_eq, write_regs_eq]; exact ⟨rfl, rfl⟩
  · rw [read_reg32_eq]; split <;> exact ⟨rfl, rfl⟩
  · rw [write_reg32_eq, write_regs_eq]; exact ⟨rfl, rfl⟩

/-! ## Proofs: pixel-rate budget -/

theorem max_frame_area_le_reference (sensor : hm5065_dev)
    (hd : 1 ≤ sensor.frame_interval.denominator) :
    max_frame_area sensor ≤ budget_reference sensor := by
  unfold max_frame_area budget_reference
  apply Nat.le_trans (Nat.mod_le _ _)
  rw [Nat.le_div_iff_mul_le (by omega)]
  calc sensor.max_pixel_rate / sensor.frame_interval.denominator *
        sensor.frame_interval.numerator * sensor.frame_interval.denominator
      = sensor.max_pixel_rate / sensor.frame_interval.denominator *
        sensor.frame_interval.denominator * sensor.frame_interval.numerator := by ring
    _ ≤ sensor.max_pixel_rate * sensor.frame_interval.numerator :=
        Nat.mul_le_mul_right _ (Nat.div_mul_le_self _ _)

theorem max_frame_area_eq_reference (sensor : hm5065_dev)
    (hn : sensor.frame_interval.numerator = 1) (hmpr : sensor.max_pixel_rate < 2 ^ 32) :
    max_frame_area sensor = budget_reference sensor := by
  unfold max_frame_area budget_reference
  rw [hn, Nat.mul_one, Nat.mul_one]
  exact Nat.mod_eq_of_lt (Nat.lt_of_le_of_lt (Nat.div_le_self _ _) hmpr)

/-! ## Proofs: frame conditions of the core and video operations -/

theorem s_stream_state (env : hw_env) (sensor : hm5065_dev) (t : List hw_action)
    (enable : Int) :
    (hm5065_s_stream env sensor t enable).2.1 = sensor ∨
    (hm5065_s_stream env sensor t enable).2.1
      = { sensor with streaming := decide (enable ≠ 0) } := by
  unfold hm5065_s_stream
  simp only []
  split_ifs <;> first | exact Or.inl rfl | exact Or.inr rfl

theorem s_power_state (env : hw_env) (sensor : hm5065_dev) (t : List hw_action)
    (on_ : Int) :
    (hm5065_s_power env sensor t on_).2.1 = sensor ∨
    (hm5065_s_power env sensor t on_).2.1
      = { sensor with powered := decide (on_ ≠ 0) } := by
  unfold hm5065_s_power
  simp only []
  split_ifs <;> first | exact Or.inl rfl | exact Or.inr rfl

theorem s_power_off_result (env : hw_env) (sensor : hm5065_dev) (t : List hw_action) :
    (hm5065_s_power env sensor t 0).1 = 0 ∧
    (hm5065_s_power env sensor t 0).2.1 = { sensor with powered := false } := by
  cases hp : sensor.powered
  · rw [s_power_request_held env sensor t 0 (by rw [hp]; decide)]
    refine ⟨rfl, ?_⟩
    show sensor = { sensor with powered := false }
    rw [← hp]
  · rw [s_power_down env sensor t hp]
    exact ⟨rfl, rfl⟩

/-- C28: for every state and every request `hm5065_s_power` leaves streaming, the
current format, the frame interval, `pending_mode_change` and `max_pixel_rate`
unchanged; a power-off issued while streaming is set returns 0 and ends with
`powered = false` and `streaming = true`. -/
theorem s_power_changes_only_powered (env : hw_env) (sensor : hm5065_dev)
    (t : List hw_action) (on_ : Int) :
    ((hm5065_s_power env sensor t on_).2.1.streaming = sensor.streaming ∧
      (hm5065_s_power env sensor t on_).2.1.fmt = sensor.fmt ∧
      (hm5065_s_power env sensor t on_).2.1.frame_interval = sensor.frame_interval ∧
      (hm5065_s_power env sensor t on_).2.1.pending_mode_change
        = sensor.pending_mode_change ∧
      (hm5065_s_power env sensor t on_).2.1.max_pixel_rate = sensor.max_pixel_rate) ∧
    (sensor.streaming = true →
      (hm5065_s_power env sensor t 0).1 = 0 ∧
      (hm5065_s_power env sensor t 0).2.1.powered = false ∧
      (hm5065_s_power env sensor t 0).2.1.streaming = true) := by
  constructor
  · rcases s_power_state env sensor t on_ with h | h <;> rw [h] <;>
      exact ⟨rfl, rfl, rfl, rfl, rfl⟩
  · intro hs
    obtain ⟨h1, h2⟩ := s_power_off_result env sensor t
    rw [h1, h2]
    exact ⟨rfl, rfl, hs⟩

theorem s_power_changes_only_powered_witness :
    streaming_state.streaming = true ∧
    (hm5065_s_power ideal_env streaming_state [] 0).1 = 0 ∧
    (hm5065_s_power ideal_env streaming_state [] 0).2.1.powered = false ∧
    (hm5065_s_power ideal_env streaming_state [] 0).2.1.streaming = true :=
  ⟨rfl, (s_power_changes_only_powered ideal_env streaming_state [] 0).2 rfl⟩

/-! ## Proofs: idempotence of the format negotiation -/

theorem frame_size_index_88_72 (A : Nat) : frame_size_index A 88 72 = 11 := by
  unfold frame_size_index
  by_cases hA : 6336 ≤ A <;>
    simp [hm5065_frame_sizes, frame_size_scan, frame_size_fits, hA, HM5065_NUM_FRAME_SIZES]

theorem frame_size_index_idem (A w h : Nat) :
    frame_size_index A
      (hm5065_frame_sizes.getD (frame_size_index A w h) default).width
      (hm5065_frame_sizes.getD (frame_size_index A w h) default).height
      = frame_size_index A w h := by
  by_cases hex : ∃ fs ∈ hm5065_frame_sizes, frame_size_fits A w h fs = true
  · obtain ⟨hfit, _⟩ := frame_size_index_of_exists A w h hex
    generalize he : hm5065_frame_sizes.getD (frame_size_index A w h) default = e at hfit ⊢
    have hmem : e ∈ hm5065_frame_sizes := by
      rw [← he]; exact getD_mem_frame_sizes _ (frame_size_index_lt A w h)
    have hparts : (e.width * e.height) % 2 ^ 32 ≤ A ∧ e.width ≤ w ∧ e.height ≤ h := by
      unfold frame_size_fits at hfit
      simp only [Bool.and_eq_true, decide_eq_true_eq] at hfit
      exact ⟨hfit.1.1, hfit.1.2, hfit.2⟩
    have hfit2 : frame_size_fits A e.width e.height e = true := by
      unfold frame_size_fits
      simp only [Bool.and_eq_true, decide_eq_true_eq]
      exact ⟨⟨hparts.1, Nat.le_refl _⟩, Nat.le_refl _⟩
    obtain ⟨_, hfirst2⟩ := frame_size_index_of_exists A e.width e.height ⟨e, hmem, hfit2⟩
    have hmono := frame_size_index_mono A e.width e.height w h hparts.2.1 hparts.2.2
    apply Nat.le_antisymm _ hmono
    by_contra hlt
    have hf := hfirst2 (frame_size_index A w h) (by omega)
    rw [he, hfit2] at hf
    exact Bool.noConfusion hf
  · have hno : ∀ fs ∈ hm5065_frame_sizes, frame_size_fits A w h fs = false := by
      intro fs hmem
      cases hf : frame_size_fits A w h fs
      · rfl
      · exact absurd ⟨fs, hmem, hf⟩ hex
    rw [frame_size_index_of_none A w h hno]
    exact frame_size_index_88_72 A

theorem resolved_pixfmt_idem (code : Nat) :
    (resolved_pixfmt (resolved_pixfmt code).code).code = (resolved_pixfmt code).code := by
  obtain ⟨hmem, _, _⟩ := resolved_pixfmt_spec code
  apply (resolved_pixfmt_spec (resolved_pixfmt code).code).2.1
  rw [List.mem_map]
  exact ⟨_, hmem, rfl⟩

theorem set_fmt_returned_format (sensor : hm5065_dev) (try_fmt : v4l2_mbus_framefmt)
    (format : v4l2_subdev_format) (hpad : format.pad = 0)
    (hd : sensor.frame_interval.denominator ≠ 0) :
    ∃ r, hm5065_set_fmt sensor try_fmt format = some r ∧
      r.2.2.2 = { format with format := negotiated_format sensor format } := by
  rw [set_fmt_result sensor try_fmt format hpad hd]
  split_ifs <;> exact ⟨_, rfl, rfl⟩

theorem negotiated_format_idem (sensor sensor2 : hm5065_dev)
    (format format2 : v4l2_subdev_format)
    (hfi : sensor2.frame_interval = sensor.frame_interval)
    (hmpr : sensor2.max_pixel_rate = sensor.max_pixel_rate)
    (hc : format2.format.code = (negotiated_format sensor format).code)
    (hw : format2.format.width = (negotiated_format sensor format).width)
    (hh : format2.format.height = (negotiated_format sensor format).height) :
    (negotiated_format sensor2 format2).code = (negotiated_format sensor format).code ∧
    (negotiated_format sensor2 format2).width = (negotiated_format sensor format).width ∧
    (negotiated_format sensor2 format2).height = (negotiated_format sensor format).height := by
  have hA : max_frame_area sensor2 = max_frame_area sensor := by
    unfold max_frame_area; rw [hfi, hmpr]
  have hc1 : format2.format.code = (resolved_pixfmt format.format.code).code := hc
  have hw1 : format2.format.width = (hm5065_frame_sizes.getD
      (frame_size_index (max_frame_area sensor) format.format.width format.format.height)
      default).width := hw
  have hh1 : format2.format.height = (hm5065_frame_sizes.getD
      (frame_size_index (max_frame_area sensor) format.format.width format.format.height)
      default).height := hh
  have hidx : frame_size_index (max_frame_area sensor2) format2.format.width
      format2.format.height
      = frame_size_index (max_frame_area sensor) format.format.width format.format.height := by
    rw [hA, hw1, hh1]
    exact frame_size_index_idem _ _ _
  refine ⟨?_, ?_, ?_⟩
  · show (resolved_pixfmt format2.format.code).code = (resolved_pixfmt format.format.code).code
    rw [hc1]
    exact resolved_pixfmt_idem _
  · show (hm5065_frame_sizes.getD (frame_size_index (max_frame_area sensor2)
      format2.format.width format2.format.height) default).width = _
    rw [hidx]
    rfl
  · show (hm5065_frame_sizes.getD (frame_size_index (max_frame_area sensor2)
      format2.format.width format2.format.height) default).height = _
    rw [hidx]
    rfl

/-- C29: for every device state with frame-interval denominator at least 1 and every
request on pad 0, `hm5065_set_fmt` returns, and when its returned code, width and
height are passed back to `hm5065_set_fmt` in a state with the same frame interval and
`max_pixel_rate`, the call returns the same code, width and height. -/
theorem format_negotiation_idempotent (sensor sensor2 : hm5065_dev)
    (try_fmt try_fmt2 : v4l2_mbus_framefmt) (format format2 : v4l2_subdev_format)
    (hpad : format.pad = 0) (hpad2 : format2.pad = 0)
    (hd : 1 ≤ sensor.frame_interval.denominator)
    (hfi : sensor2.frame_interval = sensor.frame_interval)
    (hmpr : sensor2.max_pixel_rate = sensor.max_pixel_rate) :
    ∃ r1 r2, hm5065_set_fmt sensor try_fmt format = some r1 ∧
      hm5065_set_fmt sensor2 try_fmt2 format2 = some r2 ∧
      (format2.format.code = r1.2.2.2.format.code →
        format2.format.width = r1.2.2.2.format.width →
        format2.format.height = r1.2.2.2.format.height →
        r2.2.2.2.format.code = r1.2.2.2.format.code ∧
        r2.2.2.2.format.width = r1.2.2.2.format.width ∧
        r2.2.2.2.format.height = r1.2.2.2.format.height) := by
  obtain ⟨r1, h1, hf1⟩ := set_fmt_returned_format sensor try_fmt format hpad (by omega)
  obtain ⟨r2, h2, hf2⟩ := set_fmt_returned_format sensor2 try_fmt2 format2 hpad2
    (by rw [hfi]; omega)
  refine ⟨r1, r2, h1, h2, ?_⟩
  rw [hf1, hf2]
  exact negotiated_format_idem sensor sensor2 format format2 hfi hmpr

theorem format_negotiation_idempotent_witness :
    scenario_request.pad = 0 ∧ 1 ≤ hm5065_probe_state.frame_interval.denominator ∧
    ∃ r1 r2,
      hm5065_set_fmt hm5065_probe_state hm5065_probe_state.fmt scenario_request = some r1 ∧
      hm5065_set_fmt hm5065_probe_state hm5065_probe_state.fmt
        { scenario_request with format := r1.2.2.2.format } = some r2 ∧
      r2.2.2.2.format.code = r1.2.2.2.format.code ∧
      r2.2.2.2.format.width = r1.2.2.2.format.width ∧
      r2.2.2.2.format.height = r1.2.2.2.format.height ∧
      r1.2.2.2.format.width = 1280 ∧ r1.2.2.2.format.height = 1024 := by
  refine ⟨rfl, by decide, ?_⟩
  have hfirst : hm5065_set_fmt hm5065_probe_state hm5065_probe_state.fmt scenario_request
      = some (0, { hm5065_probe_state with
                    fmt := negotiated_format hm5065_probe_state scenario_request,
                    pending_mode_change := true },
          hm5065_probe_state.fmt,
          { scenario_request with
            format := negotiated_format hm5065_probe_state scenario_request }) := by
    rfl
  obtain ⟨r1, r2, h1, h2, h3⟩ :=
    format_negotiation_idempotent hm5065_probe_state hm5065_probe_state
      hm5065_probe_state.fmt hm5065_probe_state.fmt scenario_request
      { scenario_request with
        format := negotiated_format hm5065_probe_state scenario_request }
      rfl rfl (by decide) rfl rfl
  rw [hfirst] at h1
  have hr1 := Option.some.inj h1
  subst hr1
  exact ⟨_, r2, hfirst, h2, (h3 rfl rfl rfl).1, (h3 rfl rfl rfl).2.1, (h3 rfl rfl rfl).2.2,
    by decide, by decide⟩

/-! ## Proofs: reachable states -/

theorem clamp_bounds (x : Int) :
    1 ≤ clamp x 1 HM5065_FRAME_RATE_MAX ∧ clamp x 1 HM5065_FRAME_RATE_MAX ≤ 120 := by
  unfold clamp HM5065_FRAME_RATE_MAX
  omega

theorem s_frame_interval_bounded (sensor : hm5065_dev) (fi : v4l2_subdev_frame_interval)
    (hpad : fi.pad = 0) (hs : sensor.streaming = false)
    (hw : 0 < sensor.fmt.width) (hh : 0 < sensor.fmt.height)
    (hq1 : 1 ≤ sensor.max_pixel_rate / (sensor.fmt.width * sensor.fmt.height))
    (hq : sensor.max_pixel_rate / (sensor.fmt.width * sensor.fmt.height) < 2 ^ 31) :
    ∃ d, 1 ≤ d ∧ d ≤ 120 ∧
      d ≤ sensor.max_pixel_rate / (sensor.fmt.width * sensor.fmt.height) ∧
      hm5065_s_frame_interval sensor fi =
        some (0, { sensor with
                    frame_interval := { numerator := 1, denominator := d },
                    pending_mode_change := true }) := by
  unfold hm5065_s_frame_interval
  have hw0 : sensor.fmt.width ≠ 0 := by omega
  have hh0 : sensor.fmt.height ≠ 0 := by omega
  simp only [hpad, hs, udiv, hw0, hh0, ne_eq, not_true_eq_false, if_false,
    Bool.false_eq_true, Option.bind_eq_bind, Option.some_bind, Option.pure_def]
  have hdd : sensor.max_pixel_rate / sensor.fmt.width / sensor.fmt.height
      = sensor.max_pixel_rate / (sensor.fmt.width * sensor.fmt.height) :=
    Nat.div_div_eq_div_mul _ _ _
  rw [hdd]
  generalize sensor.max_pixel_rate / (sensor.fmt.width * sensor.fmt.height) = M at hq hq1
  have hb := clamp_bounds (if fi.interval.numerator = 0 then HM5065_FRAME_RATE_MAX
    else wrap_s 32 ((fi.interval.denominator / fi.interval.numerator : Nat) : Int))
  generalize clamp (if fi.interval.numerator = 0 then HM5065_FRAME_RATE_MAX
    else wrap_s 32 ((fi.interval.denominator / fi.interval.numerator : Nat) : Int))
    1 HM5065_FRAME_RATE_MAX = fr at hb
  have e31 : (2 : Nat) ^ 31 = 2147483648 := by norm_num
  rw [e31] at hq
  have hwrap : wrap_s 32 (M : Int) = (M : Int) := by
    unfold wrap_s
    have e1 : (2 : Int) ^ (32 - 1) = 2147483648 := by norm_num
    have e2 : (2 : Int) ^ 32 = 4294967296 := by norm_num
    rw [e1, e2]
    omega
  rw [hwrap]
  have hres : wrap_u 32 (if fr > (M : Int) then (M : Int) else fr) = min fr.toNat M := by
    have : (if fr > (M : Int) then (M : Int) else fr) = ((min fr.toNat M : Nat) : Int) := by
      split <;> omega
    rw [this, wrap_u_of_nat 32 _ (by omega)]
  rw [hres]
  exact ⟨min fr.toNat M, by omega, by omega, by omega, rfl⟩

theorem frame_sizes_pos : ∀ fs ∈ hm5065_frame_sizes, 0 < fs.width ∧ 0 < fs.height := by
  decide

theorem invariant_probe_state : state_invariant hm5065_probe_state := by
  unfold state_invariant
  refine ⟨rfl, ⟨⟨640, 480, HM5065_REG_IMAGE_SIZE_VGA⟩, by decide, rfl, rfl⟩,
    ⟨_, resolved_pixfmt_spec MEDIA_BUS_FMT_UYVY8_2X8 |>.1, by decide⟩, rfl, by decide,
    by decide, by decide, rfl⟩

theorem invariant_flags (s : hm5065_dev) (b c : Bool) (h : state_invariant s) :
    state_invariant { s with streaming := b } ∧ state_invariant { s with powered := c } :=
  ⟨h, h⟩

theorem invariant_s_stream (env : hw_env) (s : hm5065_dev) (t : List hw_action)
    (enable : Int) (h : state_invariant s) :
    state_invariant (hm5065_s_stream env s t enable).2.1 := by
  rcases s_stream_state env s t enable with e | e <;> rw [e]
  · exact h
  · exact (invariant_flags s _ false h).1

theorem invariant_s_power (env : hw_env) (s : hm5065_dev) (t : List hw_action)
    (on_ : Int) (h : state_invariant s) :
    state_invariant (hm5065_s_power env s t on_).2.1 := by
  rcases s_power_state env s t on_ with e | e <;> rw [e]
  · exact h
  · exact (invariant_flags s false _ h).2

theorem invariant_quotient (s : hm5065_dev) (h : state_invariant s) :
    0 < s.fmt.width ∧ 0 < s.fmt.height ∧
    1 ≤ s.max_pixel_rate / (s.fmt.width * s.fmt.height) ∧
    s.max_pixel_rate / (s.fmt.width * s.fmt.height) < 2 ^ 31 := by
  obtain ⟨hm, ⟨fs, hfs, hfw, hfh⟩, _, _, hd1, _, harea, _⟩ := h
  obtain ⟨hw, hh⟩ := frame_sizes_pos fs hfs
  rw [hfw] at hw
  rw [hfh] at hh
  have hpos : 0 < s.fmt.width * s.fmt.height := Nat.mul_pos hw hh
  refine ⟨hw, hh, ?_, ?_⟩
  · rw [Nat.le_div_iff_mul_le hpos]
    calc 1 * (s.fmt.width * s.fmt.height)
        ≤ s.fmt.width * s.fmt.height * s.frame_interval.denominator := by
          rw [Nat.one_mul]; exact Nat.le_mul_of_pos_right _ (by omega)
      _ ≤ s.max_pixel_rate := harea
  · apply Nat.lt_of_le_of_lt (Nat.div_le_self _ _)
    rw [hm]
    decide

theorem invariant_s_frame_interval (s : hm5065_dev) (fi : v4l2_subdev_frame_interval)
    (h : state_invariant s) :
    ∃ r, hm5065_s_frame_interval s fi = some r ∧ state_invariant r.2 := by
  by_cases hpad : fi.pad = 0
  · cases hs : s.streaming
    · obtain ⟨hw, hh, hq1, hq⟩ := invariant_quotient s h
      obtain ⟨d, hd1, hd2, hd3, hres⟩ := s_frame_interval_bounded s fi hpad hs hw hh hq1 hq
      refine ⟨_, hres, ?_⟩
      obtain ⟨hm, hfs, hp, _, _, _, _, _⟩ := h
      refine ⟨hm, hfs, hp, rfl, hd1, hd2, ?_, rfl⟩
      show s.fmt.width * s.fmt.height * d ≤ s.max_pixel_rate
      have hpos : 0 < s.fmt.width * s.fmt.height := Nat.mul_pos hw hh
      rw [Nat.le_div_iff_mul_le hpos] at hd3
      rw [Nat.mul_comm]
      exact hd3
    · refine ⟨(-EBUSY, s), ?_, h⟩
      unfold hm5065_s_frame_interval
      simp [hpad, hs]
  · refine ⟨(-EINVAL, s), ?_, h⟩
    unfold hm5065_s_frame_interval
    simp [hpad]

theorem negotiated_area_within_rate (s : hm5065_dev) (format : v4l2_subdev_format)
    (h : state_invariant s) :
    (negotiated_format s format).width * (negotiated_format s format).height *
      s.frame_interval.denominator ≤ s.max_pixel_rate := by
  obtain ⟨hm, _, _, hn, hd1, hd2, _, _⟩ := h
  have hA : max_frame_area s = s.max_pixel_rate / s.frame_interval.denominator := by
    unfold max_frame_area
    rw [hn, Nat.mul_one]
    apply Nat.mod_eq_of_lt
    apply Nat.lt_of_le_of_lt (Nat.div_le_self _ _)
    rw [hm]; decide
  show (hm5065_frame_sizes.getD (frame_size_index (max_frame_area s) format.format.width
      format.format.height) default).width *
    (hm5065_frame_sizes.getD (frame_size_index (max_frame_area s) format.format.width
      format.format.height) default).height * s.frame_interval.denominator
    ≤ s.max_pixel_rate
  by_cases hex : ∃ fs ∈ hm5065_frame_sizes,
      frame_size_fits (max_frame_area s) format.format.width format.format.height fs = true
  · obtain ⟨hfit, _⟩ := frame_size_index_of_exists _ _ _ hex
    have hmem := getD_mem_frame_sizes _
      (frame_size_index_lt (max_frame_area s) format.format.width format.format.height)
    generalize hm5065_frame_sizes.getD (frame_size_index (max_frame_area s)
      format.format.width format.format.height) default = e at hfit hmem ⊢
    unfold frame_size_fits at hfit
    simp only [Bool.and_eq_true, decide_eq_true_eq] at hfit
    have harea := hfit.1.1
    rw [frame_area_no_wrap e hmem, hA] at harea
    exact (Nat.le_div_iff_mul_le (by omega)).1 harea
  · have hno : ∀ fs ∈ hm5065_frame_sizes,
        frame_size_fits (max_frame_area s) format.format.width format.format.height fs
          = false := by
      intro fs hmem
      cases hf : frame_size_fits (max_frame_area s) format.format.width
        format.format.height fs
      · rfl
      · exact absurd ⟨fs, hmem, hf⟩ hex
    rw [frame_size_index_of_none _ _ _ hno, hm]
    have e1 : (hm5065_frame_sizes.getD 11 default).width = 88 := rfl
    have e2 : (hm5065_frame_sizes.getD 11 default).height = 72 := rfl
    have e3 : HM5065_PCLK_FREQ_ABS_MAX * 10 / 22 = 40454545 := by decide
    rw [e1, e2, e3]
    omega

theorem invariant_negotiated (s : hm5065_dev) (format : v4l2_subdev_format)
    (h : state_invariant s) :
    state_invariant { s with fmt := negotiated_format s format,
                             pending_mode_change := true } := by
  have harea := negotiated_area_within_rate s format h
  obtain ⟨hm, _, _, hn, hd1, hd2, _, _⟩ := h
  refine ⟨hm, ?_, ?_, hn, hd1, hd2, harea, rfl⟩
  · exact ⟨_, getD_mem_frame_sizes _
      (frame_size_index_lt (max_frame_area s) format.format.width format.format.height),
      rfl, rfl⟩
  · exact ⟨_, (resolved_pixfmt_spec format.format.code).1, rfl⟩

theorem invariant_set_fmt (s : hm5065_dev) (try_fmt : v4l2_mbus_framefmt)
    (format : v4l2_subdev_format) (h : state_invariant s) :
    ∃ r, hm5065_set_fmt s try_fmt format = some r ∧ state_invariant r.2.1 := by
  by_cases hpad : format.pad = 0
  · have hd : s.frame_interval.denominator ≠ 0 := by
      obtain ⟨_, _, _, _, hd1, _⟩ := h
      omega
    rw [set_fmt_result s try_fmt format hpad hd]
    split_ifs
    · exact ⟨_, rfl, h⟩
    · exact ⟨_, rfl, h⟩
    · exact ⟨_, rfl, invariant_negotiated s format h⟩
  · refine ⟨(-EINVAL, s, try_fmt, format), ?_, h⟩
    unfold hm5065_set_fmt
    simp [hpad]

theorem invariant_run_call (env : hw_env) (st : hm5065_dev × List hw_action)
    (c : hm5065_call) (h : state_invariant st.1) :
    ∃ st1, run_call env st c = some st1 ∧ state_invariant st1.1 := by
  cases c with
  | set_fmt try_fmt format =>
    obtain ⟨r, hr, hinv⟩ := invariant_set_fmt st.1 try_fmt format h
    refine ⟨(r.2.1, st.2), ?_, hinv⟩
    simp [run_call, hr]
  | s_frame_interval fi =>
    obtain ⟨r, hr, hinv⟩ := invariant_s_frame_interval st.1 fi h
    refine ⟨(r.2, st.2), ?_, hinv⟩
    simp [run_call, hr]
  | s_stream enable =>
    exact ⟨_, rfl, invariant_s_stream env st.1 st.2 enable h⟩
  | s_power on_ =>
    exact ⟨_, rfl, invariant_s_power env st.1 st.2 on_ h⟩

theorem invariant_run_calls (env : hw_env) (calls : List hm5065_call) :
    ∀ st : hm5065_dev × List hw_action, state_invariant st.1 →
      ∃ st1, run_calls env st calls = some st1 ∧ state_invariant st1.1 := by
  induction calls with
  | nil => intro st h; exact ⟨st, rfl, h⟩
  | cons c rest ih =>
    intro st h
    obtain ⟨st1, h1, hinv1⟩ := invariant_run_call env st c h
    obtain ⟨st2, h2, hinv2⟩ := ih st1 hinv1
    refine ⟨st2, ?_, hinv2⟩
    simp [run_calls, h1, h2]

theorem invariant_find_format (s : hm5065_dev) (h : state_invariant s) :
    ∃ p, hm5065_find_format s.fmt.code = some p := by
  obtain ⟨_, _, ⟨p, hp, hc⟩, _⟩ := h
  cases hf : hm5065_find_format s.fmt.code with
  | some q => exact ⟨q, rfl⟩
  | none =>
    exfalso
    unfold hm5065_find_format at hf
    rw [List.find?_eq_none] at hf
    have := hf p hp
    simp [hc] at this

theorem set_fmt_state (s : hm5065_dev) (try_fmt : v4l2_mbus_framefmt)
    (format : v4l2_subdev_format)
    (r : Int × hm5065_dev × v4l2_mbus_framefmt × v4l2_subdev_format)
    (h : hm5065_set_fmt s try_fmt format = some r) :
    r.2.1 = s ∨
    r.2.1 = { s with fmt := negotiated_format s format, pending_mode_change := true } := by
  by_cases hpad : format.pad = 0
  · by_cases hd : s.frame_interval.denominator = 0
    · unfold hm5065_set_fmt at h
      simp [hpad, udiv, hd] at h
    · rw [set_fmt_result s try_fmt format hpad hd] at h
      rw [← Option.some.inj h]
      split_ifs
      · exact Or.inl rfl
      · exact Or.inl rfl
      · exact Or.inr rfl
  · unfold hm5065_set_fmt at h
    simp only [hpad, ne_eq, not_false_eq_true, if_true] at h
    rw [← Option.some.inj h]
    exact Or.inl rfl

theorem s_frame_interval_dirty (s : hm5065_dev) (fi : v4l2_subdev_frame_interval)
    (r : Int × hm5065_dev) (h : hm5065_s_frame_interval s fi = some r) :
    r.2 = s ∨ r.2.pending_mode_change = true := by
  unfold hm5065_s_frame_interval at h
  by_cases hpad : fi.pad = 0
  · by_cases hs : s.streaming = true
    · simp only [hpad, hs, ne_eq, not_true_eq_false, if_false, if_true] at h
      rw [← Option.some.inj h]
      exact Or.inl rfl
    · simp only [hpad, hs, ne_eq, not_true_eq_false, if_false, Bool.false_eq_true, udiv,
        Option.bind_eq_bind, Option.pure_def] at h
      by_cases hw : s.fmt.width = 0
      · simp [hw] at h
      · by_cases hh : s.fmt.height = 0
        · simp [hw, hh] at h
        · simp only [hw, hh, if_false, Option.some_bind] at h
          rw [← Option.some.inj h]
          exact Or.inr rfl
  · simp only [hpad, ne_eq, not_false_eq_true, if_true] at h
    rw [← Option.some.inj h]
    exact Or.inl rfl

theorem s_stream_start_ok (env : hw_env) (hbus : ∀ tr msgs, 0 ≤ (env.i2c_transfer tr msgs).1)
    (s : hm5065_dev) (t : List hw_action) (p : hm5065_pixfmt)
    (hs : s.streaming = false) (hpend : s.pending_mode_change = true)
    (hfmt : hm5065_find_format s.fmt.code = some p) :
    hm5065_s_stream env s t 1 =
      (0, { s with streaming := true },
        t ++ mode_programming_writes s p ++ [reg_write_action 0x0010 [0x01]]) := by
  unfold hm5065_s_stream
  rw [if_pos (by rw [hs]; decide),
    if_pos (show (1 : Int) ≠ 0 ∧ s.pending_mode_change = true from ⟨by decide, hpend⟩),
    setup_mode_ok env hbus s t p hfmt]
  simp only [ne_eq, not_true_eq_false, if_false]
  rw [set_stream_ok env hbus]
  simp [mode_programming_writes]

theorem s_stream_stop_ok (env : hw_env) (hbus : ∀ tr msgs, 0 ≤ (env.i2c_transfer tr msgs).1)
    (s : hm5065_dev) (t : List hw_action) (hs : s.streaming = true) :
    hm5065_s_stream env s t 0 =
      (0, { s with streaming := false }, t ++ [reg_write_action 0x0010 [0x00]]) :=
  s_stream_stop env s t hs (hbus _ _)

theorem s_stream_restart_ok (env : hw_env)
    (hbus : ∀ tr msgs, 0 ≤ (env.i2c_transfer tr msgs).1)
    (s : hm5065_dev) (t : List hw_action) (p : hm5065_pixfmt)
    (hs : s.streaming = false) (hpend : s.pending_mode_change = true)
    (hfmt : hm5065_find_format s.fmt.code = some p) :
    hm5065_s_stream env
        (hm5065_s_stream env (hm5065_s_stream env s t 1).2.1
          (hm5065_s_stream env s t 1).2.2 0).2.1
        (hm5065_s_stream env (hm5065_s_stream env s t 1).2.1
          (hm5065_s_stream env s t 1).2.2 0).2.2 1 =
      (0, { s with streaming := true },
        t ++ mode_programming_writes s p ++ [reg_write_action 0x0010 [0x01]] ++
          [reg_write_action 0x0010 [0x00]] ++
          mode_programming_writes s p ++ [reg_write_action 0x0010 [0x01]]) := by
  rw [s_stream_start_ok env hbus s t p hs hpend hfmt]
  simp only []
  rw [s_stream_stop_ok env hbus _ _ rfl]
  simp only []
  have e : ({ s with streaming := false } : hm5065_dev) = s := by
    cases s
    cases hs
    rfl
  rw [e, s_stream_start_ok env hbus s _ p hs hpend hfmt]

theorem probe_ideal : hm5065_probe ideal_probe_env = (0, some hm5065_probe_state) := by
  decide

/-- C24: no operation clears the dirty flag: `hm5065_set_fmt` and
`hm5065_s_frame_interval` leave `pending_mode_change` as it was or set it,
`hm5065_s_stream` and `hm5065_s_power` leave it as it was (`hm5065_setup_mode` only
reads the device state).  Hence after every sequence of calls from the state set up by
probe the flag is set, and every stream start from idle on a working bus issues the
whole mode programming before the run command, also when the stream is stopped and
started again with nothing changed in between. -/
theorem dirty_flag_never_cleared (env : hw_env) (t : List hw_action)
    (calls : List hm5065_call) :
    (∀ s try_fmt format r, hm5065_set_fmt s try_fmt format = some r →
      r.2.1.pending_mode_change = true ∨
      r.2.1.pending_mode_change = s.pending_mode_change) ∧
    (∀ s fi r, hm5065_s_frame_interval s fi = some r →
      r.2.pending_mode_change = true ∨ r.2.pending_mode_change = s.pending_mode_change) ∧
    (∀ s t0 enable,
      (hm5065_s_stream env s t0 enable).2.1.pending_mode_change = s.pending_mode_change) ∧
    (∀ s t0 on_,
      (hm5065_s_power env s t0 on_).2.1.pending_mode_change = s.pending_mode_change) ∧
    ∃ s t1, run_calls env (hm5065_probe_state, t) calls = some (s, t1) ∧
      s.pending_mode_change = true ∧
      (s.streaming = false → (∀ tr msgs, 0 ≤ (env.i2c_transfer tr msgs).1) →
        ∃ p, hm5065_find_format s.fmt.code = some p ∧
          ∀ t2,
            hm5065_s_stream env s t2 1 =
              (0, { s with streaming := true },
                t2 ++ mode_programming_writes s p ++ [reg_write_action 0x0010 [0x01]]) ∧
            hm5065_s_stream env
                (hm5065_s_stream env (hm5065_s_stream env s t2 1).2.1
                  (hm5065_s_stream env s t2 1).2.2 0).2.1
                (hm5065_s_stream env (hm5065_s_stream env s t2 1).2.1
                  (hm5065_s_stream env s t2 1).2.2 0).2.2 1 =
              (0, { s with streaming := true },
                t2 ++ mode_programming_writes s p ++ [reg_write_action 0x0010 [0x01]] ++
                  [reg_write_action 0x0010 [0x00]] ++
                  mode_programming_writes s p ++ [reg_write_action 0x0010 [0x01]])) := by
  refine ⟨?_, ?_, ?_, ?_, ?_⟩
  · intro s try_fmt format r h
    rcases set_fmt_state s try_fmt format r h with e | e <;> rw [e]
    · exact Or.inr rfl
    · exact Or.inl rfl
  · intro s fi r h
    rcases s_frame_interval_dirty s fi r h with e | e
    · rw [e]; exact Or.inr rfl
    · exact Or.inl e
  · intro s t0 enable
    rcases s_stream_state env s t0 enable with e | e <;> rw [e]
  · intro s t0 on_
    rcases s_power_state env s t0 on_ with e | e <;> rw [e]
  · obtain ⟨st1, hrun, hinv⟩ :=
      invariant_run_calls env calls (hm5065_probe_state, t) invariant_probe_state
    refine ⟨st1.1, st1.2, hrun, hinv.2.2.2.2.2.2.2, ?_⟩
    intro hs hbus
    obtain ⟨p, hp⟩ := invariant_find_format st1.1 hinv
    refine ⟨p, hp, fun t2 => ⟨?_, ?_⟩⟩
    · exact s_stream_start_ok env hbus st1.1 t2 p hs hinv.2.2.2.2.2.2.2 hp
    · exact s_stream_restart_ok env hbus st1.1 t2 p hs hinv.2.2.2.2.2.2.2 hp

theorem dirty_flag_never_cleared_witness :
    ∃ s t1, run_calls ideal_env (hm5065_probe_state, []) scenario_calls = some (s, t1) ∧
      s.pending_mode_change = true := by
  obtain ⟨s, t1, h1, h2, _⟩ :=
    (dirty_flag_never_cleared ideal_env [] scenario_calls).2.2.2.2
  exact ⟨s, t1, h1, h2⟩

/-- C25: the state set up by probe is UYVY8_2X8, 640x480, interval `1/30`,
`max_pixel_rate = 40454545`; every sequence of `hm5065_set_fmt`,
`hm5065_s_frame_interval`, `hm5065_s_stream` and `hm5065_s_power` calls from it runs
without a division by zero and ends in a state whose width and height are a frame-size
table entry, whose code is a format table entry, whose frame interval is `1/d` with
`1 ≤ d ≤ 120`, and with `width * height * d ≤ max_pixel_rate`; in that state
`hm5065_set_fmt` and `hm5065_s_frame_interval` return for every request and the format
lookup of `hm5065_setup_mode` finds an entry. -/
theorem reachable_state_invariant (env : hw_env) (t : List hw_action)
    (calls : List hm5065_call) :
    hm5065_probe ideal_probe_env = (0, some hm5065_probe_state) ∧
    hm5065_probe_state.fmt.code = MEDIA_BUS_FMT_UYVY8_2X8 ∧
    hm5065_probe_state.fmt.width = 640 ∧ hm5065_probe_state.fmt.height = 480 ∧
    hm5065_probe_state.frame_interval = { numerator := 1, denominator := 30 } ∧
    hm5065_probe_state.max_pixel_rate = 89000000 * 10 / 22 ∧
    hm5065_probe_state.max_pixel_rate = 40454545 ∧
    ∃ s t1, run_calls env (hm5065_probe_state, t) calls = some (s, t1) ∧
      (∃ fs ∈ hm5065_frame_sizes, fs.width = s.fmt.width ∧ fs.height = s.fmt.height) ∧
      (∃ p ∈ hm5065_formats, p.code = s.fmt.code) ∧
      s.frame_interval.numerator = 1 ∧
      1 ≤ s.frame_interval.denominator ∧ s.frame_interval.denominator ≤ 120 ∧
      s.fmt.width * s.fmt.height * s.frame_interval.denominator ≤ s.max_pixel_rate ∧
      s.max_pixel_rate = 40454545 ∧
      (∀ try_fmt format, ∃ r, hm5065_set_fmt s try_fmt format = some r) ∧
      (∀ fi, ∃ r, hm5065_s_frame_interval s fi = some r) ∧
      (∃ p, hm5065_find_format s.fmt.code = some p) ∧
      (∀ env2 t2, ∃ p, hm5065_find_format s.fmt.code = some p ∧
        hm5065_setup_mode env2 s t2 =
          run_writes_then env2 t2 (size_writes s)
            (fun t3 => run_writes env2 t3 (format_writes s p))) := by
  refine ⟨probe_ideal, rfl, rfl, rfl, rfl, by decide, by decide, ?_⟩
  obtain ⟨st1, hrun, hinv⟩ :=
    invariant_run_calls env calls (hm5065_probe_state, t) invariant_probe_state
  obtain ⟨p, hp⟩ := invariant_find_format st1.1 hinv
  refine ⟨st1.1, st1.2, hrun, hinv.2.1, hinv.2.2.1, hinv.2.2.2.1, hinv.2.2.2.2.1,
    hinv.2.2.2.2.2.1, hinv.2.2.2.2.2.2.1, ?_, ?_, ?_, ⟨p, hp⟩, ?_⟩
  · rw [hinv.1]; decide
  · intro try_fmt format
    obtain ⟨r, hr, _⟩ := invariant_set_fmt st1.1 try_fmt format hinv
    exact ⟨r, hr⟩
  · intro fi
    obtain ⟨r, hr, _⟩ := invariant_s_frame_interval st1.1 fi hinv
    exact ⟨r, hr⟩
  · intro env2 t2
    refine ⟨p, hp, ?_⟩
    rw [setup_mode_eq, hp]

theorem reachable_state_invariant_witness :
    ∃ s t1, run_calls ideal_env (hm5065_probe_state, []) scenario_calls = some (s, t1) ∧
      s.frame_interval.numerator = 1 ∧
      1 ≤ s.frame_interval.denominator ∧ s.frame_interval.denominator ≤ 120 ∧
      s.fmt.width * s.fmt.height * s.frame_interval.denominator ≤ s.max_pixel_rate := by
  obtain ⟨s, t1, h1, _, _, h4, h5, h6, h7, _⟩ :=
    (reachable_state_invariant ideal_env [] scenario_calls).2.2.2.2.2.2.2
  exact ⟨s, t1, h1, h4, h5, h6, h7⟩

/-- C26: from the state set up by probe (idle, 640x480, interval `1/30`,
`max_pixel_rate = 40454545`), with the format request 2592x1944 and the interval
request `1/8`, `hm5065_set_fmt` followed by `hm5065_s_frame_interval` ends at 1280x1024
with interval `1/8`, and `hm5065_s_frame_interval` followed by `hm5065_set_fmt` ends at
2592x1944 with interval `1/8`: the two orders end in different states. -/
theorem negotiation_order_matters :
    hm5065_probe_state.streaming = false ∧
    hm5065_probe_state.max_pixel_rate = 40454545 ∧
    full_size_request.format.width = 2592 ∧ full_size_request.format.height = 1944 ∧
    eight_fps_request.interval = { numerator := 1, denominator := 8 } ∧
    ((hm5065_set_fmt hm5065_probe_state hm5065_probe_state.fmt full_size_request).bind
        (fun a => hm5065_s_frame_interval a.2.1 eight_fps_request)).map
      (fun b => (b.1, b.2.fmt.width, b.2.fmt.height, b.2.frame_interval))
      = some (0, 1280, 1024, { numerator := 1, denominator := 8 }) ∧
    ((hm5065_s_frame_interval hm5065_probe_state eight_fps_request).bind
        (fun a => hm5065_set_fmt a.2 hm5065_probe_state.fmt full_size_request)).map
      (fun b => (b.1, b.2.1.fmt.width, b.2.1.fmt.height, b.2.1.frame_interval))
      = some (0, 2592, 1944, { numerator := 1, denominator := 8 }) ∧
    ((hm5065_set_fmt hm5065_probe_state hm5065_probe_state.fmt full_size_request).bind
        (fun a => hm5065_s_frame_interval a.2.1 eight_fps_request)).map
      (fun b => (b.2.fmt, b.2.frame_interval))
      ≠ ((hm5065_s_frame_interval hm5065_probe_state eight_fps_request).bind
        (fun a => hm5065_set_fmt a.2 hm5065_probe_state.fmt full_size_request)).map
      (fun b => (b.2.1.fmt, b.2.1.frame_interval)) := by
  refine ⟨rfl, by decide, rfl, rfl, rfl, by decide, by decide, by decide⟩

/-! ## Proofs: power-on ordering -/

theorem clk_lut_ids_fit_u8 : ∀ l ∈ hm5065_clk_luts, l.lut_id % 256 = l.lut_id := by
  decide

theorem find_clk_lut_mem (f : Nat) (lut : hm5065_clk_lut)
    (h : hm5065_find_clk_lut f = some lut) : lut ∈ hm5065_clk_luts := by
  unfold hm5065_find_clk_lut at h
  exact List.mem_of_find?_eq_some h

theorem configure_ok (env : hw_env) (hbus : ∀ tr msgs, 0 ≤ (env.i2c_transfer tr msgs).1)
    (t : List hw_action) (lut : hm5065_clk_lut)
    (hid : be16_value (env.i2c_transfer t (reg_read_msgs 0x0000 2)).2 = 0x039e)
    (hlut : hm5065_find_clk_lut (env.clk_get_rate (t ++ [reg_read_action 0x0000 2]))
      = some lut) :
    hm5065_configure env t =
      (0, t ++ [reg_read_action 0x0000 2, hw_action.clk_get_rate,
        reg_write_action 0x0009 [lut.lut_id]]) := by
  rw [configure_eq, if_neg (Int.not_lt.mpr (hbus _ _)), if_neg (by rw [hid]; simp), hlut]
  simp only []
  rw [write_regs_ok env hbus, clk_lut_ids_fit_u8 lut (find_clk_lut_mem _ lut hlut)]
  simp

theorem s_power_on_ok (env : hw_env) (sensor : hm5065_dev) (t : List hw_action)
    (on_ : Int) (lut : hm5065_clk_lut) (p : hm5065_pixfmt)
    (hon : on_ ≠ 0) (hp : sensor.powered = false)
    (hreg : env.regulator_bulk_enable t = 0)
    (hclk : env.clk_prepare_enable (t ++ [hw_action.regulator_bulk_enable]) = 0)
    (hrate : env.clk_set_rate
      (t ++ [hw_action.regulator_bulk_enable] ++ [hw_action.clk_prepare_enable]) 24000000 = 0)
    (hbus : ∀ tr msgs, 0 ≤ (env.i2c_transfer tr msgs).1)
    (hid : be16_value (env.i2c_transfer (t ++ power_up_actions) (reg_read_msgs 0x0000 2)).2
      = 0x039e)
    (hlut : hm5065_find_clk_lut
      (env.clk_get_rate (t ++ power_up_actions ++ [reg_read_action 0x0000 2])) = some lut)
    (hfmt : hm5065_find_format sensor.fmt.code = some p) :
    hm5065_s_power env sensor t on_ =
      (env.v4l2_ctrl_handler_setup (t ++ power_on_actions sensor lut p),
        { sensor with powered := true },
        t ++ power_on_actions sensor lut p ++ [hw_action.v4l2_ctrl_handler_setup]) := by
  have hsp := set_power_on_eq env sensor t hreg hclk hrate
  rw [configure_ok env hbus (t ++ power_up_actions) lut hid hlut] at hsp
  simp only [ne_eq, not_true_eq_false, if_false] at hsp
  rw [setup_mode_ok env hbus sensor _ p hfmt] at hsp
  simp only [ne_eq, not_true_eq_false, if_false] at hsp
  have htr : t ++ power_up_actions ++
      [reg_read_action 0x0000 2, hw_action.clk_get_rate, reg_write_action 0x0009 [lut.lut_id]] ++
      [ reg_write_action 0x0040 [0x00],
        reg_write_action 0x0041 [0x0a],
        reg_write_action 0x0042 (be16 sensor.fmt.width),
        reg_write_action 0x0044 (be16 sensor.fmt.height),
        reg_write_action 0x0046 [p.data_fmt] ] ++
      (if p.needs_ycbcr_setup then [reg_write_action 0x0085 [p.ycbcr_order]] else []) ++
      [ reg_write_action 0x00c8 (be16 sensor.frame_interval.denominator) ]
      = t ++ power_on_actions sensor lut p := by
    simp [power_on_actions, mode_programming_writes]
  rw [htr] at hsp
  rw [s_power_up env sensor t on_ hon hp, hsp]
  simp

theorem power_on_actions_steps (sensor : hm5065_dev) (lut : hm5065_clk_lut)
    (p : hm5065_pixfmt) :
    (power_on_actions sensor lut p ++ [hw_action.v4l2_ctrl_handler_setup]).filter
        (fun a => !is_delay_or_query a)
      = power_on_sequence_reference sensor lut p ++ [hw_action.v4l2_ctrl_handler_setup] := by
  cases h : p.needs_ycbcr_setup <;>
    simp [power_on_actions, power_up_actions, mode_programming_writes,
      power_on_sequence_reference, is_delay_or_query, reg_read_action, reg_write_action, h,
      List.filter]

/-- C27, counterexample: with collaborators that succeed in everything, the power-on of
the state set up by probe ends with the restoring of the controls
(`v4l2_ctrl_handler_setup`), which follows the mode-programming writes, so the actions
performed are not the listed sequence, also when delays and the query of the clock rate
are left out; and when only the restoring of the controls fails, the call returns its
error code while `powered` is set. -/
theorem power_on_counterexample :
    hm5065_s_power ideal_env hm5065_probe_state [] 1 =
      (0, { hm5065_probe_state with powered := true },
        power_on_actions hm5065_probe_state ⟨24000000, 0x16⟩ (hm5065_formats.getD 0 default)
          ++ [hw_action.v4l2_ctrl_handler_setup]) ∧
    (hm5065_s_power ideal_env hm5065_probe_state [] 1).2.2
      ≠ power_on_sequence_reference hm5065_probe_state ⟨24000000, 0x16⟩
          (hm5065_formats.getD 0 default) ∧
    (hm5065_s_power ideal_env hm5065_probe_state [] 1).2.2.filter
        (fun a => !is_delay_or_query a)
      ≠ power_on_sequence_reference hm5065_probe_state ⟨24000000, 0x16⟩
          (hm5065_formats.getD 0 default) ∧
    (hm5065_s_power failing_ctrl_env hm5065_probe_state [] 1).1 = -5 ∧
    (hm5065_s_power failing_ctrl_env hm5065_probe_state [] 1).2.1.powered = true := by
  refine ⟨by decide, by decide, by decide, by decide, by decide⟩

/-- C27, amended: from `powered = false`, when regulators, clock and every bus transfer
succeed, the identity register reads `0x039e`, the reported clock rate has the
lookup-table entry `lut` and the current code has the format entry `p`,
`hm5065_s_power(on)` performs exactly: enable regulators, enable clock, set the clock
rate to 24000000 Hz, delay, chip-enable low and reset high, delay, chip-enable high and
reset low, delay, read 2 bytes at register `0x0000`, query the clock rate, write the
lookup id to register `0x0009`, the mode-programming writes, and then the restoring of
the controls; `powered` is set and the return value is the result of the restoring of
the controls (0 when it succeeds).  Without the delays and the query this is the
listed sequence followed by the restoring of the controls. -/
theorem power_on_ordering (env : hw_env) (sensor : hm5065_dev) (t : List hw_action)
    (on_ : Int) (lut : hm5065_clk_lut) (p : hm5065_pixfmt)
    (hon : on_ ≠ 0) (hp : sensor.powered = false)
    (hreg : env.regulator_bulk_enable t = 0)
    (hclk : env.clk_prepare_enable (t ++ [hw_action.regulator_bulk_enable]) = 0)
    (hrate : env.clk_set_rate
      (t ++ [hw_action.regulator_bulk_enable] ++ [hw_action.clk_prepare_enable]) 24000000 = 0)
    (hbus : ∀ tr msgs, 0 ≤ (env.i2c_transfer tr msgs).1)
    (hid : be16_value (env.i2c_transfer (t ++ power_up_actions) (reg_read_msgs 0x0000 2)).2
      = 0x039e)
    (hlut : hm5065_find_clk_lut
      (env.clk_get_rate (t ++ power_up_actions ++ [reg_read_action 0x0000 2])) = some lut)
    (hfmt : hm5065_find_format sensor.fmt.code = some p) :
    hm5065_s_power env sensor t on_ =
      (env.v4l2_ctrl_handler_setup (t ++ power_on_actions sensor lut p),
        { sensor with powered := true },
        t ++ power_on_actions sensor lut p ++ [hw_action.v4l2_ctrl_handler_setup]) ∧
    power_on_actions sensor lut p =
      [ hw_action.regulator_bulk_enable,
        hw_action.clk_prepare_enable,
        hw_action.clk_set_rate 24000000,
        hw_action.usleep_range 1000 2000,
        hw_action.gpiod_set_value gpio_line.chipenable_gpio 0,
        hw_action.gpiod_set_value gpio_line.reset_gpio 1,
        hw_action.usleep_range 1000 2000,
        hw_action.gpiod_set_value gpio_line.chipenable_gpio 1,
        hw_action.gpiod_set_value gpio_line.reset_gpio 0,
        hw_action.usleep_range 50000 70000,
        reg_read_action 0x0000 2,
        hw_action.clk_get_rate,
        reg_write_action 0x0009 [lut.lut_id] ] ++
      mode_programming_writes sensor p ∧
    (power_on_actions sensor lut p ++ [hw_action.v4l2_ctrl_handler_setup]).filter
        (fun a => !is_delay_or_query a)
      = power_on_sequence_reference sensor lut p ++ [hw_action.v4l2_ctrl_handler_setup] ∧
    (env.v4l2_ctrl_handler_setup (t ++ power_on_actions sensor lut p) = 0 →
      (hm5065_s_power env sensor t on_).1 = 0) := by
  have h := s_power_on_ok env sensor t on_ lut p hon hp hreg hclk hrate hbus hid hlut hfmt
  refine ⟨h, ?_, power_on_actions_steps sensor lut p, ?_⟩
  · simp [power_on_actions, power_up_actions]
  · intro h0
    rw [h]
    exact h0

theorem power_on_ordering_witness :
    (1 : Int) ≠ 0 ∧ hm5065_probe_state.powered = false ∧
    hm5065_s_power ideal_env hm5065_probe_state [] 1 =
      (0, { hm5065_probe_state with powered := true },
        [] ++ power_on_actions hm5065_probe_state ⟨24000000, 0x16⟩
          (hm5065_formats.getD 0 default) ++ [hw_action.v4l2_ctrl_handler_setup]) :=
  ⟨by decide, rfl,
    (power_on_ordering ideal_env hm5065_probe_state [] 1 ⟨24000000, 0x16⟩
      (hm5065_formats.getD 0 default) (by decide) rfl rfl rfl rfl ideal_env_bus_ok
      (by decide) (by decide) (by decide)).1⟩

/-! ## Proofs: probe -/

theorem probe_no_gpio (env : probe_env) (h1 : env.devm_kzalloc = true)
    (h2 : env.endpoint = true) (h3 : env.v4l2_fwnode_endpoint_parse = 0)
    (h4 : env.bus_type_parallel = true) (h5 : env.devm_clk_get = none)
    (h6 : env.chipenable_gpio = gpio_desc_ptr.null)
    (h7 : env.reset_gpio = gpio_desc_ptr.null) :
    hm5065_probe env = (0, some hm5065_probe_state) := by
  unfold hm5065_probe
  simp only [h1, h2, h3, h4, h5, h6, h7]
  rfl

/-- C30: when neither the chip-enable line nor the reset line is described and every
earlier step of `hm5065_probe` succeeds, `hm5065_probe` returns `ret`, which still
holds the 0 of `v4l2_fwnode_endpoint_parse`: the result is 0 (success), with the device
structure initialised, and not a negative error code. -/
theorem probe_without_gpio_returns_zero :
    no_gpio_probe_env.chipenable_gpio = gpio_desc_ptr.null ∧
    no_gpio_probe_env.reset_gpio = gpio_desc_ptr.null ∧
    hm5065_probe no_gpio_probe_env = (0, some hm5065_probe_state) ∧
    ¬ (hm5065_probe no_gpio_probe_env).1 < 0 ∧
    (∀ env : probe_env, env.devm_kzalloc = true → env.endpoint = true →
      env.v4l2_fwnode_endpoint_parse = 0 → env.bus_type_parallel = true →
      env.devm_clk_get = none → env.chipenable_gpio = gpio_desc_ptr.null →
      env.reset_gpio = gpio_desc_ptr.null →
      hm5065_probe env = (0, some hm5065_probe_state)) := by
  refine ⟨rfl, rfl, by decide, by decide, probe_no_gpio⟩

/-! ## Proofs: fields of the encoder result -/

theorem mili_to_fp16_of_v (x : Int) (hx0 : x ≠ 0) :
    hm5065_mili_to_fp16 x =
      wrap_u 16
        (((if x < 0 then 0x8000 else 0) |||
          ((if __fls64 (hm5065_mili_to_fp16_v x) > 9 then
              (hm5065_mili_to_fp16_v x >>> (__fls64 (hm5065_mili_to_fp16_v x) - 9).toNat) % 2 ^ 16
            else
              ((hm5065_mili_to_fp16_v x <<< (9 - __fls64 (hm5065_mili_to_fp16_v x)).toNat)
                % 2 ^ 64) % 2 ^ 16) &&& 0x1ff) |||
          (wrap_u 16 (31 + __fls64 (hm5065_mili_to_fp16_v x) - 10) <<< 9) : Nat) : Int) := by
  unfold hm5065_mili_to_fp16 hm5065_mili_to_fp16_v
  rw [if_neg hx0]

theorem mili_to_fp16_v_eq (x : Int) (hx0 : x ≠ 0) (hlo : -2 ^ 31 < x) (hhi : x < 2 ^ 31) :
    hm5065_mili_to_fp16_v x =
      1024 * x.natAbs / 1000 + (if (1024 * x.natAbs) % 1000 ≥ 500 then 1 else 0) := by
  unfold hm5065_mili_to_fp16_v
  have ha1 : 1 ≤ x.natAbs := by omega
  have ha2 : x.natAbs < 2 ^ 31 := by omega
  have hval : (if x < 0 then wrap_s 32 (-x) else x) = (x.natAbs : Int) := by
    split
    · unfold wrap_s
      have e1 : (2 : Int) ^ (32 - 1) = 2147483648 := by norm_num
      have e2 : (2 : Int) ^ 32 = 4294967296 := by norm_num
      have e3 : (2 : Int) ^ 31 = 2147483648 := by norm_num
      rw [e1, e2]
      rw [e3] at hlo hhi
      omega
    · omega
  simp only [hval]
  rw [wrap_u_of_nat 64 _ (by omega)]
  have hv0 : x.natAbs * 1024 % 2 ^ 64 = 1024 * x.natAbs := by
    rw [Nat.mod_eq_of_lt (by omega)]; ring
  simp only [hv0]
  obtain ⟨_, hv2⟩ := round_scaled_bounds x.natAbs ha1 ha2
  exact Nat.mod_eq_of_lt (by omega)

theorem encode_field_values (x : Int) (hx0 : x ≠ 0) (hlo : -2 ^ 31 < x) (hhi : x < 2 ^ 31) :
    1 ≤ hm5065_mili_to_fp16_v x ∧ hm5065_mili_to_fp16_v x < 2 ^ 32 ∧
    Nat.log2 (hm5065_mili_to_fp16_v x) ≤ 31 ∧
    hm5065_mili_to_fp16 x < 2 ^ 16 ∧
    (hm5065_mili_to_fp16 x >>> 9) &&& 0x3f = 21 + Nat.log2 (hm5065_mili_to_fp16_v x) ∧
    (32768 ≤ hm5065_mili_to_fp16 x ↔ x < 0) := by
  obtain ⟨v, f, M, hv, hv1, hf, _, _, hf31, _, hM1, hM2, henc⟩ := encode_fields x hx0 hlo hhi
  have hveq := mili_to_fp16_v_eq x hx0 hlo hhi
  rw [← hv] at hveq
  have ha1 : 1 ≤ x.natAbs := by omega
  have ha2 : x.natAbs < 2 ^ 31 := by omega
  obtain ⟨_, hv2⟩ := round_scaled_bounds x.natAbs ha1 ha2
  rw [← hv] at hv2
  rw [hveq, ← hf, henc]
  have hand : ∀ n : Nat, n &&& 0x3f = n % 64 := fun n => Nat.and_pow_two_sub_one_eq_mod n 6
  rw [hand, Nat.shiftRight_eq_div_pow]
  refine ⟨hv1, hv2, hf31, ?_, ?_, ?_⟩
  · split <;> omega
  · split <;> omega
  · split <;> omega

/-- C31: for every 32-bit signed `x` that is neither zero nor `INT_MIN`, the result of
`hm5065_mili_to_fp16` is assembled from the scaled value `v`, which is at least 1, so
that `__fls64 v` is `⌊log2 v⌋` and not the `-2` that `__fls64` returns for 0; the
exponent field `(result >> 9) & 0x3f` lies in `[21, 62]` (in fact in `[21, 52]`), equals
`31 + ⌊log2 v⌋ - 10`, and is the untruncated `u16` value `e`; and bit 15 of the result
is set exactly when `x < 0`. -/
theorem encode_never_overflows (x : Int) (hx0 : x ≠ 0) (hlo : -2 ^ 31 < x)
    (hhi : x < 2 ^ 31) :
    hm5065_mili_to_fp16 x =
      wrap_u 16
        (((if x < 0 then 0x8000 else 0) |||
          ((if __fls64 (hm5065_mili_to_fp16_v x) > 9 then
              (hm5065_mili_to_fp16_v x >>> (__fls64 (hm5065_mili_to_fp16_v x) - 9).toNat) % 2 ^ 16
            else
              ((hm5065_mili_to_fp16_v x <<< (9 - __fls64 (hm5065_mili_to_fp16_v x)).toNat)
                % 2 ^ 64) % 2 ^ 16) &&& 0x1ff) |||
          (wrap_u 16 (31 + __fls64 (hm5065_mili_to_fp16_v x) - 10) <<< 9) : Nat) : Int) ∧
    1 ≤ hm5065_mili_to_fp16_v x ∧
    __fls64 (hm5065_mili_to_fp16_v x) = (Nat.log2 (hm5065_mili_to_fp16_v x) : Int) ∧
    __fls64 0 = -2 ∧
    __fls64 (hm5065_mili_to_fp16_v x) ≠ -2 ∧
    21 ≤ (hm5065_mili_to_fp16 x >>> 9) &&& 0x3f ∧
    (hm5065_mili_to_fp16 x >>> 9) &&& 0x3f ≤ 62 ∧
    (hm5065_mili_to_fp16 x >>> 9) &&& 0x3f ≤ 52 ∧
    (((hm5065_mili_to_fp16 x >>> 9) &&& 0x3f : Nat) : Int)
      = 31 + __fls64 (hm5065_mili_to_fp16_v x) - 10 ∧
    (hm5065_mili_to_fp16 x >>> 9) &&& 0x3f
      = 31 + Nat.log2 (hm5065_mili_to_fp16_v x) - 10 ∧
    wrap_u 16 (31 + __fls64 (hm5065_mili_to_fp16_v x) - 10)
      = (hm5065_mili_to_fp16 x >>> 9) &&& 0x3f ∧
    ((hm5065_mili_to_fp16 x).testBit 15 = true ↔ x < 0) := by
  obtain ⟨hv1, hv2, hf31, hres, hfield, hsign⟩ := encode_field_values x hx0 hlo hhi
  have hfls := fls64_eq_log2 (hm5065_mili_to_fp16_v x) (by omega) (by omega)
  have hzero : __fls64 0 = -2 := by decide
  refine ⟨mili_to_fp16_of_v x hx0, hv1, hfls, hzero, ?_, ?_, ?_, ?_, ?_, ?_, ?_, ?_⟩
  · rw [hfls]; omega
  · omega
  · omega
  · omega
  · rw [hfls, hfield]; omega
  · omega
  · rw [hfls, hfield]
    have e : (31 + ((hm5065_mili_to_fp16_v x).log2 : Int) - 10)
        = ((21 + (hm5065_mili_to_fp16_v x).log2 : Nat) : Int) := by omega
    rw [e, wrap_u_of_nat 16 _ (by norm_num; omega)]
  · rw [testBit15_iff _ hres]
    exact hsign

theorem encode_never_overflows_witness :
    (-12345678 : Int) ≠ 0 ∧ (-2 ^ 31 < (-12345678 : Int)) ∧ ((-12345678 : Int) < 2 ^ 31) ∧
    1 ≤ hm5065_mili_to_fp16_v (-12345678) ∧
    __fls64 (hm5065_mili_to_fp16_v (-12345678))
      = (Nat.log2 (hm5065_mili_to_fp16_v (-12345678)) : Int) ∧
    (hm5065_mili_to_fp16 (-12345678) >>> 9) &&& 0x3f
      = 31 + Nat.log2 (hm5065_mili_to_fp16_v (-12345678)) - 10 ∧
    ((hm5065_mili_to_fp16 (-12345678)).testBit 15 = true ↔ (-12345678 : Int) < 0) ∧
    hm5065_mili_to_fp16_v (-12345678) = 12641974 ∧
    (hm5065_mili_to_fp16 (-12345678) >>> 9) &&& 0x3f = 44 :=
  ⟨by decide, by norm_num, by norm_num,
    (encode_never_overflows (-12345678) (by decide) (by norm_num) (by norm_num)).2.1,
    (encode_never_overflows (-12345678) (by decide) (by norm_num) (by norm_num)).2.2.1,
    (encode_never_overflows (-12345678) (by decide) (by norm_num)
      (by norm_num)).2.2.2.2.2.2.2.2.2.1,
    (encode_never_overflows (-12345678) (by decide) (by norm_num)
      (by norm_num)).2.2.2.2.2.2.2.2.2.2.2,
    by decide, by decide⟩

/-! ## Proofs: properties that hold in every reachable state -/

theorem reachable_invariant (env : hw_env) (t : List hw_action) (calls : List hm5065_call)
    (s : hm5065_dev)
    (hreach : (run_calls env (hm5065_probe_state, t) calls).map Prod.fst = some s) :
    state_invariant s := by
  obtain ⟨st1, hrun, hinv⟩ :=
    invariant_run_calls env calls (hm5065_probe_state, t) invariant_probe_state
  rw [hrun] at hreach
  have e : st1.1 = s := Option.some.inj hreach
  rw [← e]
  exact hinv

theorem scenario_calls_reach :
    (run_calls ideal_env (hm5065_probe_state, []) scenario_calls).map Prod.fst
      = some scenario_final_state := by
  decide

theorem negotiation_calls_reach :
    (run_calls ideal_env (hm5065_probe_state, []) negotiation_calls).map Prod.fst
      = some negotiated_idle_state := by
  decide

/-- C4: in every state that a sequence of calls reaches from the state set up by probe
and in which streaming is set, `hm5065_set_fmt` (pad 0, active format) and
`hm5065_s_frame_interval` (pad 0) both return `-EBUSY` and leave the device state, that
is current format, frame interval, `pending_mode_change`, powered and streaming,
unchanged; `hm5065_set_fmt` leaves the try format unchanged as well. -/
theorem streaming_rejects_changes (env : hw_env) (t : List hw_action)
    (calls : List hm5065_call) (s : hm5065_dev)
    (try_fmt : v4l2_mbus_framefmt) (format : v4l2_subdev_format)
    (fi : v4l2_subdev_frame_interval)
    (hreach : (run_calls env (hm5065_probe_state, t) calls).map Prod.fst = some s)
    (hs : s.streaming = true)
    (hpad : format.pad = 0) (hwhich : format.which = V4L2_SUBDEV_FORMAT_ACTIVE)
    (hfipad : fi.pad = 0) :
    (∃ format1, hm5065_set_fmt s try_fmt format = some (-EBUSY, s, try_fmt, format1)) ∧
    hm5065_s_frame_interval s fi = some (-EBUSY, s) ∧
    (∀ r, hm5065_set_fmt s try_fmt format = some r →
      r.1 = -EBUSY ∧ r.2.1.fmt = s.fmt ∧ r.2.1.frame_interval = s.frame_interval ∧
      r.2.1.pending_mode_change = s.pending_mode_change ∧ r.2.1.powered = s.powered ∧
      r.2.1.streaming = s.streaming) ∧
    (∀ r, hm5065_s_frame_interval s fi = some r →
      r.1 = -EBUSY ∧ r.2.fmt = s.fmt ∧ r.2.frame_interval = s.frame_interval ∧
      r.2.pending_mode_change = s.pending_mode_change ∧ r.2.powered = s.powered ∧
      r.2.streaming = s.streaming) := by
  have hinv := reachable_invariant env t calls s hreach
  have hd : s.frame_interval.denominator ≠ 0 := by
    obtain ⟨_, _, _, _, hd1, _⟩ := hinv
    omega
  obtain ⟨hfi, hfmt⟩ := streaming_rejects_of_state s try_fmt format fi hs hpad hwhich hfipad
  obtain ⟨format1, hset⟩ := hfmt hd
  refine ⟨⟨format1, hset⟩, hfi, ?_, ?_⟩
  · intro r hr
    rw [hset] at hr
    rw [← Option.some.inj hr]
    exact ⟨rfl, rfl, rfl, rfl, rfl, rfl⟩
  · intro r hr
    rw [hfi] at hr
    rw [← Option.some.inj hr]
    exact ⟨rfl, rfl, rfl, rfl, rfl, rfl⟩

theorem streaming_rejects_changes_witness :
    (run_calls ideal_env (hm5065_probe_state, []) scenario_calls).map Prod.fst
      = some scenario_final_state ∧
    scenario_final_state.streaming = true ∧ full_size_request.pad = 0 ∧
    full_size_request.which = V4L2_SUBDEV_FORMAT_ACTIVE ∧ eight_fps_request.pad = 0 ∧
    (∃ format1, hm5065_set_fmt scenario_final_state hm5065_probe_state.fmt full_size_request
      = some (-EBUSY, scenario_final_state, hm5065_probe_state.fmt, format1)) ∧
    hm5065_s_frame_interval scenario_final_state eight_fps_request
      = some (-EBUSY, scenario_final_state) :=
  ⟨scenario_calls_reach, rfl, rfl, rfl, rfl,
    (streaming_rejects_changes ideal_env [] scenario_calls scenario_final_state
      hm5065_probe_state.fmt full_size_request eight_fps_request scenario_calls_reach
      rfl rfl rfl rfl).1,
    (streaming_rejects_changes ideal_env [] scenario_calls scenario_final_state
      hm5065_probe_state.fmt full_size_request eight_fps_request scenario_calls_reach
      rfl rfl rfl rfl).2.1⟩

/-- C11: in every state that a sequence of calls reaches from the state set up by probe
and in which streaming is clear, a call of `hm5065_s_frame_interval` on pad 0 with
requested numerator 0 (any denominator) resolves the frame rate to 120 before the
resolution clamp, returns 0 and stores the interval
`(1, min 120 ⌊max_pixel_rate / (width * height)⌋)` for the current width and height;
the division is by a width and a height that are not zero. -/
theorem unconstrained_rate_resolves (env : hw_env) (t : List hw_action)
    (calls : List hm5065_call) (s : hm5065_dev) (fi : v4l2_subdev_frame_interval)
    (hreach : (run_calls env (hm5065_probe_state, t) calls).map Prod.fst = some s)
    (hs : s.streaming = false) (hpad : fi.pad = 0) (hn : fi.interval.numerator = 0) :
    clamp (if fi.interval.numerator = 0 then HM5065_FRAME_RATE_MAX
      else wrap_s 32 ((fi.interval.denominator / fi.interval.numerator : Nat) : Int))
      1 HM5065_FRAME_RATE_MAX = 120 ∧
    0 < s.fmt.width ∧ 0 < s.fmt.height ∧
    hm5065_s_frame_interval s fi =
      some (0, { s with
                  frame_interval :=
                    { numerator := 1,
                      denominator :=
                        min 120 (s.max_pixel_rate / (s.fmt.width * s.fmt.height)) },
                  pending_mode_change := true }) := by
  have hinv := reachable_invariant env t calls s hreach
  obtain ⟨hw, hh, _, hq⟩ := invariant_quotient s hinv
  refine ⟨?_, hw, hh, s_frame_interval_unconstrained s fi hpad hs hn hw hh hq⟩
  rw [if_pos hn]
  decide

theorem unconstrained_rate_resolves_witness :
    (run_calls ideal_env (hm5065_probe_state, []) negotiation_calls).map Prod.fst
      = some negotiated_idle_state ∧
    negotiated_idle_state.streaming = false ∧ unconstrained_request.pad = 0 ∧
    unconstrained_request.interval.numerator = 0 ∧
    hm5065_s_frame_interval negotiated_idle_state unconstrained_request =
      some (0, { negotiated_idle_state with
                  frame_interval :=
                    { numerator := 1,
                      denominator :=
                        min 120 (negotiated_idle_state.max_pixel_rate /
                          (negotiated_idle_state.fmt.width *
                            negotiated_idle_state.fmt.height)) },
                  pending_mode_change := true }) ∧
    min 120 (negotiated_idle_state.max_pixel_rate /
      (negotiated_idle_state.fmt.width * negotiated_idle_state.fmt.height)) = 30 :=
  ⟨negotiation_calls_reach, rfl, rfl, rfl,
    (unconstrained_rate_resolves ideal_env [] negotiation_calls negotiated_idle_state
      unconstrained_request negotiation_calls_reach rfl rfl rfl).2.2.2,
    by decide⟩

/-- C18: in every idle state (streaming clear) that a sequence of calls reaches from the
state set up by probe, `hm5065_set_fmt` on pad 0 with the active format (any `which`
other than the try format) returns 0, stores exactly the negotiated format as the
current format (its code is the resolved table code, its width and height are those of
the selected table entry), sets `pending_mode_change` and leaves frame interval,
powered, streaming and `max_pixel_rate` unchanged; with the try format it returns 0 and
leaves the device state unchanged.  `hm5065_s_frame_interval` returns and leaves the
current format, powered and streaming unchanged.  Both calls leave the hardware trace
as it was: they issue no bus transaction. -/
theorem lazy_apply_while_idle (env : hw_env) (t : List hw_action)
    (calls : List hm5065_call) (s : hm5065_dev)
    (try_fmt : v4l2_mbus_framefmt) (format : v4l2_subdev_format)
    (fi : v4l2_subdev_frame_interval)
    (hreach : (run_calls env (hm5065_probe_state, t) calls).map Prod.fst = some s)
    (hs : s.streaming = false) (hpad : format.pad = 0) :
    (format.which ≠ V4L2_SUBDEV_FORMAT_TRY →
      hm5065_set_fmt s try_fmt format =
        some (0, { s with fmt := negotiated_format s format,
                          pending_mode_change := true },
          try_fmt, { format with format := negotiated_format s format })) ∧
    (format.which = V4L2_SUBDEV_FORMAT_TRY →
      hm5065_set_fmt s try_fmt format =
        some (0, s, negotiated_format s format,
          { format with format := negotiated_format s format })) ∧
    (negotiated_format s format).code = (resolved_pixfmt format.format.code).code ∧
    (negotiated_format s format).width =
      (hm5065_frame_sizes.getD
        (frame_size_index (max_frame_area s) format.format.width
          format.format.height) default).width ∧
    (negotiated_format s format).height =
      (hm5065_frame_sizes.getD
        (frame_size_index (max_frame_area s) format.format.width
          format.format.height) default).height ∧
    (∃ r, hm5065_s_frame_interval s fi = some r ∧
      r.2.fmt = s.fmt ∧ r.2.powered = s.powered ∧ r.2.streaming = s.streaming) ∧
    (∀ t2, (run_call env (s, t2) (hm5065_call.set_fmt try_fmt format)).map Prod.snd
      = some t2) ∧
    (∀ t2, (run_call env (s, t2) (hm5065_call.s_frame_interval fi)).map Prod.snd
      = some t2) := by
  have hinv := reachable_invariant env t calls s hreach
  have hd : s.frame_interval.denominator ≠ 0 := by
    obtain ⟨_, _, _, _, hd1, _⟩ := hinv
    omega
  have hres := set_fmt_result s try_fmt format hpad hd
  obtain ⟨r, hr, _⟩ := invariant_s_frame_interval s fi hinv
  obtain ⟨q, hq, _⟩ := invariant_set_fmt s try_fmt format hinv
  refine ⟨?_, ?_, rfl, rfl, rfl, ?_, ?_, ?_⟩
  · intro hnt
    rw [if_neg hnt, if_neg (by rw [hs]; decide)] at hres
    exact hres
  · intro htry
    rw [if_pos htry] at hres
    exact hres
  · obtain ⟨h1, h2, h3, _⟩ := s_frame_interval_frame s fi r hr
    exact ⟨r, hr, h1, h2, h3⟩
  · intro t2
    simp [run_call, hq]
  · intro t2
    simp [run_call, hr]

theorem lazy_apply_while_idle_witness :
    (run_calls ideal_env (hm5065_probe_state, []) negotiation_calls).map Prod.fst
      = some negotiated_idle_state ∧
    negotiated_idle_state.streaming = false ∧ scenario_request.pad = 0 ∧
    scenario_request.which ≠ V4L2_SUBDEV_FORMAT_TRY ∧
    hm5065_set_fmt negotiated_idle_state hm5065_probe_state.fmt scenario_request =
      some (0, { negotiated_idle_state with
                  fmt := negotiated_format negotiated_idle_state scenario_request,
                  pending_mode_change := true },
        hm5065_probe_state.fmt,
        { scenario_request with
          format := negotiated_format negotiated_idle_state scenario_request }) ∧
    (negotiated_format negotiated_idle_state scenario_request).width = 1920 ∧
    (negotiated_format negotiated_idle_state scenario_request).height = 1080 ∧
    ∃ r, hm5065_s_frame_interval negotiated_idle_state unconstrained_request = some r ∧
      r.2.fmt = negotiated_idle_state.fmt ∧ r.2.powered = negotiated_idle_state.powered ∧
      r.2.streaming = negotiated_idle_state.streaming :=
  ⟨negotiation_calls_reach, rfl, rfl, by decide,
    (lazy_apply_while_idle ideal_env [] negotiation_calls negotiated_idle_state
      hm5065_probe_state.fmt scenario_request unconstrained_request
      negotiation_calls_reach rfl rfl).1 (by decide),
    by decide, by decide,
    (lazy_apply_while_idle ideal_env [] negotiation_calls negotiated_idle_state
      hm5065_probe_state.fmt scenario_request unconstrained_request
      negotiation_calls_reach rfl rfl).2.2.2.2.2.1⟩

/-- C21: in every state that a sequence of calls reaches from the state set up by probe,
with frame interval `n/d`, the denominator is at least 1 and the budget of
`hm5065_set_fmt`, computed as `(max_pixel_rate / d * n) mod 2^32`, equals
`⌊max_pixel_rate * n / d⌋`: the loop condition holds for a table entry exactly when its
area is at most `⌊max_pixel_rate * n / d⌋` and it does not exceed the requested width
and height, and the returned width and height are those of the entry selected with
that budget. -/
theorem budget_matches_reference (env : hw_env) (t : List hw_action)
    (calls : List hm5065_call) (s : hm5065_dev)
    (try_fmt : v4l2_mbus_framefmt) (format : v4l2_subdev_format)
    (hreach : (run_calls env (hm5065_probe_state, t) calls).map Prod.fst = some s)
    (hpad : format.pad = 0) :
    1 ≤ s.frame_interval.denominator ∧
    (s.max_pixel_rate / s.frame_interval.denominator * s.frame_interval.numerator) % 2 ^ 32
      = s.max_pixel_rate * s.frame_interval.numerator / s.frame_interval.denominator ∧
    max_frame_area s = budget_reference s ∧
    (∀ fs ∈ hm5065_frame_sizes,
      frame_size_fits (max_frame_area s) format.format.width format.format.height fs = true ↔
      (fs.width * fs.height ≤
          s.max_pixel_rate * s.frame_interval.numerator / s.frame_interval.denominator ∧
        fs.width ≤ format.format.width ∧ fs.height ≤ format.format.height)) ∧
    (∃ ret sensor1 try1 format1,
      hm5065_set_fmt s try_fmt format = some (ret, sensor1, try1, format1) ∧
      format1.format.width = (hm5065_frame_sizes.getD
        (frame_size_index
          (s.max_pixel_rate * s.frame_interval.numerator / s.frame_interval.denominator)
          format.format.width format.format.height) default).width ∧
      format1.format.height = (hm5065_frame_sizes.getD
        (frame_size_index
          (s.max_pixel_rate * s.frame_interval.numerator / s.frame_interval.denominator)
          format.format.width format.format.height) default).height) := by
  have hinv := reachable_invariant env t calls s hreach
  obtain ⟨hm, _, _, hn, hd1, _, _, _⟩ := hinv
  have hmpr : s.max_pixel_rate < 2 ^ 32 := by rw [hm]; decide
  have hA : max_frame_area s = budget_reference s := max_frame_area_eq_reference s hn hmpr
  have hB : budget_reference s
      = s.max_pixel_rate * s.frame_interval.numerator / s.frame_interval.denominator := rfl
  refine ⟨hd1, ?_, hA, ?_, ?_⟩
  · rw [← hB, ← hA]; rfl
  · intro fs hfs
    rw [fits_iff_admissible _ _ _ fs hfs, hA, hB]
    rfl
  · obtain ⟨ret, s1, t1, f1, h, hw, hh, _⟩ := set_fmt_eq s try_fmt format hpad (by omega)
    rw [hA, hB] at hw hh
    exact ⟨ret, s1, t1, f1, h, hw, hh⟩

theorem budget_matches_reference_witness :
    (run_calls ideal_env (hm5065_probe_state, []) negotiation_calls).map Prod.fst
      = some negotiated_idle_state ∧
    full_size_request.pad = 0 ∧
    max_frame_area negotiated_idle_state = budget_reference negotiated_idle_state ∧
    budget_reference negotiated_idle_state = 5056818 :=
  ⟨negotiation_calls_reach, rfl,
    (budget_matches_reference ideal_env [] negotiation_calls negotiated_idle_state
      hm5065_probe_state.fmt full_size_request negotiation_calls_reach rfl).2.2.1,
    by decide⟩

end HM5065
